import Mathlib

/-!
# Runtime core: scheduler status words, slice quotas, lock-free allocator

A shallow embedding of parts of the runtime (ia32 build, `arch.h`:
`CACHE_LINE_SIZE = 32`, `PAGE_SIZE = 4096`, 32-bit `unsigned int`).

Conventions of the embedding.

* One executor runs at a time (sequential execution).  Every atomic
  compare-and-set is still written as a compare against the current value of
  the word, and every retry loop of the source is a loop with fuel.
* `unsigned int` values are natural numbers; arithmetic that can wrap is
  followed by `% 2 ^ 32`.  Pointers are natural numbers, `0` is `NULL`.
* `INVARIANT(...)` lines of the source are assertions about the caller; they
  are recorded in comments and do not change the control flow of the model.
* `PRINTD`, `backoff_delay`, `store_fence` and `load_fence` have no effect on
  the modelled state.
-/

/-! ## Machine words and atomics (`src/arch/ia32/atomic.c`) -/

/-- The number of values of a 32-bit `unsigned int`. -/
def UINT_RANGE : Nat := 2 ^ 32

/-- `atomic_compare_and_set_uint(expect, value, ptr)` on a word whose current
content is `cur`: success flag and new content. -/
def atomic_compare_and_set_uint (expect value cur : Nat) : Bool × Nat :=
  if cur = expect then (true, value) else (false, cur)

/-- `atomic_increment_uint`: `incl` on a 32-bit word. -/
def atomic_increment_uint (cur : Nat) : Nat := (cur + 1) % UINT_RANGE

/-- `atomic_decrement_uint`: `decl` on a 32-bit word. -/
def atomic_decrement_uint (cur : Nat) : Nat := (cur + UINT_RANGE - 1) % UINT_RANGE

/-- A retry loop `for(i = ..; !(res = body()); i++) backoff_delay(i);`:
`body` yields `none` when the attempt has to be repeated.  `none` as the
result of the loop means that the fuel ran out. -/
def retry_loop {σ α : Type} (body : σ → Option α × σ) : Nat → σ → Option (α × σ)
  | 0, _ => none
  | fuel + 1, s =>
    match body s with
    | (some a, s') => some (a, s')
    | (none, s') => retry_loop body fuel s'

/-! ## Thread status words (`include/cc/thread.h`) -/

def T_STAT_RUNNABLE : Nat := 0x0
def T_STAT_RUNNING : Nat := 0x1
def T_STAT_SUSPEND : Nat := 0x2
def T_STAT_SUSPENDED : Nat := 0x3
def T_STAT_TERM : Nat := 0x4
def T_STAT_DEAD : Nat := 0x5
def T_STAT_DESTROY : Nat := 0x6
def T_STAT_GC_WAIT : Nat := 0x7
def T_STAT_FINALIZER_LIVE : Nat := 0x8
def T_STAT_FINALIZER_WAIT : Nat := 0x9
def T_STAT_NONE : Nat := 0xf
def T_STAT_MASK : Nat := 0xf
def T_REF : Nat := 0x10

/-- `CACHE_LINE_SIZE` of the ia32 build. -/
def CACHE_LINE_SIZE : Nat := 32

/-! ### The lock-free thread queue (`src/cc/lf_thread_queue.c`)

One executor runs at a time.  A pointer to a node is its byte address, `NULL`
is `0`, and the node array is a typed heap keyed by address.  A function that
dereferences `NULL` yields the fault `null_deref`; a loop whose fuel runs out
yields `no_fuel`. -/

/-- Faults of a run of the queue code. -/
inductive lf_fault where
  | null_deref
  | no_fuel
  deriving DecidableEq, Repr

deriving instance DecidableEq for Except

/-- `lf_thread_queue_node_t`. -/
structure lf_thread_queue_node_t where
  lfn_next : Nat
  lfn_data : Nat
  deriving DecidableEq, Repr

/-- `lf_thread_queue_node_list_t`: the private node list of one executor. -/
structure lf_thread_queue_node_list_t where
  nl_list : Nat
  nl_count : Nat
  deriving DecidableEq, Repr

/-- `lf_thread_queue_hazard_ptrs_t`; `thp_ptrs_0`, `thp_ptrs_1` are
`thp_ptrs[0]` and `thp_ptrs[1]`. -/
structure lf_thread_queue_hazard_ptrs_t where
  thp_rcount : Nat
  thp_rlist : Nat
  thp_ptrs_0 : Nat
  thp_ptrs_1 : Nat
  deriving DecidableEq, Repr

/-- The queue `lf_thread_queue_t` with its allocator
(`lf_thread_queue_node_allocator_t`: `qna_shared_list`, `qna_count`,
`qna_lists`), the node array `nodes`, the two file-scope statics
`lf_thread_queue_hptrs` and `lf_thread_queue_hptr_threshold`, and
`executor_num`, the value `executor_count()` returns. -/
structure lf_thread_queue_t where
  nodes : Nat → lf_thread_queue_node_t
  qna_shared_list : Nat
  qna_count : Nat
  qna_lists : List lf_thread_queue_node_list_t
  lf_head : Nat
  lf_tail : Nat
  lf_hptrs : List lf_thread_queue_hazard_ptrs_t
  lf_thread_queue_hptrs : Nat
  lf_thread_queue_hptr_threshold : Nat
  executor_num : Nat

/-- Read `*p` for a node pointer `p`. -/
def lfn_read (q : lf_thread_queue_t) (p : Nat) : Except lf_fault lf_thread_queue_node_t :=
  if p = 0 then .error .null_deref else .ok (q.nodes p)

/-- Unchecked store into the node array. -/
def lfn_store (q : lf_thread_queue_t) (p : Nat) (n : lf_thread_queue_node_t) :
    lf_thread_queue_t :=
  { q with nodes := fun a => if a = p then n else q.nodes a }

/-- The assignment `p->lfn_next.value = v`. -/
def lfn_set_next (q : lf_thread_queue_t) (p v : Nat) : Except lf_fault lf_thread_queue_t :=
  if p = 0 then .error .null_deref
  else .ok (lfn_store q p { q.nodes p with lfn_next := v })

/-- The assignment `p->lfn_data = v`. -/
def lfn_set_data (q : lf_thread_queue_t) (p v : Nat) : Except lf_fault lf_thread_queue_t :=
  if p = 0 then .error .null_deref
  else .ok (lfn_store q p { q.nodes p with lfn_data := v })

/-- The entry `alloc->qna_lists[exec]`. -/
def qna_lists_get (q : lf_thread_queue_t) (exec : Nat) : lf_thread_queue_node_list_t :=
  q.qna_lists.getD exec ⟨0, 0⟩

/-- Store into `alloc->qna_lists[exec]`. -/
def qna_lists_set (q : lf_thread_queue_t) (exec : Nat) (l : lf_thread_queue_node_list_t) :
    lf_thread_queue_t :=
  { q with qna_lists := q.qna_lists.set exec l }

/-- The entry `fifo->lf_hptrs[exec]`. -/
def lf_hptrs_get (q : lf_thread_queue_t) (exec : Nat) : lf_thread_queue_hazard_ptrs_t :=
  q.lf_hptrs.getD exec ⟨0, 0, 0, 0⟩

/-- Store into `fifo->lf_hptrs[exec]`. -/
def lf_hptrs_set (q : lf_thread_queue_t) (exec : Nat) (h : lf_thread_queue_hazard_ptrs_t) :
    lf_thread_queue_t :=
  { q with lf_hptrs := q.lf_hptrs.set exec h }

/-- `lf_thread_queue_init(mem, num, execs)`.  The node array starts at the
address `nodes` (in the source `mem` plus the sizes of the queue and allocator
headers) and `node_size` is `sizeof(lf_thread_queue_node_t)`; both depend on
headers that are not part of the sources and are parameters here, as is
`executor_num`. -/
def lf_thread_queue_init (nodes node_size num execs executor_num : Nat) : lf_thread_queue_t :=
  let extra_nodes := (execs * execs * 2) + (execs * 2) + 1
  let executor_nodes := (num + extra_nodes - 1) / execs
  let shared_nodes := (num + extra_nodes - 1) - (executor_nodes * execs)
  let at_ := fun (i : Nat) => nodes + i * node_size
  let sentinel := at_ (num + extra_nodes - 1)
  let q0 : lf_thread_queue_t :=
    { nodes := fun _ => ⟨0, 0⟩, qna_shared_list := 0, qna_count := 0,
      qna_lists := List.replicate execs ⟨0, 0⟩, lf_head := 0, lf_tail := 0,
      lf_hptrs := [], lf_thread_queue_hptrs := 0, lf_thread_queue_hptr_threshold := 0,
      executor_num := executor_num }
  let q1 := (List.range execs).foldl (fun q i =>
    let qa := lfn_store q (at_ (i * executor_nodes))
      { q.nodes (at_ (i * executor_nodes)) with lfn_next := 0 }
    let qb := qna_lists_set qa i
      ⟨at_ ((i * executor_nodes) + (executor_nodes - 1)), executor_nodes⟩
    (List.range' 1 (executor_nodes - 1)).foldl (fun q j =>
      lfn_store q (at_ ((i * executor_nodes) + j))
        { q.nodes (at_ ((i * executor_nodes) + j)) with
          lfn_next := at_ ((i * executor_nodes) + j - 1) }) qb) q0
  let q2 : lf_thread_queue_t :=
    if 0 = shared_nodes then { q1 with qna_shared_list := 0 }
    else
      let qa : lf_thread_queue_t := { q1 with qna_shared_list := at_ (num + extra_nodes - 1) }
      let qb := lfn_store qa (at_ (executor_nodes * execs))
        { qa.nodes (at_ (executor_nodes * execs)) with lfn_next := 0 }
      (List.range' ((executor_nodes * execs) + 1)
          ((num + extra_nodes - 1) - ((executor_nodes * execs) + 1))).foldl (fun q i =>
        lfn_store q (at_ i) { q.nodes (at_ i) with lfn_next := at_ (i - 1) }) qb
  let q3 : lf_thread_queue_t :=
    { q2 with qna_count := num + extra_nodes, lf_thread_queue_hptrs := execs,
              lf_thread_queue_hptr_threshold := execs * 2 }
  let q4 := lfn_store q3 sentinel ⟨0, 0⟩
  { q4 with lf_head := sentinel, lf_tail := sentinel,
            lf_hptrs := List.replicate execs ⟨0, 0, 0, 0⟩ }

/-- `lf_thread_queue_allocator_upper_bound`. -/
def lf_thread_queue_allocator_upper_bound (q : lf_thread_queue_t) : Nat :=
  let num_executors := q.executor_num
  let num_threads := q.qna_count
  let frac := num_threads >>> 2
  let numerator := (num_threads + frac) % UINT_RANGE
  let bound := numerator / num_executors
  if bound ≠ 0 then bound else 1

/-- `lf_thread_queue_allocator_lower_bound`. -/
def lf_thread_queue_allocator_lower_bound (q : lf_thread_queue_t) : Nat :=
  let num_executors := q.executor_num
  let num_threads := q.qna_count
  let frac := num_threads >>> 2
  let numerator := if frac < num_threads then num_threads - frac else 0
  let bound := numerator / num_executors
  if bound ≠ 0 then bound else 1

/-- `lf_thread_queue_node_alloc_try_push`. -/
def lf_thread_queue_node_alloc_try_push (q : lf_thread_queue_t) (node : Nat) :
    Except lf_fault (Bool × lf_thread_queue_t) := do
  let head := q.qna_shared_list
  let q1 ← lfn_set_next q node head
  let r := atomic_compare_and_set_uint head node q1.qna_shared_list
  pure (r.1, { q1 with qna_shared_list := r.2 })

/-- `lf_thread_queue_node_alloc_push`: retry until the push succeeds. -/
def lf_thread_queue_node_alloc_push :
    Nat → lf_thread_queue_t → Nat → Except lf_fault lf_thread_queue_t
  | 0, _, _ => .error .no_fuel
  | fuel + 1, q, node => do
    let r ← lf_thread_queue_node_alloc_try_push q node
    if r.1 then pure r.2 else lf_thread_queue_node_alloc_push fuel r.2 node

/-- `lf_thread_queue_node_alloc_pull`: the head of the shared stack, or `NULL`
when the stack is empty. -/
def lf_thread_queue_node_alloc_pull :
    Nat → lf_thread_queue_t → Except lf_fault (Nat × lf_thread_queue_t)
  | 0, _ => .error .no_fuel
  | fuel + 1, q =>
    let out := q.qna_shared_list
    if 0 ≠ out then do
      let n ← lfn_read q out
      let r := atomic_compare_and_set_uint out n.lfn_next q.qna_shared_list
      if r.1 then pure (out, { q with qna_shared_list := r.2 })
      else lf_thread_queue_node_alloc_pull fuel q
    else pure (out, q)

/-- `lf_thread_queue_node_alloc_balance`. -/
def lf_thread_queue_node_alloc_balance (fuel : Nat) (q : lf_thread_queue_t) (exec : Nat) :
    Except lf_fault lf_thread_queue_t :=
  if lf_thread_queue_allocator_upper_bound q < (qna_lists_get q exec).nl_count then do
    let node := (qna_lists_get q exec).nl_list
    let q1 ← lf_thread_queue_node_alloc_push fuel q node
    let n ← lfn_read q1 node
    pure (qna_lists_set q1 exec { qna_lists_get q1 exec with nl_list := n.lfn_next })
  else if lf_thread_queue_allocator_lower_bound q > (qna_lists_get q exec).nl_count then do
    let r ← lf_thread_queue_node_alloc_pull fuel q
    let q2 ← lfn_set_next r.2 r.1 (qna_lists_get r.2 exec).nl_list
    pure (qna_lists_set q2 exec { qna_lists_get q2 exec with nl_list := r.1 })
  else pure q

/-- `lf_thread_queue_node_alloc`. -/
def lf_thread_queue_node_alloc (fuel : Nat) (q : lf_thread_queue_t) (exec : Nat) :
    Except lf_fault (Nat × lf_thread_queue_t) := do
  let q1 ← lf_thread_queue_node_alloc_balance fuel q exec
  let out := (qna_lists_get q1 exec).nl_list
  if 0 ≠ out then do
    let n ← lfn_read q1 out
    pure (out, qna_lists_set q1 exec
      ⟨n.lfn_next, ((qna_lists_get q1 exec).nl_count + UINT_RANGE - 1) % UINT_RANGE⟩)
  else pure (out, q1)

/-- `lf_thread_queue_node_free`. -/
def lf_thread_queue_node_free (fuel : Nat) (q : lf_thread_queue_t) (node exec : Nat) :
    Except lf_fault lf_thread_queue_t := do
  let q1 ←
    if lf_thread_queue_allocator_lower_bound q < (qna_lists_get q exec).nl_count then do
      let qa ← lfn_set_next q node (qna_lists_get q exec).nl_list
      pure (qna_lists_set qa exec
        ⟨node, ((qna_lists_get qa exec).nl_count + 1) % UINT_RANGE⟩)
    else lf_thread_queue_node_alloc_push fuel q node
  lf_thread_queue_node_alloc_balance fuel q1 exec

/-- `lf_thread_queue_ptab_lookup`; the table is the list of its buckets, a
bucket the list of the `pn_addr` of its chain. -/
def lf_thread_queue_ptab_lookup (ptab : List (List Nat)) (node size : Nat) : Bool :=
  let addr := node
  let index := (addr >>> (CACHE_LINE_SIZE / 8)) % size
  (ptab.getD index []).contains node

/-- `lf_thread_queue_ptab_insert`. -/
def lf_thread_queue_ptab_insert (ptab : List (List Nat)) (pn_addr size : Nat) :
    List (List Nat) :=
  let addr := pn_addr
  let index := (addr >>> (CACHE_LINE_SIZE / 8)) % size
  ptab.set index (pn_addr :: ptab.getD index [])

/-- `lf_thread_queue_scan_build_ptab`. -/
def lf_thread_queue_scan_build_ptab (q : lf_thread_queue_t) : List (List Nat) :=
  let size := (q.lf_thread_queue_hptrs * 4) - 1
  (List.range q.lf_thread_queue_hptrs).foldl (fun ptab i =>
    let p0 := lf_thread_queue_ptab_insert ptab (lf_hptrs_get q i).thp_ptrs_0 size
    lf_thread_queue_ptab_insert p0 (lf_hptrs_get q i).thp_ptrs_1 size)
    (List.replicate size [])

/-- The `while(NULL != curr)` loop of `lf_thread_queue_scan_free_rlist`. -/
def lf_thread_queue_scan_free_rlist_loop (ptab : List (List Nat)) (exec : Nat) :
    Nat → lf_thread_queue_t → Nat → Except lf_fault lf_thread_queue_t
  | 0, _, _ => .error .no_fuel
  | fuel + 1, q, curr =>
    if 0 ≠ curr then do
      let size := (q.lf_thread_queue_hptrs * 4) - 1
      let n ← lfn_read q curr
      let next := n.lfn_next
      let q1 ←
        if lf_thread_queue_ptab_lookup ptab curr size then do
          let rlist := (lf_hptrs_get q exec).thp_rlist
          let qa ← lfn_set_next q curr rlist
          pure (lf_hptrs_set qa exec { lf_hptrs_get qa exec with
            thp_rlist := curr,
            thp_rcount := ((lf_hptrs_get qa exec).thp_rcount + 1) % UINT_RANGE })
        else lf_thread_queue_node_free fuel q curr exec
      lf_thread_queue_scan_free_rlist_loop ptab exec fuel q1 next
    else pure q

/-- `lf_thread_queue_scan_free_rlist`. -/
def lf_thread_queue_scan_free_rlist (fuel : Nat) (q : lf_thread_queue_t)
    (ptab : List (List Nat)) (exec : Nat) : Except lf_fault lf_thread_queue_t :=
  let curr := (lf_hptrs_get q exec).thp_rlist
  let q1 := lf_hptrs_set q exec { lf_hptrs_get q exec with thp_rlist := 0, thp_rcount := 0 }
  lf_thread_queue_scan_free_rlist_loop ptab exec fuel q1 curr

/-- `lf_thread_queue_scan`. -/
def lf_thread_queue_scan (fuel : Nat) (q : lf_thread_queue_t) (exec : Nat) :
    Except lf_fault lf_thread_queue_t :=
  lf_thread_queue_scan_free_rlist fuel q (lf_thread_queue_scan_build_ptab q) exec

/-- `lf_thread_queue_node_retire`. -/
def lf_thread_queue_node_retire (fuel : Nat) (q : lf_thread_queue_t) (node exec : Nat) :
    Except lf_fault lf_thread_queue_t := do
  let rlist := (lf_hptrs_get q exec).thp_rlist
  let q1 ← lfn_set_next q node rlist
  let rcount := (lf_hptrs_get q1 exec).thp_rcount
  let q2 := lf_hptrs_set q1 exec { lf_hptrs_get q1 exec with
    thp_rlist := node, thp_rcount := (rcount + 1) % UINT_RANGE }
  if rcount ≥ q2.lf_thread_queue_hptr_threshold then lf_thread_queue_scan fuel q2 exec
  else pure q2

/-- `lf_thread_queue_try_enqueue`: the old tail when the node was linked,
`NULL` when the attempt has to be repeated. -/
def lf_thread_queue_try_enqueue (q : lf_thread_queue_t) (node exec : Nat) :
    Except lf_fault (Nat × lf_thread_queue_t) := do
  let tail := q.lf_tail
  let q1 := lf_hptrs_set q exec { lf_hptrs_get q exec with thp_ptrs_0 := tail }
  if tail = q1.lf_tail then
    let n ← lfn_read q1 tail
    let next := n.lfn_next
    if tail = q1.lf_tail then
      if 0 ≠ next then
        let r := atomic_compare_and_set_uint tail next q1.lf_tail
        pure (0, { q1 with lf_tail := r.2 })
      else
        let r := atomic_compare_and_set_uint 0 node (q1.nodes tail).lfn_next
        if r.1 then do
          let q2 ← lfn_set_next q1 tail r.2
          pure (tail, q2)
        else pure (0, q1)
    else pure (0, q1)
  else pure (0, q1)

/-- The `for` loop of `lf_thread_queue_enqueue` around
`lf_thread_queue_try_enqueue`. -/
def lf_thread_queue_enqueue_loop (node exec : Nat) :
    Nat → lf_thread_queue_t → Except lf_fault (Nat × lf_thread_queue_t)
  | 0, _ => .error .no_fuel
  | fuel + 1, q => do
    let r ← lf_thread_queue_try_enqueue q node exec
    if 0 = r.1 then lf_thread_queue_enqueue_loop node exec fuel r.2 else pure r

/-- `lf_thread_queue_enqueue(fifo, thread, exec)`. -/
def lf_thread_queue_enqueue (fuel : Nat) (q : lf_thread_queue_t) (thread exec : Nat) :
    Except lf_fault (Bool × lf_thread_queue_t) := do
  let a ← lf_thread_queue_node_alloc fuel q exec
  let node := a.1
  if 0 ≠ node then do
    let q1 ← lfn_set_data a.2 node thread
    let q2 ← lfn_set_next q1 node 0
    let r ← lf_thread_queue_enqueue_loop node exec fuel q2
    let c := atomic_compare_and_set_uint r.1 node r.2.lf_tail
    let q3 : lf_thread_queue_t := { r.2 with lf_tail := c.2 }
    pure (true, lf_hptrs_set q3 exec { lf_hptrs_get q3 exec with thp_ptrs_0 := 0 })
  else pure (false, a.2)

/-- `lf_thread_queue_try_dequeue`: `some thread` for a valid result
(`o_valid`, with `o_thread`), `none` when the attempt has to be repeated. -/
def lf_thread_queue_try_dequeue (fuel : Nat) (q : lf_thread_queue_t) (exec : Nat) :
    Except lf_fault (Option Nat × lf_thread_queue_t) := do
  let head := q.lf_head
  let q1 := lf_hptrs_set q exec { lf_hptrs_get q exec with thp_ptrs_0 := head }
  if head = q1.lf_head then
    let tail := q1.lf_tail
    let n ← lfn_read q1 head
    let next := n.lfn_next
    let q2 := lf_hptrs_set q1 exec { lf_hptrs_get q1 exec with thp_ptrs_1 := next }
    if head = q2.lf_head then
      if 0 ≠ next then
        if head ≠ tail then
          let r := atomic_compare_and_set_uint head next q2.lf_head
          if r.1 then do
            let q3 : lf_thread_queue_t := { q2 with lf_head := r.2 }
            let nn ← lfn_read q3 next
            let q4 := lf_hptrs_set q3 exec { lf_hptrs_get q3 exec with thp_ptrs_1 := 0 }
            let q5 ← lf_thread_queue_node_retire fuel q4 head exec
            pure (some nn.lfn_data,
              lf_hptrs_set q5 exec { lf_hptrs_get q5 exec with thp_ptrs_0 := 0 })
          else pure (none, q2)
        else
          let r := atomic_compare_and_set_uint tail next q2.lf_tail
          pure (none, { q2 with lf_tail := r.2 })
      else
        pure (some 0, lf_hptrs_set q2 exec
          { lf_hptrs_get q2 exec with thp_ptrs_0 := 0, thp_ptrs_1 := 0 })
    else pure (none, q2)
  else pure (none, q1)

/-- `lf_thread_queue_dequeue(fifo, exec)`: the thread taken from the queue,
`NULL` (0) when the queue is seen empty. -/
def lf_thread_queue_dequeue :
    Nat → lf_thread_queue_t → Nat → Except lf_fault (Nat × lf_thread_queue_t)
  | 0, _, _ => .error .no_fuel
  | fuel + 1, q, exec => do
    let r ← lf_thread_queue_try_dequeue fuel q exec
    match r.1 with
    | some thread => pure (thread, r.2)
    | none => lf_thread_queue_dequeue fuel r.2 exec

/-- Run `lf_thread_queue_enqueue` for each thread of a list in turn, by one
executor: the return values, or the fault that ended the run. -/
def lf_thread_queue_enqueue_all (fuel exec : Nat) :
    List Nat → lf_thread_queue_t → Except lf_fault (List Bool × lf_thread_queue_t)
  | [], q => .ok ([], q)
  | t :: ts, q => do
    let r ← lf_thread_queue_enqueue fuel q t exec
    let rs ← lf_thread_queue_enqueue_all fuel exec ts r.2
    pure (r.1 :: rs.1, rs.2)

/-- Run `lf_thread_queue_dequeue` `n` times by one executor: the threads
returned, in order. -/
def lf_thread_queue_dequeue_all (fuel exec : Nat) :
    Nat → lf_thread_queue_t → Except lf_fault (List Nat × lf_thread_queue_t)
  | 0, q => .ok ([], q)
  | n + 1, q => do
    let r ← lf_thread_queue_dequeue fuel q exec
    let rs ← lf_thread_queue_dequeue_all fuel exec n r.2
    pure (r.1 :: rs.1, rs.2)


/-! ## Executors and the scheduler (`src/cc/thread_executor.c`,
`src/cc/noninteract_scheduler.c`) -/

/-- The fields of `executor_t` (and of its `ex_scheduler`) that activation and
deactivation read or write. -/
structure executor_t where
  ex_signal_mbox : Nat
  sch_curr_thread : Nat
  sch_idle_thread : Nat
deriving DecidableEq, Repr

/-- The state shared by the scheduler entry points.  Threads are named by
their address.  `sched_workshare` is the workshare queue with its node allocator
and hazard pointers, as `lf_thread_queue.c` keeps it.  `os_signals`, `destroyed`
and `cycles` log the calls of `os_thread_signal_send`, `thread_destroy` and
`cc_sched_cycle`.  `EX_SIGNAL_SCHEDULE` and `thread_mbox_null_executor` are
declared outside the sources at hand and are carried as fields. -/
structure cc_state where
  t_sched_stat_ref : Nat → Nat
  t_mbox_executor : Nat → Nat
  sched_workshare : lf_thread_queue_t
  sched_active_threads : Nat
  executors : List executor_t
  os_signals : List Nat
  destroyed : List Nat
  cycles : List Nat
  EX_SIGNAL_SCHEDULE : Nat
  thread_mbox_null_executor : Nat

/-- Store `v` in the status word of `thread`. -/
def set_stat_ref (s : cc_state) (thread v : Nat) : cc_state :=
  { s with t_sched_stat_ref := fun t => if t = thread then v else s.t_sched_stat_ref t }

/-- `thread_destroy(thread)`. -/
def thread_destroy (s : cc_state) (thread : Nat) : cc_state :=
  { s with destroyed := s.destroyed ++ [thread] }

/-- `executor_try_wakeup(executors + i)`: `1` when the executor was idle
without a pending SCHEDULE signal and has been signalled, `-1` when it is
awake or already signalled (`0`, a lost compare-and-set, cannot occur in a
sequential run). -/
def executor_try_wakeup (s : cc_state) (i : Nat) (ex : executor_t) : Int × cc_state :=
  let oldsigs := ex.ex_signal_mbox
  if ex.sch_curr_thread = 0 ∧ oldsigs &&& s.EX_SIGNAL_SCHEDULE = 0 then
    let r := atomic_compare_and_set_uint oldsigs (oldsigs ||| s.EX_SIGNAL_SCHEDULE) ex.ex_signal_mbox
    if r.1 then
      let ex1 : executor_t := { ex with ex_signal_mbox := r.2 }
      (1, { s with executors := s.executors.set i ex1, os_signals := s.os_signals ++ [i] })
    else (0, s)
  else (-1, s)

/-- The `for` loop of `executor_restart_idle`, from executor `i` on, with
`n` executors left to visit. -/
def executor_restart_idle_from (s : cc_state) : Nat → Nat → cc_state
  | _, 0 => s
  | i, n + 1 =>
    match s.executors.get? i with
    | none => s
    | some ex =>
      let r := executor_try_wakeup s i ex
      if r.1 = 1 then r.2 else executor_restart_idle_from r.2 (i + 1) n

/-- `executor_restart_idle()`. -/
def executor_restart_idle (s : cc_state) : cc_state :=
  executor_restart_idle_from s 0 s.executors.length

/-- `executor_raise(exec, sigs)`. -/
def executor_raise (s : cc_state) (exec sigs : Nat) : cc_state :=
  match s.executors.get? exec with
  | none => s
  | some ex =>
    let ex1 : executor_t := { ex with ex_signal_mbox := ex.ex_signal_mbox ||| sigs }
    let s1 := { s with executors := s.executors.set exec ex1 }
    if ex.sch_curr_thread = ex.sch_idle_thread then
      { s1 with os_signals := s1.os_signals ++ [exec] }
    else s1

/-- `scheduler_try_activate_thread(thread, exec)`: the `int` result and the
new state, or the fault of `lf_thread_queue_enqueue`, whose return value
the source ignores. -/
def scheduler_try_activate_thread (fuel thread exec : Nat) (s : cc_state) :
    Except lf_fault (Int × cc_state) :=
  let oldvalue := s.t_sched_stat_ref thread
  let oldstat := oldvalue &&& T_STAT_MASK
  let ref := oldvalue &&& T_REF
  if T_STAT_TERM ≠ oldstat ∧ T_STAT_DEAD ≠ oldstat ∧ T_STAT_DESTROY ≠ oldstat then
    let r := atomic_compare_and_set_uint oldvalue (T_STAT_RUNNABLE ||| T_REF)
      (s.t_sched_stat_ref thread)
    if ref = 0 then
      if r.1 then do
        let s1 := set_stat_ref s thread r.2
        let s2 :=
          if T_STAT_RUNNABLE ≠ oldstat ∧ T_STAT_RUNNING ≠ oldstat ∧ T_STAT_GC_WAIT ≠ oldstat then
            { s1 with sched_active_threads := atomic_increment_uint s1.sched_active_threads }
          else s1
        let e ← lf_thread_queue_enqueue fuel s2.sched_workshare thread exec
        let s3 := { s2 with sched_workshare := e.2 }
        pure (1, executor_restart_idle s3)
      else pure (0, s)
    else
      if r.1 then
        let s1 := set_stat_ref s thread r.2
        if T_STAT_RUNNABLE ≠ oldstat ∧ T_STAT_RUNNING ≠ oldstat ∧ T_STAT_GC_WAIT ≠ oldstat then
          pure (1, { s1 with sched_active_threads := atomic_increment_uint s1.sched_active_threads })
        else pure (1, s1)
      else pure (0, s)
  else pure (-1, s)

/-- One attempt of an `int`-valued `try` function as the body of a retry
loop: the result `0` asks for another attempt. -/
def int_attempt (r : Int × cc_state) : Option Int × cc_state :=
  if r.1 = 0 then (none, r.2) else (some r.1, r.2)

/-- `scheduler_activate_thread(thread, exec)`: loops while the attempt
returns `0`, then returns `0 < res`. -/
def scheduler_activate_thread :
    Nat → Nat → Nat → cc_state → Except lf_fault (Bool × cc_state)
  | 0, _, _, _ => .error .no_fuel
  | fuel + 1, thread, exec, s => do
    let r ← scheduler_try_activate_thread (fuel + 1) thread exec s
    if r.1 = 0 then scheduler_activate_thread fuel thread exec r.2
    else pure (decide (0 < r.1), r.2)

/-- `scheduler_try_deactivate_thread(thread, stat, exec)`.  The source states
`INVARIANT(oldstat != T_STAT_DESTROY)` on entry.  `cc_sched_cycle(exec)`,
which switches to another context in the source, is recorded in `cycles`. -/
def scheduler_try_deactivate_thread (thread stat exec : Nat) (s : cc_state) : Int × cc_state :=
  let executor := s.t_mbox_executor thread
  let oldvalue := s.t_sched_stat_ref thread
  let oldstat := oldvalue &&& T_STAT_MASK
  let ref := oldvalue &&& T_REF
  if (T_STAT_DEAD ≠ oldstat ∧ T_STAT_TERM ≠ oldstat) ∨ T_STAT_DESTROY = stat then
    let r := atomic_compare_and_set_uint oldvalue (stat ||| ref) (s.t_sched_stat_ref thread)
    if r.1 then
      let s1 := set_stat_ref s thread r.2
      let s2 := if T_STAT_DESTROY = stat ∧ 0 = ref then thread_destroy s1 thread else s1
      let s3 :=
        if T_STAT_RUNNABLE = oldstat ∨ T_STAT_RUNNING = oldstat then
          { s2 with sched_active_threads := atomic_decrement_uint s2.sched_active_threads }
        else s2
      let s4 :=
        if executor ≠ s3.thread_mbox_null_executor then
          if executor ≠ exec then executor_raise s3 executor s3.EX_SIGNAL_SCHEDULE
          else { s3 with cycles := s3.cycles ++ [exec] }
        else s3
      (1, s4)
    else (0, s)
  else (-1, s)

/-- `scheduler_deactivate_thread(thread, stat, exec)`. -/
def scheduler_deactivate_thread (fuel : Nat) (thread stat exec : Nat) (s : cc_state) :
    Option (Bool × cc_state) :=
  (retry_loop (fun st => int_attempt (scheduler_try_deactivate_thread thread stat exec st))
    fuel s).map (fun r => (decide (0 < r.1), r.2))

/-- Repeated activation of one thread, `n` times in a row (no other scheduler
entry point runs in between). -/
def activate_times (fuel thread exec : Nat) : Nat → cc_state → Except lf_fault cc_state
  | 0, s => .ok s
  | n + 1, s =>
    match scheduler_activate_thread fuel thread exec s with
    | .error e => .error e
    | .ok r => activate_times fuel thread exec n r.2

/-- A state with two executors, the workshare as
`lf_thread_queue_init(mem, 32, 2)` leaves it (`scheduler_start` asks for
`execs * 16` threads; the node array at `0x1000`, nodes of 8 bytes), and
every thread suspended and unreferenced. -/
def cc_state_example : cc_state where
  t_sched_stat_ref := fun _ => T_STAT_SUSPENDED
  t_mbox_executor := fun _ => 0xffffffff
  sched_workshare := lf_thread_queue_init 0x1000 8 32 2 2
  sched_active_threads := 1
  executors := [⟨0, 7, 8⟩, ⟨0, 0, 9⟩]
  os_signals := []
  destroyed := []
  cycles := []
  EX_SIGNAL_SCHEDULE := 1
  thread_mbox_null_executor := 0xffffffff

def SLICE_TYPE_GC : Nat := 0
def SLICE_TYPE_MALLOC : Nat := 1
def SLICE_TYPE_CUSTOM : Nat := 2
def SLICE_TYPE_STATIC : Nat := 3
def SLICE_USAGE_USED : Nat := 0
def SLICE_USAGE_UNUSED : Nat := 1
def SLICE_USAGE_BLANK : Nat := 2
def SLICE_PROT_RWX : Nat := 7
def PAGE_SIZE : Nat := 4096
def SLICE_TAB_SIZE : Nat := 0x100
def SLICE_MIN_SIZE : Nat := 0x1000
def SLICE_MAX_SIZE : Nat := 0x40000

/-- A slice descriptor `slice_t`. -/
structure slice_t where
  s_size : Nat
  s_ptr : Nat
  s_type : Nat
  s_usage : Nat
  s_prot : Nat
  s_next : Nat
deriving DecidableEq, Repr

/-- The static variables of `slice.c` and the operating system behind
`os_mem_map`.  `slices` is the content of the `slice_t` objects by address
(`slice_tab` and whatever else a `slice_t*` is made to point at).
`os_script` lists the results of the coming `mmap` calls (`0`: refused; an
empty script refuses), `os_mapped` the regions mapped and not yet unmapped.
`uninit_failures` and `uninit_out` are the indeterminate initial values of
the locals `failures` of `slice_reserve_total_space` and `out` of
`slice_alloc`, which the source reads before assigning them. -/
structure slice_state where
  slices : Nat → slice_t
  slice_free_list : Nat
  total_size : Nat
  malloc_size : Nat
  gc_size : Nat
  slice_size : Nat
  total_limit : Nat
  malloc_limit : Nat
  gc_limit : Nat
  os_script : List Nat
  os_mapped : List (Nat × Nat)
  uninit_failures : Nat
  uninit_out : Nat

/-- Store a descriptor at address `p`. -/
def set_slice (s : slice_state) (p : Nat) (d : slice_t) : slice_state :=
  { s with slices := fun q => if q = p then d else s.slices q }

/-- `os_mem_map(size, prot)`: the next answer of the operating system. -/
def os_mem_map (size _prot : Nat) (s : slice_state) : Nat × slice_state :=
  match s.os_script with
  | [] => (0, s)
  | p :: rest =>
    if p = 0 then (0, { s with os_script := rest })
    else (p, { s with os_script := rest, os_mapped := (p, size) :: s.os_mapped })

/-- `os_mem_unmap(ptr, size)`. -/
def os_mem_unmap (ptr size : Nat) (s : slice_state) : slice_state :=
  { s with os_mapped := s.os_mapped.erase (ptr, size) }

/-- `slice_entry_try_alloc()`: `(o_value, o_valid)`. -/
def slice_entry_try_alloc (s : slice_state) : (Nat × Bool) × slice_state :=
  let oldlist := s.slice_free_list
  if oldlist ≠ 0 then
    let r := atomic_compare_and_set_uint oldlist (s.slices oldlist).s_next s.slice_free_list
    ((oldlist, r.1), { s with slice_free_list := r.2 })
  else ((oldlist, true), s)

/-- `slice_entry_alloc()`. -/
def slice_entry_alloc (fuel : Nat) (s : slice_state) : Option (Nat × slice_state) :=
  retry_loop (fun st =>
    let r := slice_entry_try_alloc st
    (if r.1.2 then some r.1.1 else none, r.2)) fuel s

/-- `slice_try_release_total_space(size)`. -/
def slice_try_release_total_space (size : Nat) (s : slice_state) : Bool × slice_state :=
  let oldspace := s.total_size
  let r := atomic_compare_and_set_uint oldspace ((oldspace + UINT_RANGE - size) % UINT_RANGE)
    s.total_size
  (r.1, { s with total_size := r.2 })

/-- The loop `for(i = 1; !slice_try_release_total_space(size); i++)`, which is
the body of `slice_release_total_space`, of `slice_release_gc_space` and of
`slice_release_malloc_space` alike. -/
def slice_release_total_space (fuel size : Nat) (s : slice_state) : Option slice_state :=
  (retry_loop (fun st =>
    let r := slice_try_release_total_space size st
    (if r.1 then some () else none, r.2)) fuel s).map (fun r => r.2)

/-- `slice_try_release_gc_space(size)` (no caller in the source). -/
def slice_try_release_gc_space (size : Nat) (s : slice_state) : Bool × slice_state :=
  let oldspace := s.gc_size
  let r := atomic_compare_and_set_uint oldspace ((oldspace + UINT_RANGE - size) % UINT_RANGE)
    s.gc_size
  (r.1, { s with gc_size := r.2 })

/-- `slice_release_gc_space(size)`: its loop calls
`slice_try_release_total_space`. -/
def slice_release_gc_space (fuel size : Nat) (s : slice_state) : Option slice_state :=
  slice_release_total_space fuel size s

/-- `slice_try_release_malloc_space(size)` (no caller in the source). -/
def slice_try_release_malloc_space (size : Nat) (s : slice_state) : Bool × slice_state :=
  let oldspace := s.malloc_size
  let r := atomic_compare_and_set_uint oldspace ((oldspace + UINT_RANGE - size) % UINT_RANGE)
    s.malloc_size
  (r.1, { s with malloc_size := r.2 })

/-- `slice_release_malloc_space(size)`: its loop calls
`slice_try_release_total_space`. -/
def slice_release_malloc_space (fuel size : Nat) (s : slice_state) : Option slice_state :=
  slice_release_total_space fuel size s

/-- The loop of `slice_reserve_total_space(size)`; `failures` is the current
value of the local of that name. -/
def slice_reserve_total_space_loop (size : Nat) :
    Nat → Nat → slice_state → Option (Bool × slice_state)
  | 0, _, _ => none
  | fuel + 1, failures, s =>
    let oldspace := s.total_size
    if (oldspace + size) % UINT_RANGE ≥ s.total_limit then
      let r := atomic_compare_and_set_uint oldspace ((oldspace + size) % UINT_RANGE) s.total_size
      if r.1 then some (true, { s with total_size := r.2 })
      else slice_reserve_total_space_loop size fuel failures s
    else
      let failures1 := (failures + 1) % UINT_RANGE
      if failures1 ≥ 3 then some (false, s)
      else slice_reserve_total_space_loop size fuel failures1 s

/-- `slice_reserve_total_space(size)`. -/
def slice_reserve_total_space (fuel size : Nat) (s : slice_state) :
    Option (Bool × slice_state) :=
  slice_reserve_total_space_loop size fuel s.uninit_failures s

/-- `slice_reserve_gc_space(size)`. -/
def slice_reserve_gc_space (size : Nat) : Nat → slice_state → Option (Bool × slice_state)
  | 0, _ => none
  | fuel + 1, s =>
    let oldspace := s.gc_size
    if (oldspace + size) % UINT_RANGE ≥ s.gc_limit then
      let r := atomic_compare_and_set_uint oldspace ((oldspace + size) % UINT_RANGE) s.gc_size
      if r.1 then some (true, { s with gc_size := r.2 })
      else slice_reserve_gc_space size fuel s
    else some (false, s)

/-- `slice_reserve_malloc_space(size)`. -/
def slice_reserve_malloc_space (size : Nat) : Nat → slice_state → Option (Bool × slice_state)
  | 0, _ => none
  | fuel + 1, s =>
    let oldspace := s.malloc_size
    if (oldspace + size) % UINT_RANGE ≥ s.malloc_limit then
      let r := atomic_compare_and_set_uint oldspace ((oldspace + size) % UINT_RANGE) s.malloc_size
      if r.1 then some (true, { s with malloc_size := r.2 })
      else slice_reserve_malloc_space size fuel s
    else some (false, s)

/-- `slice_reserve_space(size, type)`. -/
def slice_reserve_space (fuel size type : Nat) (s : slice_state) :
    Option (Bool × slice_state) :=
  match slice_reserve_total_space fuel size s with
  | none => none
  | some (false, s1) => some (false, s1)
  | some (true, s1) =>
    if type = SLICE_TYPE_GC then
      match slice_reserve_gc_space size fuel s1 with
      | none => none
      | some (true, s2) => some (true, s2)
      | some (false, s2) => (slice_release_total_space fuel size s2).map (fun s3 => (false, s3))
    else if type = SLICE_TYPE_MALLOC then
      match slice_reserve_malloc_space size fuel s1 with
      | none => none
      | some (true, s2) => some (true, s2)
      | some (false, s2) => (slice_release_total_space fuel size s2).map (fun s3 => (false, s3))
    else some (true, s1)

/-- `slice_release_space(size, type)` (no caller in the source). -/
def slice_release_space (fuel size type : Nat) (s : slice_state) : Option slice_state :=
  match slice_release_total_space fuel size s with
  | none => none
  | some s1 =>
    if type = SLICE_TYPE_GC then slice_release_gc_space fuel size s1
    else if type = SLICE_TYPE_MALLOC then slice_release_malloc_space fuel size s1
    else some s1

/-- `slice_entry_try_free(slice)`. -/
def slice_entry_try_free (slice : Nat) (s : slice_state) : Bool × slice_state :=
  let oldlist := s.slice_free_list
  let s1 := set_slice s slice { s.slices slice with s_next := oldlist }
  let r := atomic_compare_and_set_uint oldlist slice s1.slice_free_list
  (r.1, { s1 with slice_free_list := r.2 })

/-- The loop `for(i = 1; !slice_entry_try_free(slice); i++)`. -/
def slice_entry_free (fuel slice : Nat) (s : slice_state) : Option slice_state :=
  (retry_loop (fun st =>
    let r := slice_entry_try_free slice st
    (if r.1 then some () else none, r.2)) fuel s).map (fun r => r.2)

/-- The `else` branch of `slice_alloc`: give the entry `out` back when it is
not `NULL`, and return `NULL`. -/
def slice_alloc_failed (fuel out : Nat) (s : slice_state) : Option (Nat × slice_state) :=
  if out ≠ 0 then (slice_entry_free fuel out s).map (fun s1 => (0, s1))
  else some (0, s)

/-- `slice_alloc(type, prot, size)`: the descriptor address, or `0`.  The
source states `INVARIANT(size <= slice_max_size && size >= slice_min_size)`
and that `type` is one of the four slice types. -/
def slice_alloc (fuel type prot size : Nat) (s : slice_state) : Option (Nat × slice_state) :=
  match slice_reserve_space fuel size type s with
  | none => none
  | some (false, s1) => slice_alloc_failed fuel s1.uninit_out s1
  | some (true, s1) =>
    match slice_entry_alloc fuel s1 with
    | none => none
    | some (out, s2) =>
      if out ≠ 0 then
        let m := os_mem_map size prot s2
        let s3 := set_slice m.2 out { m.2.slices out with s_ptr := m.1 }
        if m.1 ≠ 0 then
          some (out, set_slice s3 out
            { s3.slices out with s_type := type, s_usage := SLICE_USAGE_BLANK, s_size := size })
        else slice_alloc_failed fuel out s3
      else slice_alloc_failed fuel out s2

/-- `slice_free(slice)`. -/
def slice_free (fuel slice : Nat) (s : slice_state) : Option slice_state :=
  let s1 := os_mem_unmap (s.slices slice).s_ptr (s.slices slice).s_size s
  slice_entry_free fuel slice s1

/-- The two statements of `slice_init` that build the free list: the `for`
loop over `slice_tab[0 .. SLICE_TAB_SIZE - 2]` and the store to the last
entry.  `tab` is the address of `slice_tab`, whose entries are 24 bytes
apart. -/
def slice_init_tab (tab : Nat) (s : slice_state) : slice_state :=
  let s1 := (List.range (SLICE_TAB_SIZE - 1)).foldl
    (fun st i => set_slice st (tab + 24 * i) { st.slices (tab + 24 * i) with
      s_next := tab + 24 * (i + 1) }) s
  set_slice s1 (tab + 24 * (SLICE_TAB_SIZE - 1))
    { s1.slices (tab + 24 * (SLICE_TAB_SIZE - 1)) with s_next := 0 }

/-- `slice_init(max, defaultsize, malloc_max, gc_max)` with `slice_tab` at
address `tab`. -/
def slice_init (tab max defaultsize malloc_max gc_max : Nat) (s : slice_state) : slice_state :=
  let s1 := { s with slice_size := defaultsize, total_limit := max, malloc_limit := malloc_max,
                     gc_limit := gc_max, total_size := 0 }
  { slice_init_tab tab s1 with slice_free_list := tab }

/-- The statics of `slice.c` at program start (all zero), with an operating
system that answers the coming `mmap` calls with `script`. -/
def slice_state_zero (script : List Nat) : slice_state where
  slices := fun _ => ⟨0, 0, 0, 0, 0, 0⟩
  slice_free_list := 0
  total_size := 0
  malloc_size := 0
  gc_size := 0
  slice_size := 0
  total_limit := 0
  malloc_limit := 0
  gc_limit := 0
  os_script := script
  os_mapped := []
  uninit_failures := 0
  uninit_out := 0

/-- The slice manager after `slice_init(0x20000, 0x400000, 0x20000, 0x20000)`
(a 128 KiB quota for the total and for each kind), `slice_tab` at address
`0x8000000`, nothing reserved yet. -/
def slice_state_quota : slice_state :=
  slice_init 0x8000000 0x20000 0x400000 0x20000 0x20000 (slice_state_zero [0x40000000])

/-- The slice manager after `slice_init(0, 0x400000, 0, 0)` (the launcher's
defaults: no limits), `slice_tab` at address `0x8000000`, with an operating
system that maps the first two requests at `0x40000000` and `0x40100000`. -/
def slice_state_unlimited : slice_state :=
  slice_init 0x8000000 0 0x400000 0 0 (slice_state_zero [0x40000000, 0x40100000])

/-! ## Anchor and active words (`src/mm/arch/ia32/lf_malloc_data.c`) -/

def anchor_avail_mask : Nat := 0xffc0000000000000
def anchor_credits_mask : Nat := 0x003ff00000000000
def anchor_state_mask : Nat := 0x00000c0000000000
def anchor_tag_mask : Nat := 0x000003ffffffffff
def anchor_avail_shift : Nat := 54
def anchor_credits_shift : Nat := 44
def anchor_state_shift : Nat := 42
def active_credits_mask : Nat := 0x0000003f
def active_ptr_mask : Nat := 0xffffffc0
def MAX_CREDITS : Nat := 64
def ANC_ACTIVE : Nat := 0
def ANC_FULL : Nat := 1
def ANC_PARTIAL : Nat := 2
def ANC_EMPTY : Nat := 3

/-- Subtraction of `unsigned int` values. -/
def uint_sub (a b : Nat) : Nat := (a + UINT_RANGE - b % UINT_RANGE) % UINT_RANGE

def anchor_create (avail credits state : Nat) : Nat :=
  ((avail <<< anchor_avail_shift) &&& anchor_avail_mask) |||
  ((credits <<< anchor_credits_shift) &&& anchor_credits_mask) |||
  ((state <<< anchor_state_shift) &&& anchor_state_mask) ||| 0

def anchor_get_avail (anchor : Nat) : Nat :=
  (anchor &&& anchor_avail_mask) >>> anchor_avail_shift

def anchor_set_avail (anchor avail : Nat) : Nat :=
  ((avail <<< anchor_avail_shift) &&& anchor_avail_mask) |||
  (anchor &&& anchor_credits_mask) ||| (anchor &&& anchor_state_mask) |||
  (anchor &&& anchor_tag_mask)

def anchor_get_credits (anchor : Nat) : Nat :=
  (anchor &&& anchor_credits_mask) >>> anchor_credits_shift

def anchor_set_credits (anchor credits : Nat) : Nat :=
  (anchor &&& anchor_avail_mask) |||
  ((credits <<< anchor_credits_shift) &&& anchor_credits_mask) |||
  (anchor &&& anchor_state_mask) ||| (anchor &&& anchor_tag_mask)

def anchor_get_state (anchor : Nat) : Nat :=
  (anchor &&& anchor_state_mask) >>> anchor_state_shift

def anchor_set_state (anchor state : Nat) : Nat :=
  (anchor &&& anchor_avail_mask) ||| (anchor &&& anchor_credits_mask) |||
  ((state <<< anchor_state_shift) &&& anchor_state_mask) ||| (anchor &&& anchor_tag_mask)

def anchor_get_tag (anchor : Nat) : Nat := anchor &&& anchor_tag_mask

def anchor_set_tag (anchor tag : Nat) : Nat :=
  (anchor &&& anchor_avail_mask) ||| (anchor &&& anchor_credits_mask) |||
  (anchor &&& anchor_state_mask) ||| (tag &&& anchor_tag_mask)

def active_create (ptr credits : Nat) : Nat :=
  (ptr &&& active_ptr_mask) ||| (credits &&& active_credits_mask)

def active_get_credits (active : Nat) : Nat := active &&& active_credits_mask

def active_set_credits (active credits : Nat) : Nat :=
  (active &&& active_ptr_mask) ||| (credits &&& active_credits_mask)

def active_get_ptr (active : Nat) : Nat := active &&& active_ptr_mask

def active_set_ptr (active ptr : Nat) : Nat :=
  (ptr &&& active_ptr_mask) ||| (active &&& active_credits_mask)

/-! ## Lock-free allocator (`src/mm/malloc/lf_malloc.c`), ia32 build:
`CACHE_LINE_SIZE = 32`, hence the table of 32 size classes -/

def NUM_SIZE_CLASSES : Nat := 32

/-- The `sc_size` column of `malloc_sizeclasses` for `CACHE_LINE_SIZE <= 32`;
`sc_block_size` is `0x10000` in every row. -/
def malloc_sizeclasses_sc_size : List Nat :=
  [0x20, 0x40, 0x60, 0x80, 0xa0, 0xc0, 0xe0, 0x100, 0x140, 0x180, 0x1c0, 0x200,
   0x280, 0x300, 0x380, 0x400, 0x500, 0x600, 0x700, 0x800, 0xa00, 0xc00, 0xe00, 0x1000,
   0x1400, 0x1800, 0x1c00, 0x2000, 0x2800, 0x3000, 0x3800, 0x4000]

/-- `malloc_big_size_class(size, base)`.  The source states
`INVARIANT(size <= 0x4000)`. -/
def malloc_big_size_class (size base : Nat) : Nat :=
  let size_div128 := size >>> 6
  if 4 > size_div128 then base + size_div128
  else
    let size_div256 := (size_div128 - 4) >>> 1
    if 4 > size_div256 then base + 4 + size_div256
    else
      let size_div512 := (size_div256 - 4) >>> 1
      if 4 > size_div512 then base + 8 + size_div512
      else
        let size_div1024 := (size_div512 - 4) >>> 1
        if 4 > size_div1024 then base + 12 + size_div1024
        else
          let size_div2048 := (size_div1024 - 4) >>> 1
          if 4 > size_div2048 then base + 16 + size_div2048
          else
            let size_div4096 := (size_div2048 - 4) >>> 1
            base + 20 + size_div4096

/-- `malloc_size_class(size)`, the variant for `CACHE_LINE_SIZE <= 32`.  The
source states `INVARIANT(size <= 0x4000)`. -/
def malloc_size_class (size : Nat) : Nat :=
  let size_div32 := size >>> 5
  if 8 > size_div32 then size_div32 else malloc_big_size_class size 8

/-- A superblock descriptor `descriptor_t`.  `des_heap` is the index of the
procheap in `malloc_procheaps` (counted from `malloc_procheaps[0][0]`). -/
structure descriptor_t where
  des_anchor : Nat
  des_next : Nat
  des_slice : Nat
  des_heap : Nat
  des_size : Nat
  des_maxcount : Nat
deriving DecidableEq, Repr

/-- A processor heap `procheap_t`.  `ph_sizeclass` is the index of the size
class in `malloc_sizeclasses`. -/
structure procheap_t where
  ph_partial : Nat
  ph_active : Nat
  ph_sizeclass : Nat
deriving DecidableEq, Repr

/-- A row of `malloc_sizeclasses`.  `sc_partial` is the content, head first,
of the block queue the field points to (`lf_block_queue.c`, whose node
management is not part of this model). -/
structure sizeclass_t where
  sc_size : Nat
  sc_block_size : Nat
  sc_partial : List Nat
deriving DecidableEq, Repr

/-- The state of the allocator: the slice manager, the 32-bit words of
mapped memory by address, the descriptors by address, the procheaps by index
from `malloc_procheaps[0][0]` (row `exec`, column `size_class` is index
`exec * NUM_SIZE_CLASSES + size_class`), the size classes by index and the
head of the free descriptor list. -/
structure malloc_state where
  sl : slice_state
  mem : Nat → Nat
  descs : Nat → descriptor_t
  procheaps : Nat → procheap_t
  sizeclasses : Nat → sizeclass_t
  malloc_desc_avail : Nat

def set_mem (s : malloc_state) (a v : Nat) : malloc_state :=
  { s with mem := fun q => if q = a then v else s.mem q }

def set_desc (s : malloc_state) (p : Nat) (d : descriptor_t) : malloc_state :=
  { s with descs := fun q => if q = p then d else s.descs q }

def set_procheap (s : malloc_state) (i : Nat) (h : procheap_t) : malloc_state :=
  { s with procheaps := fun q => if q = i then h else s.procheaps q }

def set_sizeclass (s : malloc_state) (j : Nat) (c : sizeclass_t) : malloc_state :=
  { s with sizeclasses := fun q => if q = j then c else s.sizeclasses q }

/-- `lf_block_queue_enqueue(malloc_sizeclasses[j].sc_partial, block, exec)`. -/
def lf_block_queue_enqueue (j block : Nat) (s : malloc_state) : malloc_state :=
  set_sizeclass s j { s.sizeclasses j with sc_partial := sizeclass_t.sc_partial (s.sizeclasses j) ++ [block] }

/-- `lf_block_queue_dequeue(malloc_sizeclasses[j].sc_partial, exec)`: the
head of the queue, or `NULL` when it is empty. -/
def lf_block_queue_dequeue (j : Nat) (s : malloc_state) : Nat × malloc_state :=
  match sizeclass_t.sc_partial (s.sizeclasses j) with
  | [] => (0, s)
  | b :: rest => (b, set_sizeclass s j { s.sizeclasses j with sc_partial := rest })

/-- The list-building loop of `try_desc_alloc`: `n` rounds of
`addr->des_next = addr + dessize; addr = addr + dessize;` with
`dessize = 64`.  Returns the final `addr`. -/
def desc_list_loop : Nat → Nat → malloc_state → Nat × malloc_state
  | 0, addr, s => (addr, s)
  | n + 1, addr, s =>
    desc_list_loop n (addr + 64) (set_desc s addr { s.descs addr with des_next := addr + 64 })

/-- `try_desc_alloc()`.  `sizeof(descriptor_t)` is below 64 on ia32, so
`dessize` is 64. -/
def try_desc_alloc (fuel : Nat) (s : malloc_state) : Option (Nat × malloc_state) :=
  let desc := s.malloc_desc_avail
  if desc ≠ 0 then
    let next := (s.descs desc).des_next
    let r := atomic_compare_and_set_uint desc next s.malloc_desc_avail
    some (if r.1 then desc else 0, { s with malloc_desc_avail := r.2 })
  else
    (slice_alloc fuel SLICE_TYPE_MALLOC SLICE_PROT_RWX 0x10000 s.sl).bind fun a =>
      let slice := a.1
      let s1 := { s with sl := a.2 }
      if slice ≠ 0 then
        let dessize := 64
        let count := (s1.sl.slices slice).s_size / dessize
        let addr0 := (s1.sl.slices slice).s_ptr
        let newlist := addr0 + dessize
        let l := desc_list_loop (uint_sub count 1) addr0 s1
        let addr := l.1 - dessize
        let s2 := set_desc l.2 addr { l.2.descs addr with des_next := 0 }
        let r := atomic_compare_and_set_uint 0 newlist s2.malloc_desc_avail
        if r.1 then some (addr, { s2 with malloc_desc_avail := r.2 })
        else (slice_free fuel slice s2.sl).map fun sl2 => (0, { s2 with sl := sl2 })
      else some (0, s1)

/-- `desc_alloc()`: repeats `try_desc_alloc` until it yields a descriptor. -/
def desc_alloc : Nat → malloc_state → Option (Nat × malloc_state)
  | 0, _ => none
  | fuel + 1, s =>
    (try_desc_alloc (fuel + 1) s).bind fun a =>
      if a.1 ≠ 0 then some a else desc_alloc fuel a.2

/-- `malloc_try_desc_retire(desc)`. -/
def malloc_try_desc_retire (desc : Nat) (s : malloc_state) : Bool × malloc_state :=
  let oldhead := s.malloc_desc_avail
  let s1 := set_desc s desc { s.descs desc with des_next := oldhead }
  let r := atomic_compare_and_set_uint oldhead desc s1.malloc_desc_avail
  (r.1, { s1 with malloc_desc_avail := r.2 })

/-- `malloc_desc_retire(desc)`. -/
def malloc_desc_retire (fuel desc : Nat) (s : malloc_state) : Option malloc_state :=
  (retry_loop (fun st =>
    let r := malloc_try_desc_retire desc st
    (if r.1 then some () else none, r.2)) fuel s).map (fun r => r.2)

/-- `find_heap(size, exec)`: `none` is `NULL`, `some i` the procheap
`malloc_procheaps[exec] + size_class` as an index from
`malloc_procheaps[0][0]`. -/
def find_heap (size exec : Nat) : Option Nat :=
  if size ≤ 0x40000 then some (exec * NUM_SIZE_CLASSES + malloc_size_class size)
  else none

/-- `try_reserve_from_active(procheap, active)`. -/
def try_reserve_from_active (procheap active : Nat) (s : malloc_state) : Bool × malloc_state :=
  let credits := active_get_credits active
  let newactive :=
    if 0 = credits then active_set_ptr active 0
    else active_set_credits active (credits - 1)
  let r := atomic_compare_and_set_uint active newactive (s.procheaps procheap).ph_active
  (r.1, set_procheap s procheap { s.procheaps procheap with ph_active := r.2 })

/-- `reserve_from_active(procheap)`. -/
def reserve_from_active (procheap : Nat) : Nat → malloc_state → Option (Nat × malloc_state)
  | 0, _ => none
  | fuel + 1, s =>
    let active := (s.procheaps procheap).ph_active
    if active_get_ptr active ≠ 0 then
      let r := try_reserve_from_active procheap active s
      if r.1 then some (active, r.2) else reserve_from_active procheap fuel r.2
    else some (active, s)

/-- `try_heap_put_partial(desc, exec)`. -/
def try_heap_put_partial (desc : Nat) (s : malloc_state) : Bool × malloc_state :=
  let heap := (s.descs desc).des_heap
  let prev := procheap_t.ph_partial (s.procheaps heap)
  let r := atomic_compare_and_set_uint prev desc
    ( procheap_t.ph_partial (s.procheaps (s.descs desc).des_heap))
  let s1 := set_procheap s (s.descs desc).des_heap
    { s.procheaps (s.descs desc).des_heap with ph_partial := r.2 }
  if r.1 then
    if prev ≠ 0 then (true, lf_block_queue_enqueue (s1.procheaps heap).ph_sizeclass prev s1)
    else (true, s1)
  else (false, s1)

/-- `heap_put_partial(desc, exec)`. -/
def heap_put_partial (fuel desc : Nat) (s : malloc_state) : Option malloc_state :=
  (retry_loop (fun st =>
    let r := try_heap_put_partial desc st
    (if r.1 then some () else none, r.2)) fuel s).map (fun r => r.2)

/-- `update_partial(desc, morecredits, exec)`. -/
def update_partial (fuel desc morecredits : Nat) (s : malloc_state) :
    Option (Bool × malloc_state) :=
  let oldanchor := (s.descs desc).des_anchor
  let part := anchor_set_state oldanchor ANC_PARTIAL
  let newanchor := anchor_set_credits part
    ((anchor_get_credits oldanchor + morecredits) % UINT_RANGE)
  let r := atomic_compare_and_set_uint oldanchor newanchor (s.descs desc).des_anchor
  let s1 := set_desc s desc { s.descs desc with des_anchor := r.2 }
  if r.1 then ( heap_put_partial fuel desc s1).map fun s2 => (true, s2)
  else some (false, s1)

/-- The loop `for(i = 1; !update_partial(desc, morecredits, exec); i++)`. -/
def update_partial_loop (desc morecredits : Nat) : Nat → malloc_state → Option malloc_state
  | 0, _ => none
  | fuel + 1, s =>
    ( update_partial (fuel + 1) desc morecredits s).bind fun a =>
      if a.1 then some a.2 else update_partial_loop desc morecredits fuel a.2

/-- `update_active(heap, desc, morecredits, exec)`. -/
def update_active (fuel heap desc morecredits : Nat) (s : malloc_state) : Option malloc_state :=
  let active := active_create desc (uint_sub morecredits 1)
  let r := atomic_compare_and_set_uint 0 active (s.procheaps heap).ph_active
  let s1 := set_procheap s heap { s.procheaps heap with ph_active := r.2 }
  if ¬ r.1 then update_partial_loop desc morecredits fuel s1
  else some s1

/-- `desc->des_slice->s_ptr`. -/
def desc_slice_ptr (s : malloc_state) (desc : Nat) : Nat :=
  (s.sl.slices (s.descs desc).des_slice).s_ptr

/-- `pop_from_active(procheap, active, exec)`: the block (the address after
its prefix line), or `NULL` when the compare-and-set on the anchor fails. -/
def pop_from_active (fuel procheap active : Nat) (s : malloc_state) :
    Option (Nat × malloc_state) :=
  let desc := active_get_ptr active
  let oldanchor := (s.descs desc).des_anchor
  let addr := desc_slice_ptr s desc + anchor_get_avail oldanchor * (s.descs desc).des_size
  let next := s.mem addr
  let credits := anchor_get_credits oldanchor
  let morecredits := min credits MAX_CREDITS
  let avail := anchor_set_avail oldanchor next
  let newanchor0 := anchor_set_tag avail (anchor_get_tag oldanchor + 1)
  let newanchor :=
    if 0 = active_get_credits active then
      if 0 = anchor_get_credits oldanchor then anchor_set_state newanchor0 ANC_FULL
      else anchor_set_credits newanchor0 (uint_sub (anchor_get_credits newanchor0) morecredits)
    else newanchor0
  let r := atomic_compare_and_set_uint oldanchor newanchor (s.descs desc).des_anchor
  let s1 := set_desc s desc { s.descs desc with des_anchor := r.2 }
  if r.1 then
    let upd :=
      if 0 = active_get_credits active ∧ 0 < anchor_get_credits oldanchor then
        update_active fuel procheap desc morecredits s1
      else some s1
    upd.map fun s2 => (addr + CACHE_LINE_SIZE, set_mem s2 addr desc)
  else some (0, s1)

/-- The loop `for(i = 1; NULL == (out = pop_from_active(...)); i++)`. -/
def pop_from_active_loop (procheap active : Nat) : Nat → malloc_state →
    Option (Nat × malloc_state)
  | 0, _ => none
  | fuel + 1, s =>
    (pop_from_active (fuel + 1) procheap active s).bind fun a =>
      if a.1 ≠ 0 then some a else pop_from_active_loop procheap active fuel a.2

/-- `malloc_from_active(heap, exec)`. -/
def malloc_from_active (fuel heap : Nat) (s : malloc_state) : Option (Nat × malloc_state) :=
  (reserve_from_active heap fuel s).bind fun a =>
    if active_get_ptr a.1 ≠ 0 then pop_from_active_loop heap a.1 fuel a.2
    else some (0, a.2)

/-- `heap_get_partial(heap, exec)`. -/
def heap_get_partial (heap : Nat) : Nat → malloc_state → Option (Nat × malloc_state)
  | 0, _ => none
  | fuel + 1, s =>
    let out := procheap_t.ph_partial (s.procheaps heap)
    if out ≠ 0 then
      let r := atomic_compare_and_set_uint out 0 ( procheap_t.ph_partial (s.procheaps heap))
      let s1 := set_procheap s heap { s.procheaps heap with ph_partial := r.2 }
      if r.1 then some (out, s1) else heap_get_partial heap fuel s1
    else some (lf_block_queue_dequeue (s.procheaps heap).ph_sizeclass s)

/-- `pop_from_partial(desc)`. -/
def pop_from_partial (desc : Nat) (s : malloc_state) : Nat × malloc_state :=
  let oldanchor := (s.descs desc).des_anchor
  let addr := desc_slice_ptr s desc + anchor_get_avail oldanchor * (s.descs desc).des_size
  let avail := anchor_set_avail oldanchor (s.mem addr)
  let newanchor := anchor_set_tag avail (anchor_get_tag oldanchor + 1)
  let r := atomic_compare_and_set_uint oldanchor newanchor (s.descs desc).des_anchor
  (if r.1 then addr else 0, set_desc s desc { s.descs desc with des_anchor := r.2 })

/-- The inner loop `for(;; i++)` of `malloc_from_partial` on the descriptor
`desc`: `some morecredits` when the descriptor has been claimed, `none` when
its anchor was found EMPTY. -/
def malloc_from_partial_claim (desc : Nat) : Nat → malloc_state →
    Option (Option Nat × malloc_state)
  | 0, _ => none
  | fuel + 1, s =>
    let oldanchor := (s.descs desc).des_anchor
    if ANC_EMPTY ≠ anchor_get_state oldanchor then
      let credits := min (uint_sub (anchor_get_credits oldanchor) 1) MAX_CREDITS
      let active := anchor_set_state oldanchor (if credits > 0 then ANC_ACTIVE else ANC_FULL)
      let newanchor := anchor_set_credits active
        (uint_sub (anchor_get_credits oldanchor) ((credits + 1) % UINT_RANGE))
      let r := atomic_compare_and_set_uint oldanchor newanchor (s.descs desc).des_anchor
      let s1 := set_desc s desc { s.descs desc with des_anchor := r.2 }
      if r.1 then some (some credits, s1) else malloc_from_partial_claim desc fuel s1
    else some (none, s)

/-- The outer loop `for(unsigned int i = 0; retry; i++)` of
`malloc_from_partial`: the descriptor it ends with (`0`: none left) and
`morecredits`. -/
def malloc_from_partial_find (heap : Nat) : Nat → malloc_state →
    Option ((Nat × Nat) × malloc_state)
  | 0, _ => none
  | fuel + 1, s =>
    ( heap_get_partial heap (fuel + 1) s).bind fun a =>
      let desc := a.1
      if desc ≠ 0 then
        (malloc_from_partial_claim desc (fuel + 1) a.2).bind fun c =>
          match c.1 with
          | some morecredits => some ((desc, morecredits), c.2)
          | none => malloc_from_partial_find heap fuel c.2
      else some ((0, 0), a.2)

/-- The loop `for(i = 1; NULL == (addr = pop_from_partial(desc)); i++)`. -/
def pop_from_partial_loop (desc : Nat) : Nat → malloc_state → Option (Nat × malloc_state)
  | 0, _ => none
  | fuel + 1, s =>
    let a := pop_from_partial desc s
    if a.1 ≠ 0 then some a else pop_from_partial_loop desc fuel a.2

/-- `malloc_from_partial(heap, exec)`. -/
def malloc_from_partial (fuel heap : Nat) (s : malloc_state) : Option (Nat × malloc_state) :=
  (malloc_from_partial_find heap fuel s).bind fun f =>
    let desc := f.1.1
    let morecredits := f.1.2
    if desc ≠ 0 then
      (pop_from_partial_loop desc fuel f.2).bind fun p =>
        let addr := p.1
        let upd := if morecredits > 0 then update_active fuel heap desc morecredits p.2
          else some p.2
        upd.map fun s2 => (addr + CACHE_LINE_SIZE, set_mem s2 addr desc)
    else some (0, f.2)

/-- The loop `for(i = 1; i < maxcount - 1; i++)` of `malloc_from_new_sb`,
with `n` rounds left: `*(unsigned int*)(addr + sc_size * i) = i + 1`. -/
def block_list_loop (addr sc_size : Nat) : Nat → Nat → malloc_state → malloc_state
  | 0, _, s => s
  | n + 1, i, s =>
    block_list_loop addr sc_size n (i + 1)
      (set_mem s (addr + (sc_size * i) % UINT_RANGE) (i + 1))

/-- `malloc_from_new_sb(heap)`. -/
def malloc_from_new_sb (fuel heap : Nat) (s : malloc_state) : Option (Nat × malloc_state) :=
  let sc := s.sizeclasses (s.procheaps heap).ph_sizeclass
  (slice_alloc fuel SLICE_TYPE_MALLOC SLICE_PROT_RWX sc.sc_block_size s.sl).bind fun a =>
    let slice := a.1
    let s1 := { s with sl := a.2 }
    if slice ≠ 0 then
      (desc_alloc fuel s1).bind fun d =>
        let desc := d.1
        let s2 := d.2
        let maxcount := sc.sc_block_size / sc.sc_size
        let credits := uint_sub (min (uint_sub maxcount 1) MAX_CREDITS) 1
        let newactive := active_create desc credits
        let addr := (s2.sl.slices slice).s_ptr
        let s3 := block_list_loop addr sc.sc_size (uint_sub maxcount 1 - 1) 1 s2
        let s4 := set_desc s3 desc
          { s3.descs desc with
            des_slice := slice, des_heap := heap, des_size := sc.sc_size,
            des_maxcount := maxcount,
            des_anchor := anchor_create 1
              (uint_sub (uint_sub maxcount 1) ((credits + 1) % UINT_RANGE)) ANC_ACTIVE }
        let r := atomic_compare_and_set_uint 0 newactive (s4.procheaps heap).ph_active
        let s5 := set_procheap s4 heap { s4.procheaps heap with ph_active := r.2 }
        if r.1 then
          let slice_ptr := (s5.sl.slices slice).s_ptr
          some (slice_ptr + CACHE_LINE_SIZE, set_mem s5 slice_ptr desc)
        else
          (slice_free fuel slice s5.sl).bind fun sl6 =>
            (malloc_desc_retire fuel desc { s5 with sl := sl6 }).map fun s7 => (0, s7)
    else some (0, s1)

/-- `try_alloc(heap, exec)`. -/
def try_alloc (fuel heap : Nat) (s : malloc_state) : Option (Nat × malloc_state) :=
  (malloc_from_active fuel heap s).bind fun a =>
    if a.1 = 0 then
      ( malloc_from_partial fuel heap a.2).bind fun p =>
        if p.1 = 0 then malloc_from_new_sb fuel heap p.2
        else some p
    else some a

/-- The `while` loop of `remove_empty_desc` on the queue content `q`:
dequeue until the queue is empty or the dequeued descriptor is EMPTY.
Returns the last `curr` (`0`: `NULL`) and what is left of the queue. -/
def remove_empty_desc_loop (descs : Nat → descriptor_t) : List Nat → Nat × List Nat
  | [] => (0, [])
  | curr :: rest =>
    if curr ≠ 0 ∧ ANC_EMPTY ≠ anchor_get_state (descs curr).des_anchor then
      remove_empty_desc_loop descs rest
    else (curr, rest)

/-- `remove_empty_desc(heap, desc, exec)`. -/
def remove_empty_desc (fuel heap desc : Nat) (s : malloc_state) : Option malloc_state :=
  let r := atomic_compare_and_set_uint desc 0 ( procheap_t.ph_partial (s.procheaps heap))
  let s1 := set_procheap s heap { s.procheaps heap with ph_partial := r.2 }
  if r.1 then malloc_desc_retire fuel desc s1
  else
    let j := (s1.procheaps heap).ph_sizeclass
    let l := remove_empty_desc_loop s1.descs ( sizeclass_t.sc_partial (s1.sizeclasses j))
    let s2 := set_sizeclass s1 j { s1.sizeclasses j with sc_partial := l.2 }
    if l.1 ≠ 0 then some (lf_block_queue_enqueue j l.1 s2) else some s2

/-- `try_free(desc, ptr, exec)`.  The local `heap` is `NULL` (`none`) unless
the free empties the superblock; `remove_empty_desc` on a `NULL` heap
dereferences it, for which the model has no result. -/
def try_free (fuel desc ptr : Nat) (s : malloc_state) : Option (Bool × malloc_state) :=
  let oldanchor := (s.descs desc).des_anchor
  let offset := uint_sub ptr (desc_slice_ptr s desc) / (s.descs desc).des_size
  let newanchor0 := anchor_set_avail
    (if ANC_FULL = anchor_get_state oldanchor then anchor_set_state oldanchor ANC_PARTIAL
     else oldanchor) offset
  let s1 := set_mem s ptr (anchor_get_avail oldanchor)
  let emptied := anchor_get_credits oldanchor = uint_sub (s1.descs desc).des_maxcount 1
  let heap : Option Nat := if emptied then some (s1.descs desc).des_heap else none
  let newanchor :=
    if emptied then anchor_set_state newanchor0 ANC_EMPTY
    else anchor_set_credits newanchor0 ((anchor_get_credits newanchor0 + 1) % UINT_RANGE)
  let r := atomic_compare_and_set_uint oldanchor newanchor (s1.descs desc).des_anchor
  let s2 := set_desc s1 desc { s1.descs desc with des_anchor := r.2 }
  if r.1 then
    if ANC_EMPTY = anchor_get_state newanchor then
      (slice_free fuel (s2.descs desc).des_slice s2.sl).bind fun sl3 =>
        match heap with
        | some h => (remove_empty_desc fuel h desc { s2 with sl := sl3 }).map fun s4 => (true, s4)
        | none => none
    else if ANC_FULL = anchor_get_state oldanchor then
      ( heap_put_partial fuel desc s2).map fun s3 => (true, s3)
    else some (true, s2)
  else some (false, s2)

/-- The loop `for(i = 1; NULL == (out = try_alloc(heap, exec)); i++)` of
`malloc_lf`. -/
def try_alloc_loop (heap : Nat) : Nat → malloc_state → Option (Nat × malloc_state)
  | 0, _ => none
  | fuel + 1, s =>
    (try_alloc (fuel + 1) heap s).bind fun a =>
      if a.1 ≠ 0 then some a else try_alloc_loop heap fuel a.2

/-- `malloc_lf(req_size, exec)`: the pointer returned (`0`: `NULL`) and the
new state; `none` when the fuel does not suffice. -/
def malloc_lf (fuel req_size exec : Nat) (s : malloc_state) : Option (Nat × malloc_state) :=
  if 0 ≠ req_size then
    let size := (req_size + CACHE_LINE_SIZE) % UINT_RANGE
    match find_heap size exec with
    | some heap => try_alloc_loop heap fuel s
    | none =>
      let slice_size := ((size - 1) % PAGE_SIZE) + PAGE_SIZE
      (slice_alloc fuel SLICE_TYPE_MALLOC SLICE_PROT_RWX slice_size s.sl).bind fun a =>
        let slice := a.1
        let s1 := { s with sl := a.2 }
        if slice ≠ 0 then
          let ptr := (s1.sl.slices slice).s_ptr
          let ptr_val := ptr ||| 0x1
          some (ptr + CACHE_LINE_SIZE, set_mem s1 ptr ptr_val)
        else some (0, s1)
  else some (0, s)

/-- The loop `for(int i = 0; !try_free(tag_ptr, prefix, exec); i++)` of
`free_lf`. -/
def try_free_loop (desc ptr : Nat) : Nat → malloc_state → Option malloc_state
  | 0, _ => none
  | fuel + 1, s =>
    (try_free (fuel + 1) desc ptr s).bind fun a =>
      if a.1 then some a.2 else try_free_loop desc ptr fuel a.2

/-- `free_lf(ptr, exec)`. -/
def free_lf (fuel ptr : Nat) (s : malloc_state) : Option malloc_state :=
  if ptr ≠ 0 then
    let pfx := ptr - CACHE_LINE_SIZE
    let tag_val := s.mem pfx
    let large_block := tag_val &&& 0x1
    let tag_ptr := tag_val &&& 0xfffffffe
    if large_block = 0 then try_free_loop tag_ptr pfx fuel s
    else (slice_free fuel tag_ptr s.sl).map fun sl1 => { s with sl := sl1 }
  else some s

/-- The two initialisation loops of `mm_malloc_init(execs, mem)`: every
procheap `malloc_procheaps[i][j]` gets `ph_partial = NULL`, `ph_active = 0`
and `ph_sizeclass = malloc_sizeclasses + j`; every size class starts with an
empty partial queue. -/
def mm_malloc_init (execs : Nat) (s : malloc_state) : malloc_state :=
  { s with
    procheaps := fun q =>
      if q < execs * NUM_SIZE_CLASSES then ⟨0, 0, q % NUM_SIZE_CLASSES⟩ else s.procheaps q,
    sizeclasses := fun j =>
      if j < NUM_SIZE_CLASSES then ⟨malloc_sizeclasses_sc_size.getD j 0, 0x10000, []⟩
      else s.sizeclasses j }

/-- The allocator before `mm_malloc_init`: zeroed statics over the slice
manager `sl`. -/
def malloc_state_zero (sl : slice_state) : malloc_state where
  sl := sl
  mem := fun _ => 0
  descs := fun _ => ⟨0, 0, 0, 0, 0, 0⟩
  procheaps := fun _ => ⟨0, 0, 0⟩
  sizeclasses := fun _ => ⟨0, 0, []⟩
  malloc_desc_avail := 0

/-- An allocator for two executors: procheaps and size classes as
`mm_malloc_init` leaves them, over the freshly initialised slice manager
without limits (the slices that the runtime maps before the first
allocation, for static data and queue nodes, are left out); the operating
system answers the next two `mmap` calls with `0x40000000` and
`0x40100000`. -/
def malloc_state_boot : malloc_state :=
  mm_malloc_init 2 (malloc_state_zero slice_state_unlimited)

/-- The allocator of `malloc_state_boot` at a time when all
`SLICE_TAB_SIZE` slice descriptors are in use (by MALLOC slices of `0x10000`
bytes): the descriptor free list is empty. -/
def malloc_state_exhausted : malloc_state :=
  { malloc_state_boot with
    sl := { malloc_state_boot.sl with
      slice_free_list := 0, total_size := 0x1000000, malloc_size := 0x1000000 } }


/-- The test of `executor_try_wakeup` on an executor:
`NULL == exec->ex_scheduler.sch_curr_thread && !(oldsigs & EX_SIGNAL_SCHEDULE)`. -/
def executor_wakeup_test (s : cc_state) (ex : executor_t) : Prop :=
  ex.sch_curr_thread = 0 ∧ ex.ex_signal_mbox &&& s.EX_SIGNAL_SCHEDULE = 0

instance (s : cc_state) (ex : executor_t) : Decidable (executor_wakeup_test s ex) := by
  unfold executor_wakeup_test
  infer_instance

/-- The executor `ex` with `EX_SIGNAL_SCHEDULE` or-ed into its signal mailbox. -/
def executor_with_schedule (s : cc_state) (ex : executor_t) : executor_t :=
  { ex with ex_signal_mbox := ex.ex_signal_mbox ||| s.EX_SIGNAL_SCHEDULE }

/-- Three executors, the first running thread `0x5000`, the other two without a
current thread and with empty mailboxes; thread `0x7000` is suspended and
unreferenced; the workshare is as `lf_thread_queue_init(mem, 48, 3)` leaves
it. -/
def cc_state_two_idle : cc_state :=
  { t_sched_stat_ref := fun _ => T_STAT_SUSPENDED, t_mbox_executor := fun _ => 0,
    sched_workshare := lf_thread_queue_init 0x1000 8 48 3 3, sched_active_threads := 1,
    executors := [⟨0, 0x5000, 0x6000⟩, ⟨0, 0, 0x6100⟩, ⟨0, 0, 0x6200⟩],
    os_signals := [], destroyed := [], cycles := [],
    EX_SIGNAL_SCHEDULE := 1, thread_mbox_null_executor := 0xffffffff }


/-! ### Collector state, generation choice and slice release
(`src/mm/gc/gc_thread.c`, `src/mm/gc/gc_alloc.c`)

One executor runs the code, so a barrier is passed by the executor that
executes its sequential part. -/

/-- The file-scope variables of `gc_thread.c` that steer a collection, and the
slice tables of `gc_alloc.c`: `gc_used_slices[power][index]` and its siblings,
the space counters by index, and the slice descriptors by address.  The
`GC_STATE_*` constants and the number of generations are declared outside the
sources at hand and are carried as fields. -/
structure gc_globals where
  gc_state : Nat
  gc_thread_next_gen : Nat
  gc_thread_peak_gen : Nat
  gc_thread_last_gen : Nat
  gc_collection_count : Nat
  gc_num_generations : Nat
  GC_STATE_PHASE : Nat
  GC_STATE_GEN : Nat
  GC_STATE_INACTIVE : Nat
  GC_STATE_INITIAL : Nat
  GC_STATE_NORMAL : Nat
  GC_STATE_WEAK : Nat
  gc_used_slices : Nat → Nat → Nat
  gc_free_slices : Nat → Nat → Nat
  gc_new_slices : Nat → Nat → Nat
  gc_used_space : Nat → Nat
  gc_free_space : Nat → Nat
  gc_new_space : Nat → Nat
  gc_slices : Nat → slice_t

/-- The complement `~x` of a 32-bit word. -/
def uint_not (x : Nat) : Nat := (UINT_RANGE - 1) ^^^ (x % UINT_RANGE)

/-- `MIN_SLICE_POWER`. -/
def MIN_SLICE_POWER : Nat := 14

/-- `MAX_SLICE_POWER`, `BITS - 1`. -/
def MAX_SLICE_POWER : Nat := 32 - 1

/-- `SLICE_POWERS`. -/
def SLICE_POWERS : Nat := ((MAX_SLICE_POWER) - (MIN_SLICE_POWER)) + 1

/-- `gc_thread_try_activate()`. -/
def gc_thread_try_activate (s : gc_globals) : Bool × gc_globals :=
  let state := s.gc_state
  let old_phase := (state &&& s.GC_STATE_PHASE) % 256
  let new_phase := (if s.GC_STATE_INACTIVE ≠ old_phase then old_phase else s.GC_STATE_INITIAL) % 256
  if new_phase ≠ old_phase then
    let new_state := (state &&& uint_not s.GC_STATE_PHASE) ||| new_phase
    let r := atomic_compare_and_set_uint state new_state s.gc_state
    (r.1, { s with gc_state := r.2 })
  else (true, s)

/-- `gc_thread_try_set_gen(gen)`. -/
def gc_thread_try_set_gen (gen : Nat) (s : gc_globals) : Bool × gc_globals :=
  let old_gen := s.gc_thread_next_gen % 256
  let new_gen := (if old_gen > gen then old_gen else gen) % 256
  if old_gen = new_gen then (true, s)
  else
    let r := atomic_compare_and_set_uint old_gen new_gen s.gc_thread_next_gen
    (r.1, { s with gc_thread_next_gen := r.2 })

/-- A loop `for(i = 1; try(); i++) backoff_delay(i);`: it goes on as long as
`try` returns true. -/
def gc_loop_while_true (try_ : gc_globals → Bool × gc_globals) :
    Nat → gc_globals → Option gc_globals
  | 0, _ => none
  | fuel + 1, s =>
    let r := try_ s
    if r.1 then gc_loop_while_true try_ fuel r.2 else some r.2

/-- `gc_thread_activate(gen)`. -/
def gc_thread_activate (fuel : Nat) (gen : Nat) (s : gc_globals) : Option gc_globals :=
  (gc_loop_while_true gc_thread_try_activate fuel s).bind
    (gc_loop_while_true (gc_thread_try_set_gen (gen % 256)) fuel)

/-- `gc_thread_get_gen()`: the generation to collect and the new state. -/
def gc_thread_get_gen (s : gc_globals) : Nat × gc_globals :=
  let current_gen := s.gc_thread_next_gen
  if current_gen < s.gc_thread_peak_gen then
    (current_gen, { s with gc_thread_next_gen := (s.gc_thread_next_gen + 1) % UINT_RANGE })
  else if current_gen = s.gc_thread_peak_gen then
    (current_gen, { s with
      gc_thread_peak_gen :=
        (if current_gen < s.gc_num_generations then s.gc_thread_peak_gen + 1 else 1) % 256,
      gc_thread_next_gen := 1 })
  else
    (current_gen, { s with
      gc_thread_peak_gen :=
        (if current_gen < s.gc_num_generations then current_gen + 1 else 1) % 256 })

/-- The sequential code of `gc_thread_initial_barrier`. -/
def gc_thread_initial_barrier (s : gc_globals) : gc_globals :=
  let old_state := s.gc_state
  let r := gc_thread_get_gen s
  let gen := r.1
  let new_state :=
    (old_state &&& uint_not (s.GC_STATE_PHASE ||| s.GC_STATE_GEN)) ||| s.GC_STATE_NORMAL ||| gen
  { r.2 with gc_state := new_state }

/-- The sequential code of `gc_thread_middle_barrier`. -/
def gc_thread_middle_barrier (s : gc_globals) : gc_globals :=
  let old_state := s.gc_state
  { s with gc_state := (old_state &&& uint_not s.GC_STATE_PHASE) ||| s.GC_STATE_WEAK }

/-- The loop `while(NULL != curr->s_next) curr = curr->s_next;` of
`gc_allocator_release_slices`: the last slice of the list that starts at the
non-`NULL` slice `curr`. -/
def gc_slice_list_last (slices : Nat → slice_t) : Nat → Nat → Option Nat
  | 0, _ => none
  | fuel + 1, curr =>
    if 0 ≠ (slices curr).s_next then gc_slice_list_last slices fuel (slices curr).s_next
    else some curr

/-- The body of the first loop nest of `gc_allocator_release_slices` at
`gc_free_slices[i][j]`. -/
def gc_allocator_release_append (fuel i j : Nat) (s : gc_globals) : Option gc_globals :=
  let curr := s.gc_free_slices i j
  if 0 = curr then
    some { s with gc_free_slices := fun a b =>
      if a = i ∧ b = j then s.gc_used_slices i j else s.gc_free_slices a b }
  else
    (gc_slice_list_last s.gc_slices fuel curr).map fun last =>
      let tail : slice_t := { s.gc_slices last with s_next := s.gc_used_slices i j }
      { s with gc_slices := fun a => if a = last then tail else s.gc_slices a }

/-- `gc_allocator_release_slices(gen)`; the bound `gen - 1` of its loops is
computed in unsigned 32-bit arithmetic. -/
def gc_allocator_release_slices (fuel gen : Nat) (s : gc_globals) : Option gc_globals :=
  let bound := (gen + UINT_RANGE - 1) % UINT_RANGE
  let s1 := (List.range SLICE_POWERS).foldlM (fun st i =>
    (List.range bound).foldlM (fun st j => gc_allocator_release_append fuel i j st) st) s
  s1.map fun s1 =>
    let s2 := (List.range bound).foldl (fun (st : gc_globals) i =>
      { st with gc_free_space := fun a =>
          if a = i then (st.gc_free_space i + st.gc_used_space i) % UINT_RANGE
          else st.gc_free_space a }) s1
    let s3 := (List.range SLICE_POWERS).foldl (fun (st : gc_globals) i =>
      (List.range bound).foldl (fun (st : gc_globals) j =>
        { st with gc_used_slices := fun a b =>
            if a = i ∧ b = j then st.gc_new_slices i j else st.gc_used_slices a b }) st) s2
    let s4 := (List.range bound).foldl (fun (st : gc_globals) i =>
      let moved := st.gc_new_space i
      let st1 : gc_globals :=
        { st with gc_used_space := fun a => if a = i then moved else st.gc_used_space a }
      { st1 with gc_new_space := fun a => if a = i then 0 else st1.gc_new_space a }) s3
    (List.range SLICE_POWERS).foldl (fun (st : gc_globals) i =>
      (List.range bound).foldl (fun (st : gc_globals) j =>
        { st with gc_new_slices := fun a b =>
            if a = i ∧ b = j then 0 else st.gc_new_slices a b }) st) s4

/-- The sequential code of `gc_thread_final_barrier` (the copy of the
allocators into the executor that follows it is not part of this state). -/
def gc_thread_final_barrier (fuel : Nat) (s : gc_globals) : Option gc_globals :=
  let old_state := s.gc_state
  let gen := old_state &&& s.GC_STATE_GEN
  let new_state :=
    (old_state &&& uint_not (s.GC_STATE_PHASE ||| s.GC_STATE_GEN)) ||| s.GC_STATE_INACTIVE
  let s1 : gc_globals :=
    { s with gc_thread_peak_gen := gen % 256,
             gc_collection_count := (s.gc_collection_count + 1) % 2 ^ 64,
             gc_state := new_state }
  gc_allocator_release_slices fuel gen s1

/-- The collector variables as the program starts: `gc_thread_last_gen` and
`gc_thread_peak_gen` are initialised to 1; `gc_thread_next_gen`, `gc_state`
and the tables have static storage without initialiser and start at zero.  `G`
is the number of generations; the `GC_STATE_*` values are one choice of
disjoint fields (generation in the low byte, phase above it). -/
def gc_globals_boot (G : Nat) : gc_globals :=
  { gc_state := 0, gc_thread_next_gen := 0, gc_thread_peak_gen := 1,
    gc_thread_last_gen := 1, gc_collection_count := 0, gc_num_generations := G,
    GC_STATE_PHASE := 0x700, GC_STATE_GEN := 0xff, GC_STATE_INACTIVE := 0,
    GC_STATE_INITIAL := 0x100, GC_STATE_NORMAL := 0x200, GC_STATE_WEAK := 0x300,
    gc_used_slices := fun _ _ => 0, gc_free_slices := fun _ _ => 0,
    gc_new_slices := fun _ _ => 0, gc_used_space := fun _ => 0,
    gc_free_space := fun _ => 0, gc_new_space := fun _ => 0,
    gc_slices := fun _ => ⟨0, 0, 0, 0, 0, 0⟩ }

/-- A heap with two generations in use: for slice power 0, generation 1
(index 0) has the used slice `0xa000`, the new slice `0xb000` and the free
slice `0xc000`; generation 2 (index 1) has the used slice `0xd000`, the new
slice `0xe000` and no free slice.  Every slice has `0x4000` bytes. -/
def gc_globals_two_gens : gc_globals :=
  { gc_globals_boot 3 with
    gc_used_slices := fun i j => if i = 0 ∧ j = 0 then 0xa000 else if i = 0 ∧ j = 1 then 0xd000 else 0,
    gc_new_slices := fun i j => if i = 0 ∧ j = 0 then 0xb000 else if i = 0 ∧ j = 1 then 0xe000 else 0,
    gc_free_slices := fun i j => if i = 0 ∧ j = 0 then 0xc000 else 0,
    gc_used_space := fun j => if j = 0 ∨ j = 1 then 0x4000 else 0,
    gc_new_space := fun j => if j = 0 ∨ j = 1 then 0x4000 else 0,
    gc_free_space := fun j => if j = 0 then 0x4000 else 0,
    gc_slices := fun a => ⟨0x4000, a * 0x100, SLICE_TYPE_GC, 0, SLICE_PROT_RWX, 0⟩ }


/-! ### Safepoints (`src/cc/thread_executor.c`, `src/cc/cc.c`) -/

/-- The scheduler state `cc` together with what a safepoint touches besides:
`executor_live`, the write-log index of each executor and of each thread's
mailbox, the calls of `os_thread_exit`, and the collector variables `gc`.
`EX_SIGNAL_GC` is declared outside the sources at hand and is carried as a
field.  A call of `executor_get_new_thread`, which runs `scheduler_cycle` and
loads the context of the thread it returns, is recorded in `cc.cycles`. -/
structure executor_state where
  cc : cc_state
  gc : gc_globals
  EX_SIGNAL_GC : Nat
  executor_live : Nat
  ex_gc_write_log_index : Nat → Nat
  t_mbox_write_log_index : Nat → Nat
  os_thread_exits : List Nat

/-- `executor_retire_old_thread(executors + exec)`. -/
def executor_retire_old_thread (s : executor_state) (exec : Nat) : executor_state :=
  match s.cc.executors.get? exec with
  | none => s
  | some ex =>
    let thread := ex.sch_curr_thread
    if 0 ≠ thread then
      let cc1 : cc_state := { s.cc with t_mbox_executor := fun t =>
        if t = thread then s.cc.thread_mbox_null_executor else s.cc.t_mbox_executor t }
      { s with cc := cc1,
               ex_gc_write_log_index := fun e =>
                 if e = exec then s.t_mbox_write_log_index thread
                 else s.ex_gc_write_log_index e }
    else s

/-- `executor_get_new_thread(executors + exec)`: a scheduler cycle followed
by `context_load`; it does not return. -/
def executor_get_new_thread (s : executor_state) (exec : Nat) : executor_state :=
  let cc1 : cc_state := { s.cc with cycles := s.cc.cycles ++ [exec] }
  { s with cc := cc1 }

/-- `do_executor_sched_cycle(executors + exec)`; it does not return. -/
def do_executor_sched_cycle (s : executor_state) (exec : Nat) : executor_state :=
  if s.executor_live ≠ 0 then
    executor_get_new_thread (executor_retire_old_thread s exec) exec
  else { s with os_thread_exits := s.os_thread_exits ++ [exec] }

/-- `do_executor_run_gc(executors + exec)`; it does not return. -/
def do_executor_run_gc (s : executor_state) (exec : Nat) : executor_state :=
  if s.executor_live ≠ 0 then
    executor_get_new_thread (executor_retire_old_thread s exec) exec
  else { s with os_thread_exits := s.os_thread_exits ++ [exec] }

/-- `executor_check_mbox_sigs(executors + exec, sigs)`: whether the call
returns to its caller, and the new state.  The mailbox is read and cleared by
a compare-and-set that succeeds at once when one executor runs. -/
def executor_check_mbox_sigs (s : executor_state) (exec sigs : Nat) : Bool × executor_state :=
  match s.cc.executors.get? exec with
  | none => (true, s)
  | some ex =>
    let mbox0 := ex.ex_signal_mbox
    let r := atomic_compare_and_set_uint mbox0 0 ex.ex_signal_mbox
    let ex1 : executor_t := { ex with ex_signal_mbox := r.2 }
    let cc1 : cc_state := { s.cc with executors := s.cc.executors.set exec ex1 }
    let s1 : executor_state := { s with cc := cc1 }
    let mbox := mbox0 ||| sigs
    if mbox &&& s.cc.EX_SIGNAL_SCHEDULE ≠ 0 then (false, do_executor_sched_cycle s1 exec)
    else if mbox &&& s.EX_SIGNAL_GC ≠ 0 then (false, do_executor_run_gc s1 exec)
    else (true, s1)

/-- `executor_safepoint(exec, sigs)`. -/
def executor_safepoint (s : executor_state) (exec sigs : Nat) : Bool × executor_state :=
  executor_check_mbox_sigs s exec sigs

/-- `cc_safepoint(exec, sigs)`. -/
def cc_safepoint (s : executor_state) (exec sigs : Nat) : Bool × executor_state :=
  executor_safepoint s exec sigs

/-- Executor 0 runs thread `0x5000` with an empty signal mailbox, the
collector is inactive and the executors are live; `EX_SIGNAL_SCHEDULE` is bit 0
and `EX_SIGNAL_GC` bit 1. -/
def executor_state_running : executor_state :=
  { cc := { cc_state_two_idle with t_mbox_executor := fun _ => 0 },
    gc := gc_globals_boot 3, EX_SIGNAL_GC := 2, executor_live := 1,
    ex_gc_write_log_index := fun _ => 0, t_mbox_write_log_index := fun _ => 7,
    os_thread_exits := [] }


/-! ### Collector threads: claiming and copying objects
(`src/mm/gc/gc_thread.c`, `src/mm/gc/gc_desc.c`)

Memory is a map from byte addresses to bytes; words are 32 bits, little
endian.  An access through the `NULL` pointer is the fault `null_deref`.  One
collector thread runs. -/

/-- Faults of a run of the collector code: an access through `NULL`, an index
outside `gth_allocators`, a loop out of fuel, a call of `panic`, and an
allocator without room (the call of `gc_allocator_do_refresh` that follows in
the source is outside this model). -/
inductive gc_fault where
  | null_deref
  | out_of_bounds
  | no_fuel
  | panic
  | refresh
  deriving DecidableEq, Repr

/-- The heap and the collector thread at work: the memory, the collector
variables `gc`, the stack of shared arrays `gc_thread_array_list`, and the
fields of the thread's `gc_closure_t` (local queue and allocators, one
`gc_allocator_t` = allocation pointer and limit for each generation). -/
structure gc_heap where
  mem : Nat → Nat
  gc : gc_globals
  gc_thread_array_list : Nat
  gth_queue_size : Nat
  gth_head : Nat
  gth_tail : Nat
  gth_allocators : List (Nat × Nat)

/-- A run of collector code over the heap. -/
abbrev gc_run (α : Type) : Type := StateT gc_heap (Except gc_fault) α

/-- `sizeof(gc_header_t)`: `void*[CACHE_LINE_SIZE / WORD_SIZE]`, 32 bytes. -/
def GC_HEADER_SIZE : Nat := 4 * (CACHE_LINE_SIZE / 4)

/-- `sizeof(gc_double_ptr_t)`. -/
def GC_DOUBLE_PTR_SIZE : Nat := 8

/-- `GC_CLUSTER_SIZE`. -/
def GC_CLUSTER_SIZE : Nat := 16

/-- `GC_ARRAY_MIN_COUNT`. -/
def GC_ARRAY_MIN_COUNT : Nat := 64

/-- `GC_ARRAY_MIN_SIZE`. -/
def GC_ARRAY_MIN_SIZE : Nat := 4096

/-- `GC_TYPEDESC_CLASS`. -/
def GC_TYPEDESC_CLASS : Nat := 0x3

/-- `GC_TYPEDESC_CONST`. -/
def GC_TYPEDESC_CONST : Nat := 0x4

/-- `GC_TYPEDESC_NORMAL`. -/
def GC_TYPEDESC_NORMAL : Nat := 0

/-- `gc_gen_promote`. -/
def gc_gen_promote : Nat := 2

/-- Read the 32-bit word at address `a`. -/
def mem_read32 (a : Nat) : gc_run Nat := do
  if a = 0 then throw .null_deref
  let s ← get
  pure (s.mem a + 0x100 * s.mem (a + 1) + 0x10000 * s.mem (a + 2) + 0x1000000 * s.mem (a + 3))

/-- The memory `mem` with the 32-bit word `v` stored at address `a`. -/
def mem_store32 (mem : Nat → Nat) (a v : Nat) : Nat → Nat := fun b =>
  if b = a then v % 0x100
  else if b = a + 1 then (v / 0x100) % 0x100
  else if b = a + 2 then (v / 0x10000) % 0x100
  else if b = a + 3 then (v / 0x1000000) % 0x100
  else mem b

/-- The memory `mem` after `n` bytes were copied from `src` to `dst`. -/
def mem_copy (mem : Nat → Nat) (dst src n : Nat) : Nat → Nat := fun b =>
  if dst ≤ b ∧ b < dst + n then mem (src + (b - dst)) else mem b

/-- The memory `mem` after `n` bytes from `dst` on were set to `c`. -/
def mem_fill (mem : Nat → Nat) (dst c n : Nat) : Nat → Nat := fun b =>
  if dst ≤ b ∧ b < dst + n then c % 0x100 else mem b

/-- Store the 32-bit word `v` at address `a`. -/
def mem_write32 (a v : Nat) : gc_run Unit := do
  if a = 0 then throw .null_deref
  modify fun s => { s with mem := mem_store32 s.mem a v }

/-- `memcpy(dst, src, n)`. -/
def mem_memcpy (dst src n : Nat) : gc_run Unit := do
  if n ≠ 0 then
    if dst = 0 ∨ src = 0 then throw .null_deref
    modify fun s => { s with mem := mem_copy s.mem dst src n }

/-- `memset(dst, c, n)`. -/
def mem_memset (dst c n : Nat) : gc_run Unit := do
  if n ≠ 0 then
    if dst = 0 then throw .null_deref
    modify fun s => { s with mem := mem_fill s.mem dst c n }

/-- `gc_header_fwd_ptr(header)`. -/
def gc_header_fwd_ptr (header : Nat) : gc_run Nat := mem_read32 header

/-- `gc_header_fwd_ptr_set(ptr, header)`. -/
def gc_header_fwd_ptr_set (ptr header : Nat) : gc_run Unit := mem_write32 header ptr

/-- `gc_header_compare_and_set_fwd_ptr(expect, value, header)`. -/
def gc_header_compare_and_set_fwd_ptr (expect value header : Nat) : gc_run Bool := do
  let cur ← mem_read32 header
  let r := atomic_compare_and_set_uint expect value cur
  mem_write32 header r.2
  pure r.1

/-- `gc_header_list_ptr(header)`. -/
def gc_header_list_ptr (header : Nat) : gc_run Nat := mem_read32 (header + 4)

/-- `gc_header_list_ptr_set(ptr, header)`. -/
def gc_header_list_ptr_set (ptr header : Nat) : gc_run Unit := mem_write32 (header + 4) ptr

/-- `gc_header_type(header)`. -/
def gc_header_type (header : Nat) : gc_run Nat := do
  let typeinfo ← mem_read32 (header + 8)
  pure (typeinfo &&& uint_not 0xf)

/-- `gc_header_flags(header)`. -/
def gc_header_flags (header : Nat) : gc_run Nat := do
  let misc_info ← mem_read32 (header + 12)
  pure ((misc_info >>> 24) &&& 0xff)

/-- `gc_header_curr_gen(header)`. -/
def gc_header_curr_gen (header : Nat) : gc_run Nat := do
  let geninfo ← mem_read32 (header + 12)
  pure (geninfo &&& 0xff)

/-- `gc_header_next_gen(header)`: `(*geninfo_ptr & 0xff) >> 8`. -/
def gc_header_next_gen (header : Nat) : gc_run Nat := do
  let geninfo ← mem_read32 (header + 12)
  pure ((geninfo &&& 0xff) >>> 8)

/-- `gc_header_count(header)`: `(*geninfo_ptr & 0xff) >> 16`. -/
def gc_header_count (header : Nat) : gc_run Nat := do
  let geninfo ← mem_read32 (header + 12)
  pure ((geninfo &&& 0xff) >>> 16)

/-- `gc_header_array_len(header)`: the word before the header. -/
def gc_header_array_len (header : Nat) : gc_run Nat :=
  mem_read32 ((header + UINT_RANGE - 4) % UINT_RANGE)

/-- `gc_header_init_normal(fwd_ptr, type, flags, gen, next_gen, count, header)`. -/
def gc_header_init_normal (fwd_ptr type flags gen next_gen count header : Nat) :
    gc_run Unit := do
  let geninfo := (gen ||| (next_gen <<< 8) ||| (count <<< 16) ||| (flags <<< 24)) % UINT_RANGE
  mem_write32 header fwd_ptr
  mem_write32 (header + 4) 0
  mem_write32 (header + 8) type
  mem_write32 (header + 12) geninfo

/-- `gc_header_init_array(fwd_ptr, type, flags, gen, next_gen, count, len, header)`;
`len_ptr` is `(unsigned int*)header + 2`. -/
def gc_header_init_array (fwd_ptr type flags gen next_gen count len header : Nat) :
    gc_run Unit := do
  let geninfo := (gen ||| (next_gen <<< 8) ||| (count <<< 16) ||| (flags <<< 24)) % UINT_RANGE
  mem_write32 (header + 8) len
  mem_write32 header fwd_ptr
  mem_write32 (header + 4) 0
  mem_write32 (header + 8) type
  mem_write32 (header + 12) geninfo

/-- `gc_typedesc_class(desc)`. -/
def gc_typedesc_class (desc : Nat) : gc_run Nat := do
  pure ((← mem_read32 desc) &&& GC_TYPEDESC_CLASS)

/-- `gc_typedesc_flags(desc)`. -/
def gc_typedesc_flags (desc : Nat) : gc_run Nat := do
  pure ((← mem_read32 desc) &&& uint_not GC_TYPEDESC_CLASS)

/-- `gc_typedesc_nonptr_size(desc)`. -/
def gc_typedesc_nonptr_size (desc : Nat) : gc_run Nat := mem_read32 (desc + 4)

/-- `gc_typedesc_normal_ptrs(desc)`. -/
def gc_typedesc_normal_ptrs (desc : Nat) : gc_run Nat := mem_read32 (desc + 8)

/-- `gc_typedesc_weak_ptrs(desc)`. -/
def gc_typedesc_weak_ptrs (desc : Nat) : gc_run Nat := mem_read32 (desc + 12)

/-- `gc_thread_enqueue(closure, obj)`. -/
def gc_thread_enqueue (obj : Nat) : gc_run Unit := do
  modify fun s => { s with gth_queue_size := (s.gth_queue_size + 1) % UINT_RANGE }
  let s ← get
  if 0 = s.gth_head then
    gc_header_list_ptr_set 0 obj
    modify fun s => { s with gth_head := obj, gth_tail := obj }
  else
    gc_header_list_ptr_set obj s.gth_tail
    gc_header_list_ptr_set 0 obj
    modify fun s => { s with gth_tail := obj }

/-- `gc_thread_array_shared(num, size)`. -/
def gc_thread_array_shared (num size : Nat) : Bool :=
  decide ((num * size) % UINT_RANGE > GC_ARRAY_MIN_SIZE ∧ num > GC_ARRAY_MIN_COUNT)

/-- `gc_thread_push_array(array)`; the compare-and-set of
`gc_thread_try_push_array` succeeds at once when one thread runs. -/
def gc_thread_push_array (array : Nat) : gc_run Unit := do
  let top := (← get).gc_thread_array_list
  gc_header_list_ptr_set top array
  modify fun s => { s with gc_thread_array_list := array }

/-- `gc_thread_obj_size(nonptr_size, normptrs, weakptrs)`. -/
def gc_thread_obj_size (nonptr_size normptrs weakptrs : Nat) : Nat :=
  (nonptr_size + ((normptrs + weakptrs) * GC_DOUBLE_PTR_SIZE)) % UINT_RANGE

/-- `gc_thread_add_obj(closure, type, obj)`. -/
def gc_thread_add_obj (type obj : Nat) : gc_run Unit := do
  let cls ← gc_typedesc_class type
  let nonptr_size ← gc_typedesc_nonptr_size type
  let normptrs ← gc_typedesc_normal_ptrs type
  let weakptrs ← gc_typedesc_weak_ptrs type
  let size := gc_thread_obj_size nonptr_size normptrs weakptrs
  if GC_TYPEDESC_NORMAL = cls then gc_thread_enqueue obj
  else
    let num ← gc_header_array_len obj
    if !gc_thread_array_shared num size then gc_thread_enqueue obj
    else gc_thread_push_array obj

/-- `gc_thread_aligned_normal_size(size)`. -/
def gc_thread_aligned_normal_size (size : Nat) : Nat :=
  let header_size := (size + CACHE_LINE_SIZE) % UINT_RANGE
  ((((header_size + UINT_RANGE - 1) % UINT_RANGE) &&& uint_not (CACHE_LINE_SIZE - 1))
    + CACHE_LINE_SIZE) % UINT_RANGE

/-- `gc_thread_new_gen_count(oldgen, gen, count)`: the pair `gc_gen`,
`gc_count`. -/
def gc_thread_new_gen_count (gc_num_generations oldgen gen count : Nat) : Nat × Nat :=
  if (gen = oldgen ∧ 0xff ≠ gen) ∨ gen ≠ (gc_num_generations + UINT_RANGE - 1) % UINT_RANGE then
    if count < gc_gen_promote then (gen, (count + 1) % 256)
    else ((gen + 1) % 256, 0)
  else (gen, 0)

/-- `gc_thread_array_bitmap_bits(num)`. -/
def gc_thread_array_bitmap_bits (num : Nat) : Nat :=
  ((((num + UINT_RANGE - 1) % UINT_RANGE) / GC_CLUSTER_SIZE) + 1) % UINT_RANGE

/-- `gc_thread_array_bitmap_size(num)`. -/
def gc_thread_array_bitmap_size (num : Nat) : Nat :=
  let length_bits := 4 * 8
  let bits := (length_bits + gc_thread_array_bitmap_bits num) % UINT_RANGE
  let cache_line_bits := CACHE_LINE_SIZE * 8
  let out := ((((bits + UINT_RANGE - 1) % UINT_RANGE) &&& uint_not (cache_line_bits - 1))
    + cache_line_bits) % UINT_RANGE
  out / 8

/-- `gc_thread_aligned_array_size(num, size)`. -/
def gc_thread_aligned_array_size (num size : Nat) : Nat :=
  let data_size := (size * num) % UINT_RANGE
  let header_size := (data_size + CACHE_LINE_SIZE) % UINT_RANGE
  let bitmap_size :=
    if gc_thread_array_shared num size then
      (header_size + gc_thread_array_bitmap_size num) % UINT_RANGE
    else (header_size + CACHE_LINE_SIZE) % UINT_RANGE
  ((((bitmap_size + UINT_RANGE - 1) % UINT_RANGE) &&& uint_not (CACHE_LINE_SIZE - 1))
    + CACHE_LINE_SIZE) % UINT_RANGE

/-- `gc_thread_array_header(obj, num, size)`. -/
def gc_thread_array_header (obj num size : Nat) : Nat :=
  let bitmap_size :=
    if gc_thread_array_shared num size then gc_thread_array_bitmap_size num
    else CACHE_LINE_SIZE
  let aligned_size :=
    ((((bitmap_size + UINT_RANGE - 1) % UINT_RANGE) &&& uint_not (CACHE_LINE_SIZE - 1))
      + CACHE_LINE_SIZE) % UINT_RANGE
  (obj + aligned_size) % UINT_RANGE

/-- `gc_allocator_gc_prealloc(closure, size, gen)`: the allocator used is
`closure->gth_allocators[gen - 1]`, the index computed in unsigned 32-bit
arithmetic. -/
def gc_allocator_gc_prealloc (size gen : Nat) : gc_run Nat := do
  let s ← get
  match s.gth_allocators.get? ((gen + UINT_RANGE - 1) % UINT_RANGE) with
  | none => throw .out_of_bounds
  | some allocator =>
    let newptr := (allocator.1 + size) % UINT_RANGE
    if newptr ≤ allocator.2 then pure allocator.1 else throw .refresh

/-- `gc_allocator_gc_postalloc(closure, size, gen)`. -/
def gc_allocator_gc_postalloc (size gen : Nat) : gc_run Unit := do
  let s ← get
  let index := (gen + UINT_RANGE - 1) % UINT_RANGE
  match s.gth_allocators.get? index with
  | none => throw .out_of_bounds
  | some allocator =>
    let newptr := (allocator.1 + size) % UINT_RANGE
    if newptr ≤ allocator.2 then
      set { s with gth_allocators := s.gth_allocators.set index (newptr, allocator.2) }
    else throw .panic

/-- `gc_thread_claim(closure, obj, max_gen, copy)`: the pointer the caller is
to store.  In the first branch the source computes a local
`fwd_ptr = !copy ? newobj ^ 1 : newobj` and does not use it: the value it
compare-and-sets into the header is `newobj`.  In the last branch the local
`fwd_ptr1` (the source's inner `fwd_ptr`) is the one tested. -/
def gc_thread_claim (obj max_gen : Nat) (copy : Bool) : gc_run Nat := do
  let s ← get
  let flipflop := s.gc.gc_collection_count % 2 ≠ 0
  let claimed := if flipflop then UINT_RANGE - 1 else 0
  let unclaimed := if flipflop then 0 else UINT_RANGE - 1
  let fwd_ptr ← gc_header_fwd_ptr obj
  let type ← gc_header_type obj
  let cls ← gc_typedesc_class type
  let nonptr_size ← gc_typedesc_nonptr_size type
  let num_normptrs ← gc_typedesc_normal_ptrs type
  let num_weakptrs ← gc_typedesc_weak_ptrs type
  let len ← if GC_TYPEDESC_NORMAL = cls then pure 1 else gc_header_array_len obj
  let flags ← gc_header_flags obj
  let obj_size := gc_thread_obj_size nonptr_size num_normptrs num_weakptrs
  let raw_size := (obj_size * len) % UINT_RANGE
  let aligned_size :=
    if GC_TYPEDESC_NORMAL = cls then gc_thread_aligned_normal_size raw_size
    else gc_thread_aligned_array_size raw_size len
  let curr_gen := (← gc_header_curr_gen obj) % 256
  let next_gen := (← gc_header_next_gen obj) % 256
  let count := (← gc_header_count obj) % 256
  let new_gen_count := gc_thread_new_gen_count s.gc.gc_num_generations curr_gen next_gen count
  if max_gen ≥ curr_gen then
    if unclaimed = fwd_ptr then
      let alloc ← gc_allocator_gc_prealloc aligned_size new_gen_count.1
      let newobj :=
        if GC_TYPEDESC_NORMAL = cls then alloc else gc_thread_array_header alloc len obj_size
      if ← gc_header_compare_and_set_fwd_ptr unclaimed newobj obj then
        gc_allocator_gc_postalloc aligned_size new_gen_count.1
        if GC_TYPEDESC_NORMAL = cls then
          gc_header_init_normal claimed type flags new_gen_count.1 next_gen new_gen_count.2
            newobj
        else
          gc_header_init_array claimed type flags new_gen_count.1 next_gen new_gen_count.2
            len newobj
          if gc_thread_array_shared len obj_size then
            let bitmap_value := if flipflop then 0xff else 0
            let bitmap_size := (gc_thread_array_bitmap_size len + UINT_RANGE - 4) % UINT_RANGE
            mem_memset alloc bitmap_value bitmap_size
        gc_thread_add_obj type obj
        pure newobj
      else gc_header_fwd_ptr obj
    else pure fwd_ptr
  else
    let fwd_ptr1 := if !copy then claimed ^^^ 1 else claimed
    if unclaimed = fwd_ptr1 then
      if ← gc_header_compare_and_set_fwd_ptr unclaimed claimed obj then
        gc_thread_add_obj type obj
    pure obj

/-- `gc_thread_process_ptr(closure, srcptr, dstptr, max_gen, do_weak)`. -/
def gc_thread_process_ptr (srcptr dstptr max_gen : Nat) (do_weak : Bool) : gc_run Unit := do
  let flipflop := (← get).gc.gc_collection_count % 2 ≠ 0
  let used_ptr := if flipflop then 0 else 1
  let unused_ptr := if flipflop then 1 else 0
  let src ← mem_read32 (srcptr + 4 * used_ptr)
  let dst ← mem_read32 (dstptr + 4 * unused_ptr)
  if 0 ≠ src then
    let out ← gc_thread_claim src max_gen do_weak
    mem_write32 (dstptr + 4 * unused_ptr) out
  else if 0 ≠ dst then
    mem_write32 (dstptr + 4 * unused_ptr) 0

/-- `gc_thread_process_weak_ptr(closure, srcptr, dstptr, do_weak)`. -/
def gc_thread_process_weak_ptr (srcptr dstptr : Nat) (do_weak : Bool) : gc_run Unit := do
  let flipflop := (← get).gc.gc_collection_count % 2 ≠ 0
  let used_ptr := if flipflop then 0 else 1
  let unused_ptr := if flipflop then 1 else 0
  if do_weak then
    let unclaimed := if flipflop then 0 else UINT_RANGE - 1
    let src ← mem_read32 (srcptr + 4 * used_ptr)
    let dst ← mem_read32 (dstptr + 4 * unused_ptr)
    let fwd_ptr ← gc_header_fwd_ptr src
    if 0 ≠ src then
      if unclaimed ≠ fwd_ptr then
        if dst ≠ fwd_ptr then
          mem_write32 (dstptr + 4 * unused_ptr) fwd_ptr
      else if 0 ≠ dst then
        mem_write32 (dstptr + 4 * unused_ptr) 0
    else if 0 ≠ dst then
      mem_write32 (dstptr + 4 * unused_ptr) 0

/-- `gc_thread_copy(closure, dst, src, nonptr_size, num_normptrs,
num_weakptrs, max_gen, copied, do_weak)`. -/
def gc_thread_copy (dst src nonptr_size num_normptrs num_weakptrs max_gen : Nat)
    (copied do_weak : Bool) : gc_run Unit := do
  let dst_normptrs := dst + nonptr_size
  let src_normptrs := src + nonptr_size
  let dst_weakptrs := dst_normptrs + GC_DOUBLE_PTR_SIZE * num_normptrs
  let src_weakptrs := src_normptrs + GC_DOUBLE_PTR_SIZE * num_normptrs
  if !copied then
    mem_memcpy dst src nonptr_size
    (List.range num_normptrs).forM fun i =>
      gc_thread_process_ptr (src_normptrs + GC_DOUBLE_PTR_SIZE * i)
        (dst_normptrs + GC_DOUBLE_PTR_SIZE * i) max_gen do_weak
  if do_weak then
    if copied then
      (List.range num_weakptrs).forM fun i =>
        gc_thread_process_weak_ptr (src_weakptrs + GC_DOUBLE_PTR_SIZE * i)
          (dst_weakptrs + GC_DOUBLE_PTR_SIZE * i) do_weak
    else
      (List.range num_weakptrs).forM fun i =>
        gc_thread_process_ptr (src_weakptrs + GC_DOUBLE_PTR_SIZE * i)
          (dst_weakptrs + GC_DOUBLE_PTR_SIZE * i) max_gen do_weak

/-- `gc_thread_copy_scalar_array(dst, src, num, size)`. -/
def gc_thread_copy_scalar_array (dst src num size : Nat) : gc_run Unit :=
  mem_memcpy dst src ((num * size) % UINT_RANGE)

/-- `gc_thread_copy_array(closure, dst, src, num, nonptr_size, normptrs,
weakptrs, max_gen, copied, do_weak)`. -/
def gc_thread_copy_array (dst src num nonptr_size normptrs weakptrs max_gen : Nat)
    (copied do_weak : Bool) : gc_run Unit := do
  let size := gc_thread_obj_size nonptr_size normptrs weakptrs
  if 0 ≠ normptrs ∨ 0 ≠ weakptrs then
    (List.range num).forM fun i =>
      gc_thread_copy (dst + size * i) (src + size * i) nonptr_size normptrs weakptrs max_gen
        copied do_weak
  else gc_thread_copy_scalar_array dst src num nonptr_size

/-- `gc_thread_check_ptr(closure, dstptr, srcptr, max_gen, do_weak)`: the
`for(;;)` loop runs on fuel. -/
def gc_thread_check_ptr (dstptr srcptr max_gen : Nat) (do_weak : Bool) : Nat → gc_run Unit
  | 0 => throw .no_fuel
  | fuel + 1 => do
    let flipflop := (← get).gc.gc_collection_count % 2 ≠ 0
    let used_ptr := if flipflop then 0 else 1
    let unused_ptr := if flipflop then 1 else 0
    let src ← mem_read32 (srcptr + 4 * used_ptr)
    let dst ← mem_read32 (dstptr + 4 * unused_ptr)
    if 0 ≠ src then
      if dst ≠ (← gc_header_fwd_ptr src) then
        let out ← gc_thread_claim src max_gen do_weak
        mem_write32 (dstptr + 4 * unused_ptr) out
        gc_thread_check_ptr dstptr srcptr max_gen do_weak fuel
      else pure ()
    else if 0 ≠ dst then
      mem_write32 (dstptr + 4 * unused_ptr) 0
    else gc_thread_check_ptr dstptr srcptr max_gen do_weak fuel

/-- `gc_thread_check_weak_ptr(closure, srcptr, dstptr)`: the `for(;;)` loop
runs on fuel. -/
def gc_thread_check_weak_ptr (srcptr dstptr : Nat) : Nat → gc_run Unit
  | 0 => throw .no_fuel
  | fuel + 1 => do
    let flipflop := (← get).gc.gc_collection_count % 2 ≠ 0
    let used_ptr := if flipflop then 0 else 1
    let unused_ptr := if flipflop then 1 else 0
    let unclaimed := if flipflop then 0 else UINT_RANGE - 1
    let src ← mem_read32 (srcptr + 4 * used_ptr)
    let dst ← mem_read32 (dstptr + 4 * unused_ptr)
    let fwd_ptr ← gc_header_fwd_ptr src
    if 0 ≠ src then
      if unclaimed ≠ fwd_ptr then
        if dst ≠ fwd_ptr then
          mem_write32 (dstptr + 4 * unused_ptr) fwd_ptr
          gc_thread_check_weak_ptr srcptr dstptr fuel
        else pure ()
      else if 0 ≠ dst then
        mem_write32 (dstptr + 4 * unused_ptr) 0
        gc_thread_check_weak_ptr srcptr dstptr fuel
      else pure ()
    else if 0 ≠ dst then
      mem_write32 (dstptr + 4 * unused_ptr) 0
    else gc_thread_check_weak_ptr srcptr dstptr fuel

/-- `gc_thread_check(closure, dst, src, nonptr_size, num_normptrs,
num_weakptrs, max_gen, copied, do_weak)`.  The byte loop
`while(dst_nonptr[i] != src_nonptr[i]) dst_nonptr[i] = src_nonptr[i];` leaves
the bytes equal after one assignment when one thread runs. -/
def gc_thread_check (fuel dst src nonptr_size num_normptrs num_weakptrs max_gen : Nat)
    (copied do_weak : Bool) : gc_run Unit := do
  let dst_normptrs := dst + nonptr_size
  let src_normptrs := src + nonptr_size
  let dst_weakptrs := dst_normptrs + GC_DOUBLE_PTR_SIZE * num_normptrs
  let src_weakptrs := src_normptrs + GC_DOUBLE_PTR_SIZE * num_normptrs
  if !copied then
    mem_memcpy dst src nonptr_size
    (List.range num_normptrs).forM fun i =>
      gc_thread_check_ptr (dst_normptrs + GC_DOUBLE_PTR_SIZE * i)
        (src_normptrs + GC_DOUBLE_PTR_SIZE * i) max_gen do_weak fuel
  if do_weak then
    if copied then
      (List.range num_weakptrs).forM fun i =>
        gc_thread_check_weak_ptr (dst_weakptrs + GC_DOUBLE_PTR_SIZE * i)
          (src_weakptrs + GC_DOUBLE_PTR_SIZE * i) fuel
    else
      (List.range num_weakptrs).forM fun i =>
        gc_thread_check_ptr (dst_weakptrs + GC_DOUBLE_PTR_SIZE * i)
          (src_weakptrs + GC_DOUBLE_PTR_SIZE * i) max_gen do_weak fuel

/-- `gc_thread_check_scalar_array(dst, src, num, size)`. -/
def gc_thread_check_scalar_array (dst src num size : Nat) : gc_run Unit :=
  mem_memcpy dst src ((num * size) % UINT_RANGE)

/-- `gc_thread_check_array(...)`. -/
def gc_thread_check_array (fuel dst src num nonptr_size normptrs weakptrs max_gen : Nat)
    (copied do_weak : Bool) : gc_run Unit := do
  let size := gc_thread_obj_size nonptr_size normptrs weakptrs
  if 0 ≠ normptrs ∨ 0 ≠ weakptrs then
    (List.range num).forM fun i =>
      gc_thread_check fuel (dst + size * i) (src + size * i) nonptr_size normptrs weakptrs
        max_gen copied do_weak
  else gc_thread_check_scalar_array dst src num nonptr_size

/-- `gc_thread_update(closure, obj, nonptr_size, num_normptrs, num_weakptrs,
max_gen, copied, do_weak)`. -/
def gc_thread_update (obj nonptr_size num_normptrs num_weakptrs max_gen : Nat)
    (copied do_weak : Bool) : gc_run Unit := do
  let normptrs := obj + nonptr_size
  let weakptrs := normptrs + GC_DOUBLE_PTR_SIZE * num_normptrs
  if !copied then
    (List.range num_normptrs).forM fun i =>
      gc_thread_process_ptr (normptrs + GC_DOUBLE_PTR_SIZE * i)
        (normptrs + GC_DOUBLE_PTR_SIZE * i) max_gen do_weak
  if do_weak then
    if copied then
      (List.range num_weakptrs).forM fun i =>
        gc_thread_process_weak_ptr (weakptrs + GC_DOUBLE_PTR_SIZE * i)
          (weakptrs + GC_DOUBLE_PTR_SIZE * i) do_weak
    else
      (List.range num_weakptrs).forM fun i =>
        gc_thread_process_ptr (weakptrs + GC_DOUBLE_PTR_SIZE * i)
          (weakptrs + GC_DOUBLE_PTR_SIZE * i) max_gen do_weak

/-- `gc_thread_update_array(...)`. -/
def gc_thread_update_array (obj num nonptr_size normptrs weakptrs max_gen : Nat)
    (copied do_weak : Bool) : gc_run Unit := do
  let size := gc_thread_obj_size nonptr_size normptrs weakptrs
  if 0 ≠ normptrs ∨ 0 ≠ weakptrs then
    (List.range num).forM fun i =>
      gc_thread_update (obj + size * i) nonptr_size normptrs weakptrs max_gen copied do_weak

/-- `gc_thread_update_check(...)`. -/
def gc_thread_update_check (fuel obj nonptr_size num_normptrs num_weakptrs max_gen : Nat)
    (copied do_weak : Bool) : gc_run Unit := do
  let normptrs := obj + nonptr_size
  let weakptrs := normptrs + GC_DOUBLE_PTR_SIZE * num_normptrs
  if !copied then
    (List.range num_normptrs).forM fun i =>
      gc_thread_check_ptr (normptrs + GC_DOUBLE_PTR_SIZE * i)
        (normptrs + GC_DOUBLE_PTR_SIZE * i) max_gen do_weak fuel
  if do_weak then
    if copied then
      (List.range num_weakptrs).forM fun i =>
        gc_thread_check_weak_ptr (weakptrs + GC_DOUBLE_PTR_SIZE * i)
          (weakptrs + GC_DOUBLE_PTR_SIZE * i) fuel
    else
      (List.range num_weakptrs).forM fun i =>
        gc_thread_check_ptr (weakptrs + GC_DOUBLE_PTR_SIZE * i)
          (weakptrs + GC_DOUBLE_PTR_SIZE * i) max_gen do_weak fuel

/-- `gc_thread_update_check_array(...)`; it calls `gc_thread_update`. -/
def gc_thread_update_check_array (obj num nonptr_size normptrs weakptrs max_gen : Nat)
    (copied do_weak : Bool) : gc_run Unit := do
  let size := gc_thread_obj_size nonptr_size normptrs weakptrs
  if 0 ≠ normptrs then
    (List.range num).forM fun i =>
      gc_thread_update (obj + size * i) nonptr_size normptrs weakptrs max_gen copied do_weak

/-- `gc_thread_set_copied(obj)`; the compare-and-set of
`gc_thread_try_set_copied` succeeds at once when one thread runs. -/
def gc_thread_set_copied (obj : Nat) : gc_run Unit := do
  let old ← gc_header_fwd_ptr obj
  let _ ← gc_header_compare_and_set_fwd_ptr old (old ^^^ 0x1) obj

/-- `gc_thread_process(closure, src, max_gen, do_weak)`. -/
def gc_thread_process (fuel src max_gen : Nat) (do_weak : Bool) : gc_run Unit := do
  let flipflop := (← get).gc.gc_collection_count % 2 ≠ 0
  let type ← gc_header_type src
  let cls ← gc_typedesc_class type
  let nonptr_size ← gc_typedesc_nonptr_size type
  let num_normptrs ← gc_typedesc_normal_ptrs type
  let num_weakptrs ← gc_typedesc_weak_ptrs type
  let typeflags ← gc_typedesc_flags type
  let constant := typeflags &&& GC_TYPEDESC_CONST ≠ 0
  let raw_fwd_ptr ← gc_header_fwd_ptr src
  let masked_fwd_ptr := raw_fwd_ptr &&& uint_not 0x3
  let claimed := if flipflop then UINT_RANGE - 1 else 0
  let masked_claimed := claimed ^^^ 0x3
  if masked_fwd_ptr ≠ masked_claimed then
    let copied := raw_fwd_ptr &&& 0x1 = 0
    let dst := masked_fwd_ptr
    let dst_data := (dst + GC_HEADER_SIZE) % UINT_RANGE
    let src_data := (src + GC_HEADER_SIZE) % UINT_RANGE
    if GC_TYPEDESC_NORMAL = cls then
      gc_thread_copy dst_data src_data nonptr_size num_normptrs num_weakptrs max_gen
        copied do_weak
      if !constant then
        gc_thread_check fuel dst_data src_data nonptr_size num_normptrs num_weakptrs max_gen
          copied do_weak
    else
      let len ← gc_header_array_len src
      gc_thread_copy_array dst_data src_data len nonptr_size num_normptrs num_weakptrs
        max_gen copied do_weak
      if !constant then
        gc_thread_check_array fuel dst_data src_data len nonptr_size num_normptrs
          num_weakptrs max_gen copied do_weak
    if !copied then gc_thread_set_copied src
  else
    let copied := (raw_fwd_ptr &&& 0x1) = (claimed &&& 0x1)
    let obj := (src + GC_HEADER_SIZE) % UINT_RANGE
    if GC_TYPEDESC_NORMAL = cls then
      gc_thread_update obj nonptr_size num_normptrs num_weakptrs max_gen copied do_weak
      if !constant then
        gc_thread_update_check fuel obj nonptr_size num_normptrs num_weakptrs max_gen
          copied do_weak
    else
      let len ← gc_header_array_len obj
      gc_thread_update_array obj len nonptr_size num_normptrs num_weakptrs max_gen
        copied do_weak
      if !constant then
        gc_thread_update_check_array obj len nonptr_size num_normptrs num_weakptrs max_gen
          copied do_weak
    if !copied then gc_thread_set_copied obj

/-- `gc_thread_process_cluster(closure, src, index, max_gen, do_weak)`; the
source reads `nonptr_size`, `num_normptrs` and `num_weakptrs` all three with
`gc_typedesc_weak_ptrs(type)`. -/
def gc_thread_process_cluster (fuel src index max_gen : Nat) (do_weak : Bool) :
    gc_run Unit := do
  let flipflop := (← get).gc.gc_collection_count % 2 ≠ 0
  let type ← gc_header_type src
  let nonptr_size ← gc_typedesc_weak_ptrs type
  let num_normptrs ← gc_typedesc_weak_ptrs type
  let num_weakptrs ← gc_typedesc_weak_ptrs type
  let typeflags ← gc_typedesc_flags type
  let constant := typeflags &&& GC_TYPEDESC_CONST ≠ 0
  let real_index := (index * GC_CLUSTER_SIZE) % UINT_RANGE
  let size := gc_thread_obj_size nonptr_size num_normptrs num_weakptrs
  let offset := (size * real_index) % UINT_RANGE
  let array_len ← gc_header_array_len src
  let available := (array_len + UINT_RANGE - real_index) % UINT_RANGE
  let num := if available > GC_CLUSTER_SIZE then GC_CLUSTER_SIZE else available
  let raw_fwd_ptr ← gc_header_fwd_ptr src
  let masked_fwd_ptr := raw_fwd_ptr &&& uint_not 0x3
  let claimed := if flipflop then UINT_RANGE - 1 else 0
  let masked_claimed := claimed ^^^ 0x3
  if masked_fwd_ptr ≠ masked_claimed then
    let copied := raw_fwd_ptr &&& 0x1 = 0
    let dst := masked_fwd_ptr
    let dst_data := (dst + GC_HEADER_SIZE + offset) % UINT_RANGE
    let src_data := (src + GC_HEADER_SIZE + offset) % UINT_RANGE
    gc_thread_copy_array dst_data src_data num nonptr_size num_normptrs num_weakptrs
      max_gen copied do_weak
    if !constant then
      gc_thread_check_array fuel dst_data src_data num nonptr_size num_normptrs
        num_weakptrs max_gen copied do_weak
    if !copied then gc_thread_set_copied src
  else
    let copied := (raw_fwd_ptr &&& 0x1) = (claimed &&& 0x1)
    let obj_data := (src + GC_HEADER_SIZE + offset) % UINT_RANGE
    gc_thread_update_array obj_data num nonptr_size num_normptrs num_weakptrs max_gen
      copied do_weak
    if !constant then
      gc_thread_update_check_array obj_data array_len nonptr_size num_normptrs num_weakptrs
        max_gen copied do_weak
    if !copied then gc_thread_set_copied src

/-- The memory `base` with the 32-bit words of `words` (address, value) stored
into it. -/
def mem_of_words (words : List (Nat × Nat)) (base : Nat → Nat) : Nat → Nat :=
  words.foldl (fun m w => mem_store32 m w.1 w.2) base

/-- A heap for one collector thread over the memory `mem`: no collection has
run yet (`gc_collection_count = 0`), three generations, the local queue and
the array stack empty, and for each generation an allocator with room. -/
def gc_heap_of (mem : Nat → Nat) : gc_heap :=
  { mem := mem, gc := gc_globals_boot 3, gc_thread_array_list := 0,
    gth_queue_size := 0, gth_head := 0, gth_tail := 0,
    gth_allocators := [(0x20000, 0x30000), (0x40000, 0x50000), (0x60000, 0x70000)] }

/-- A shared array of 1024 elements of 8 non-pointer bytes each, without
pointers.  Type descriptor at `0x3000` (class array, `nonptr_size = 8`, no
normal and no weak pointers); array header at `0x10000` with the length in
the word before it, forwarding pointer `0x20000` (the copy), generation 1;
payload at `0x10020`, every byte non-zero; the copy's payload at `0x20020`
is still zero. -/
def gc_heap_scalar_array : gc_heap :=
  gc_heap_of (mem_of_words
    [(0x3000, 1), (0x3004, 8), (0x3008, 0), (0x300c, 0),
     (0xfffc, 1024), (0x10000, 0x20000), (0x10004, 0), (0x10008, 0x3000), (0x1000c, 0x101)]
    (fun a => if 0x10020 ≤ a ∧ a < 0x10020 + 8192 then a % 251 + 1 else 0))

/-- A normal object `O` at `0x10000` in generation 1: type descriptor at
`0x3000` (class normal, constant, 8 non-pointer bytes, one normal pointer, no
weak pointer); forwarding pointer `fwd`; non-pointer bytes `0x11, …, 0x18` at
`0x10020`; the pointer field at `0x10028` has `0x11000` in its used slot
(slot 1) and `NULL` in the unused slot.  The target at `0x11000` is an object
of the same type whose forwarding pointer is `0x21000`. -/
def gc_heap_normal_object (fwd : Nat) : gc_heap :=
  gc_heap_of (mem_of_words
    [(0x3000, 4), (0x3004, 8), (0x3008, 1), (0x300c, 0),
     (0x10000, fwd), (0x10004, 0), (0x10008, 0x3000), (0x1000c, 0x101),
     (0x10020, 0x14131211), (0x10024, 0x18171615), (0x10028, 0), (0x1002c, 0x11000),
     (0x11000, 0x21000), (0x11004, 0), (0x11008, 0x3000), (0x1100c, 0x101)]
    (fun _ => 0))

/-- An already copied object `O` at `0x10000` with three weak pointer fields:
type descriptor at `0x3000` (class normal, constant, no non-pointer bytes, no
normal pointer, `weak` weak pointers); forwarding pointer `0x20000` (copied).
The used slots (slot 1) hold `w0`, `0x11000` and `0x12000`; the object at
`0x11000` was claimed and copied to `0x21000`, the object at `0x12000` was
never claimed (forwarding pointer `0xffffffff`).  The unused slots of the
copy's fields at `0x20020`, `0x20028`, `0x20030` hold the stale value
`0x99990`. -/
def gc_heap_weak_object (weak w0 : Nat) : gc_heap :=
  gc_heap_of (mem_of_words
    [(0x3000, 4), (0x3004, 0), (0x3008, 0), (0x300c, weak),
     (0x10000, 0x20000), (0x10004, 0), (0x10008, 0x3000), (0x1000c, 0x101),
     (0x10020, 0), (0x10024, w0), (0x10028, 0), (0x1002c, 0x11000),
     (0x10030, 0), (0x10034, 0x12000),
     (0x20020, 0x99990), (0x20028, 0x99990), (0x20030, 0x99990),
     (0x11000, 0x21000), (0x11008, 0x3000), (0x1100c, 0x101),
     (0x12000, 0xffffffff), (0x12008, 0x3000), (0x1200c, 0x101)]
    (fun _ => 0))

/-- The outcome of a run without its final heap. -/
def gc_result {α : Type} (r : Except gc_fault (α × gc_heap)) : Except gc_fault α :=
  r.map Prod.fst

/-- The word at address `a` in the heap a run ended with. -/
def gc_word_after {α : Type} (r : Except gc_fault (α × gc_heap)) (a : Nat) :
    Except gc_fault Nat :=
  r.map fun p => p.2.mem a + 0x100 * p.2.mem (a + 1) + 0x10000 * p.2.mem (a + 2)
    + 0x1000000 * p.2.mem (a + 3)

/-- Whether the `n` bytes from address `a` on are all zero. -/
def mem_all_zero (mem : Nat → Nat) (a n : Nat) : Bool :=
  (List.range n).all fun b => decide (mem (a + b) = 0)

/-- Whether none of the `n` bytes from address `a` on is zero. -/
def mem_none_zero (mem : Nat → Nat) (a n : Nat) : Bool :=
  (List.range n).all fun b => decide (mem (a + b) ≠ 0)

/-- Whether the `n` bytes from `a` on are all zero in the heap a run ended
with. -/
def gc_all_zero_after {α : Type} (r : Except gc_fault (α × gc_heap)) (a n : Nat) :
    Except gc_fault Bool :=
  r.map fun p => mem_all_zero p.2.mem a n


/-! ### The bitmap allocator (`src/arch/ia32/atomic.c`) -/

/-- `bsf(value)`: the index of the lowest set bit.  For `value = 0` the
instruction leaves its destination undefined; `undef` is the value found
there. -/
def bsf (value undef : Nat) : Nat :=
  ((List.range 32).find? fun i => (value >>> i) % 2 = 1).getD undef

/-- `atomic_bitmap_alloc(bitmap, bits, clear)` on a bitmap word whose content
is `word`: the `int` result and the new content of the word.  The parameters
`bits` and `clear` are not used by the source. -/
def atomic_bitmap_alloc (word _bits : Nat) (_clear : Bool) (undef : Nat) : Int × Nat :=
  let value := word
  let bit := bsf value undef
  if 0 ≠ bit then
    let mask := (1 <<< bit) % UINT_RANGE
    let newvalue := value ||| mask
    let r := atomic_compare_and_set_uint value newvalue word
    (if r.1 then (bit : Int) else -2, r.2)
  else (-1, word)

/-- `n` successive calls of `atomic_bitmap_alloc` on one bitmap word: the
results in order, and the final content of the word. -/
def atomic_bitmap_alloc_times (bits : Nat) (clear : Bool) (undef : Nat) :
    Nat → Nat → List Int × Nat
  | 0, word => ([], word)
  | n + 1, word =>
    let r := atomic_bitmap_alloc word bits clear undef
    let rest := atomic_bitmap_alloc_times bits clear undef n r.2
    (r.1 :: rest.1, rest.2)


/-- The heap of `gc_heap_normal_object` with `O` in generation 2 instead of
1 (geninfo word `0x202`) and the unclaimed sentinel `0xffffffff` as its
forwarding pointer. -/
def gc_heap_old_object : gc_heap :=
  gc_heap_of (mem_store32 (gc_heap_normal_object 0xffffffff).mem 0x1000c 0x202)

/-- The local queue and the array stack of the heap a run ended with:
`gth_queue_size`, `gth_head`, `gth_tail`, `gc_thread_array_list`. -/
def gc_queue_after {α : Type} (r : Except gc_fault (α × gc_heap)) :
    Except gc_fault (Nat × Nat × Nat × Nat) :=
  r.map fun p => (p.2.gth_queue_size, p.2.gth_head, p.2.gth_tail, p.2.gc_thread_array_list)



/-- The 32-bit word at address `a` of the memory `mem`. -/
def mem_word32 (mem : Nat → Nat) (a : Nat) : Nat :=
  mem a + 0x100 * mem (a + 1) + 0x10000 * mem (a + 2) + 0x1000000 * mem (a + 3)

/-- An array of `num` elements of 128 non-pointer bytes each (no pointers):
type descriptor at `0x3000` (class array), array header at `0x10000` with the
length in the word before it, unclaimed forwarding pointer. -/
def gc_heap_array_of (num : Nat) : gc_heap :=
  gc_heap_of (mem_of_words
    [(0x3000, 1), (0x3004, 128), (0x3008, 0), (0x300c, 0),
     (0xfffc, num), (0x10000, 0xffffffff), (0x10004, 0), (0x10008, 0x3000), (0x1000c, 0x101)]
    (fun _ => 0))


/-- The nodes of the list that starts at `head` and is linked through
`lfn_next`, at most `fuel` of them. -/
def lf_list_nodes (nodes : Nat → lf_thread_queue_node_t) : Nat → Nat → List Nat
  | 0, _ => []
  | fuel + 1, p => if p = 0 then [] else p :: lf_list_nodes nodes fuel (nodes p).lfn_next

/-- Run `lf_thread_queue_node_alloc` `n` times for executor `exec`: the nodes
returned, in order. -/
def lf_thread_queue_node_alloc_times (fuel exec : Nat) :
    Nat → lf_thread_queue_t → Except lf_fault (List Nat × lf_thread_queue_t)
  | 0, q => .ok ([], q)
  | n + 1, q => do
    let r ← lf_thread_queue_node_alloc fuel q exec
    let rs ← lf_thread_queue_node_alloc_times fuel exec n r.2
    pure (r.1 :: rs.1, rs.2)

/-- Run `lf_thread_queue_node_free` for executor `exec` on each node of a
list in turn. -/
def lf_thread_queue_node_free_all (fuel exec : Nat) :
    List Nat → lf_thread_queue_t → Except lf_fault lf_thread_queue_t
  | [], q => .ok q
  | node :: rest, q => do
    let q1 ← lf_thread_queue_node_free fuel q node exec
    lf_thread_queue_node_free_all fuel exec rest q1

/-- The private list of executor `exec` (its nodes and `nl_count`) and the
shared list of a queue. -/
def lf_free_lists (q : lf_thread_queue_t) (exec : Nat) : List Nat × Nat × List Nat :=
  (lf_list_nodes q.nodes 100 (qna_lists_get q exec).nl_list, (qna_lists_get q exec).nl_count,
    lf_list_nodes q.nodes 100 q.qna_shared_list)

/-- On the queue made for 48 threads and 3 executors: executors 1 and 2 each
allocate 7 nodes, then executor 0 frees these 14 nodes; the free lists of
executor 0 after the first `k` of the frees. -/
def lf_pool_after_frees (k : Nat) : Except lf_fault (List Nat × Nat × List Nat) := do
  let a1 ← lf_thread_queue_node_alloc_times 2 1 7 (lf_thread_queue_init 0x1000 8 48 3 3)
  let a2 ← lf_thread_queue_node_alloc_times 2 2 7 a1.2
  let q ← lf_thread_queue_node_free_all 2 0 ((a1.1 ++ a2.1).take k) a2.2
  pure (lf_free_lists q 0)

/-! ### Acknowledging the status of a dequeued thread
(`src/cc/noninteract_scheduler.c`) -/

/-- What the scheduler does with a thread it has taken from a queue. -/
inductive action_t where
  | EXECUTE
  | SKIP
  | DISCARD
  deriving DecidableEq, Repr

/-- Faults of a run of the scheduler code: a call of `panic`, a loop out of
fuel, and a fault of the workshare queue. -/
inductive sched_fault where
  | panic
  | no_fuel
  | queue (f : lf_fault)
  deriving DecidableEq, Repr

/-- One pass through the body of the loop of `sched_set_running_status(thread)`:
the new values of `cont` and `out`, and the state. -/
def sched_set_running_status_pass (thread : Nat) (out : action_t) (s : executor_state) :
    Except sched_fault (Bool × action_t × executor_state) :=
  let oldvalue := s.cc.t_sched_stat_ref thread
  let oldstat := oldvalue &&& T_STAT_MASK
  if oldstat = T_STAT_RUNNING ∨ oldstat = T_STAT_RUNNABLE ∨ oldstat = T_STAT_FINALIZER_LIVE then
    let r := atomic_compare_and_set_uint oldvalue (T_STAT_RUNNING ||| T_REF)
      (s.cc.t_sched_stat_ref thread)
    if r.1 then .ok (false, .EXECUTE, { s with cc := set_stat_ref s.cc thread r.2 })
    else .ok (true, out, s)
  else if oldstat = T_STAT_GC_WAIT then
    if s.gc.GC_STATE_INACTIVE = s.gc.gc_state &&& s.gc.GC_STATE_PHASE then
      let r := atomic_compare_and_set_uint oldvalue (T_STAT_RUNNING ||| T_REF)
        (s.cc.t_sched_stat_ref thread)
      if r.1 then .ok (false, .EXECUTE, { s with cc := set_stat_ref s.cc thread r.2 })
      else .ok (true, out, s)
    else .ok (false, .SKIP, s)
  else if oldstat = T_STAT_SUSPEND then
    let r := atomic_compare_and_set_uint oldvalue T_STAT_SUSPENDED (s.cc.t_sched_stat_ref thread)
    .ok (!r.1, out, { s with cc := set_stat_ref s.cc thread r.2 })
  else if oldstat = T_STAT_TERM then
    let r := atomic_compare_and_set_uint oldvalue T_STAT_DEAD (s.cc.t_sched_stat_ref thread)
    .ok (!r.1, out, { s with cc := set_stat_ref s.cc thread r.2 })
  else if oldstat = T_STAT_DESTROY then
    .ok (false, out, { s with cc := thread_destroy s.cc thread })
  else .error .panic

/-- The loop `for(i = 0; cont; i++)` of `sched_set_running_status`. -/
def sched_set_running_status_loop (thread : Nat) :
    Nat → Bool → action_t → executor_state → Except sched_fault (action_t × executor_state)
  | _, false, out, s => .ok (out, s)
  | 0, true, _, _ => .error .no_fuel
  | fuel + 1, true, out, s =>
    match sched_set_running_status_pass thread out s with
    | .error e => .error e
    | .ok r => sched_set_running_status_loop thread fuel r.1 r.2.1 r.2.2

/-- `sched_set_running_status(thread)`. -/
def sched_set_running_status (fuel thread : Nat) (s : executor_state) :
    Except sched_fault (action_t × executor_state) :=
  sched_set_running_status_loop thread fuel true .DISCARD s

/-- The state `executor_state_running` with the status word `stat` for every
thread and the collector state word `gc_state`. -/
def executor_state_with_stat (stat gc_state : Nat) : executor_state :=
  { executor_state_running with
    cc := { executor_state_running.cc with t_sched_stat_ref := fun _ => stat },
    gc := { executor_state_running.gc with gc_state := gc_state } }

/-- Two allocations of 16 bytes by executor 0 on `malloc_state_boot`, then the
release of the first block: the anchor of the superblock descriptor after
each of the three calls. -/
def malloc_anchor_history : Option (List Nat) := do
  let a ← malloc_lf 3 16 0 malloc_state_boot
  let b ← malloc_lf 3 16 0 a.2
  let d := a.2.mem (a.1 - CACHE_LINE_SIZE)
  let s3 ← free_lf 3 a.1 b.2
  pure [(a.2.descs d).des_anchor, (b.2.descs d).des_anchor, (s3.descs d).des_anchor]

/-- The allocator after executor 0 has allocated 16 bytes on
`malloc_state_boot`. -/
def malloc_state_after_malloc : malloc_state :=
  match malloc_lf 3 16 0 malloc_state_boot with
  | some a => a.2
  | none => malloc_state_boot

/-! ### Thread mailboxes at a scheduling cycle
(`src/cc/thread.c`, `src/cc/thread_executor.c`)

A mailbox is an array of words; the accessors of `thread.c` give the slot of
each field. -/

/-- `thread_mbox_retaddr(mbox)` as an index into the mailbox. -/
def thread_mbox_retaddr : Nat := 0

/-- `thread_mbox_stkptr(mbox)`. -/
def thread_mbox_stkptr : Nat := thread_mbox_retaddr + 1

/-- `thread_mbox_executor(mbox)`. -/
def thread_mbox_executor : Nat := thread_mbox_stkptr + 1

/-- `thread_mbox_sigptr(mbox)`. -/
def thread_mbox_sigptr : Nat := thread_mbox_executor + 1

/-- `thread_mbox_write_log_index(mbox)`. -/
def thread_mbox_write_log_index : Nat := thread_mbox_sigptr + 1

/-- `thread_mbox_write_log(mbox)`. -/
def thread_mbox_write_log : Nat := thread_mbox_write_log_index + 1

/-- `thread_mbox_allocators(mbox)`. -/
def thread_mbox_allocators : Nat := thread_mbox_write_log + 1

/-- The fields of one `executor_t` that are copied to and from mailboxes, the
mailbox of each thread by slot, and the calls of `context_load` as pairs of
return address and stack pointer.  `ex_signal_mbox_addr` is the address
`&(exec->ex_signal_mbox)`; `thread_mbox_null_executor` is declared outside the
sources at hand and is carried as a field. -/
structure mbox_state where
  t_mbox : Nat → Nat → Nat
  ex_id : Nat
  ex_c_stack : Nat
  ex_signal_mbox_addr : Nat
  ex_gc_write_log_index : Nat
  ex_gc_write_log : Nat
  ex_gc_allocators : Nat
  executor_live : Nat
  thread_mbox_null_executor : Nat
  context_loads : List (Nat × Nat)
  os_thread_exits : Nat

/-- Store `v` in slot `slot` of the mailbox of `thread`. -/
def mbox_store (s : mbox_state) (thread slot v : Nat) : mbox_state :=
  { s with t_mbox := fun t i => if t = thread ∧ i = slot then v else s.t_mbox t i }

/-- `executor_retire_old_thread(exec)` on the mailboxes; `thread` is the value
of `exec->ex_scheduler.sch_curr_thread`. -/
def executor_retire_old_thread_mbox (thread : Nat) (s : mbox_state) : mbox_state :=
  if 0 ≠ thread then
    let s1 : mbox_state :=
      { s with ex_gc_write_log_index := s.t_mbox thread thread_mbox_write_log_index }
    mbox_store s1 thread thread_mbox_executor s1.thread_mbox_null_executor
  else s

/-- `executor_get_new_thread(exec)` on the mailboxes; `thread` is the result of
`scheduler_cycle(&(exec->ex_scheduler), exec->ex_id)`, which works on the
scheduler, the queues and the status words and writes neither a mailbox nor
one of the executor fields of `mbox_state`. -/
def executor_get_new_thread_mbox (thread : Nat) (s : mbox_state) : mbox_state :=
  let stkptr := s.t_mbox thread thread_mbox_stkptr
  let retaddr := s.t_mbox thread thread_mbox_retaddr
  let s1 := mbox_store s thread thread_mbox_executor s.ex_id
  let s2 := mbox_store s1 thread thread_mbox_stkptr s1.ex_c_stack
  let s3 := mbox_store s2 thread thread_mbox_sigptr s2.ex_signal_mbox_addr
  let s4 := mbox_store s3 thread thread_mbox_write_log_index s3.ex_gc_write_log_index
  let s5 := mbox_store s4 thread thread_mbox_write_log s4.ex_gc_write_log
  let s6 := mbox_store s5 thread thread_mbox_allocators s5.ex_gc_allocators
  { s6 with context_loads := s6.context_loads ++ [(retaddr, stkptr)] }

/-- `do_executor_sched_cycle(exec)` on the mailboxes, with the current thread
`curr` of the executor at the call and the thread `next` that
`scheduler_cycle` returns. -/
def do_executor_sched_cycle_mbox (curr next : Nat) (s : mbox_state) : mbox_state :=
  if s.executor_live ≠ 0 then
    executor_get_new_thread_mbox next (executor_retire_old_thread_mbox curr s)
  else { s with os_thread_exits := s.os_thread_exits + 1 }

/-- Executor 1 with C stack `0x9000`, signal word at `0x8004`, write log
`0xa000` and allocators `0xb000`; the mailbox of thread `t` holds `t + i` in
slot `i`. -/
def mbox_state_sample : mbox_state :=
  { t_mbox := fun t i => t + i, ex_id := 1, ex_c_stack := 0x9000,
    ex_signal_mbox_addr := 0x8004, ex_gc_write_log_index := 3, ex_gc_write_log := 0xa000,
    ex_gc_allocators := 0xb000, executor_live := 1, thread_mbox_null_executor := 0xffffffff,
    context_loads := [], os_thread_exits := 0 }

/-! ### Clearing a write log (`src/mm/gc/gc_thread.c`, `src/mm/gc/gc_desc.c`)

A write log entry `gc_log_entry_t` is a pair of words in memory, the object
and the offset.  Hash nodes are named by their address; their three fields
are typed heaps keyed by that address. -/

/-- `sizeof(gc_write_log_hash_node_t)`: three pointers. -/
def GC_HASH_NODE_SIZE : Nat := 12

/-- `sizeof(gc_log_entry_t)`: `void*[2]`. -/
def GC_LOG_ENTRY_SIZE : Nat := 8

/-- `gc_log_entry_objptr(entry)`. -/
def gc_log_entry_objptr (entry : Nat) : gc_run Nat := mem_read32 entry

/-- `gc_log_entry_offset(entry)`. -/
def gc_log_entry_offset (entry : Nat) : gc_run Nat := mem_read32 (entry + 4)

/-- The loop `while(*dst_ptr != *src_ptr) *dst_ptr = *src_ptr;`. -/
def gc_thread_copy_word (dst_ptr src_ptr : Nat) : Nat → gc_run Unit
  | 0 => throw .no_fuel
  | fuel + 1 => do
    let d ← mem_read32 dst_ptr
    let v ← mem_read32 src_ptr
    if d ≠ v then
      mem_write32 dst_ptr v
      gc_thread_copy_word dst_ptr src_ptr fuel
    else pure ()

/-- `gc_thread_process_write_entry(closure, ent, max_gen, do_weak)`.  The
source calls `gc_thread_check_ptr(closure, srcptr, dstptr, max_gen, do_weak)`,
with the two pointers in this order. -/
def gc_thread_process_write_entry (ent max_gen : Nat) (do_weak : Bool) (fuel : Nat) :
    gc_run Unit := do
  let src ← gc_log_entry_objptr ent
  let flipflop := (← get).gc.gc_collection_count % 2 ≠ 0
  let unclaimed := if flipflop then 0 else UINT_RANGE - 1
  let dst ← gc_header_fwd_ptr src
  if unclaimed ≠ dst then
    let curr_gen ← gc_header_curr_gen src
    let offset ← gc_log_entry_offset ent
    let real_offset := (GC_HEADER_SIZE + offset) % UINT_RANGE
    let type ← gc_header_type src
    let nonptr_size ← gc_typedesc_nonptr_size type
    let num_normptrs ← gc_typedesc_normal_ptrs type
    let _num_weakptrs ← gc_typedesc_weak_ptrs type
    let normptr_end := (nonptr_size + num_normptrs * GC_DOUBLE_PTR_SIZE) % UINT_RANGE
    if max_gen ≥ curr_gen then
      if offset < nonptr_size then
        gc_thread_copy_word (dst + real_offset) (src + real_offset) fuel
      else if offset < normptr_end then
        gc_thread_check_ptr (src + real_offset) (dst + real_offset) max_gen do_weak fuel
      else if do_weak then
        gc_thread_check_ptr (src + real_offset) (dst + real_offset) max_gen do_weak fuel
      else pure ()
    else if offset > nonptr_size then
      if offset < normptr_end then
        gc_thread_check_ptr (src + real_offset) (dst + real_offset) max_gen do_weak fuel
      else if do_weak then
        gc_thread_check_ptr (src + real_offset) (dst + real_offset) max_gen do_weak fuel
      else pure ()
    else pure ()
  else pure ()

/-- The heap together with the write-log fields of `gc_closure_t`: the list
`gth_unique_list`, the table `gth_hash_table` by index, the address
`gth_hash_nodes` of the node array and the fields of the nodes by node
address.  `processed` records the entries passed to
`gc_thread_process_write_entry`, in the order of the calls. -/
structure gc_write_log_state where
  heap : gc_heap
  gth_unique_list : Nat
  gth_hash_table : Nat → Nat
  gth_hash_nodes : Nat
  wh_list_next : Nat → Nat
  wh_hash_next : Nat → Nat
  wh_log_entry : Nat → Nat
  processed : List Nat

/-- A run of collector code over the heap and the write-log fields. -/
abbrev gc_log_run (α : Type) : Type := StateT gc_write_log_state (Except gc_fault) α

/-- Run heap code inside a `gc_log_run`. -/
def gc_log_lift {α : Type} (x : gc_run α) : gc_log_run α := fun s =>
  match x.run s.heap with
  | .ok (a, h) => .ok (a, { s with heap := h })
  | .error e => .error e

/-- The map `f` with the value `v` at `a`. -/
def nat_fun_set (f : Nat → Nat) (a v : Nat) : Nat → Nat := fun b => if b = a then v else f b

/-- Read `node->wh_log_entry`. -/
def wh_log_entry_get (node : Nat) : gc_log_run Nat := do
  if node = 0 then throw .null_deref
  pure ((← get).wh_log_entry node)

/-- Read `closure->gth_hash_table[index]`; the table has 1024 slots. -/
def gth_hash_table_get (index : Nat) : gc_log_run Nat := do
  if 1024 ≤ index then throw .out_of_bounds
  pure ((← get).gth_hash_table index)

/-- Write `closure->gth_hash_table[index]`. -/
def gth_hash_table_set (index v : Nat) : gc_log_run Unit := do
  if 1024 ≤ index then throw .out_of_bounds
  modify fun s => { s with gth_hash_table := nat_fun_set s.gth_hash_table index v }

/-- `gc_thread_hash_table_index(node)`. -/
def gc_thread_hash_table_index (node : Nat) : gc_log_run Nat := do
  let ent ← wh_log_entry_get node
  let hash ← gc_log_lift (gc_log_entry_objptr ent)
  pure (hash % 4091)

/-- The `while(NULL != curr)` loop of `gc_thread_hash_table_insert`:
`present` and the final `curr`. -/
def gc_thread_hash_table_find (addr : Nat) : Nat → Nat → gc_log_run (Bool × Nat)
  | 0, _ => throw .no_fuel
  | fuel + 1, curr => do
    if 0 ≠ curr then
      let ent ← wh_log_entry_get curr
      let objptr ← gc_log_lift (gc_log_entry_objptr ent)
      if addr = objptr then pure (true, curr)
      else gc_thread_hash_table_find addr fuel ((← get).wh_hash_next curr)
    else pure (false, curr)

/-- `gc_thread_hash_table_insert(closure, node)`. -/
def gc_thread_hash_table_insert (fuel node : Nat) : gc_log_run Unit := do
  let ent ← wh_log_entry_get node
  let addr ← gc_log_lift (gc_log_entry_objptr ent)
  let index ← gc_thread_hash_table_index node
  let head ← gth_hash_table_get index
  let r ← gc_thread_hash_table_find addr fuel head
  if !r.1 then
    modify fun s => { s with wh_hash_next := nat_fun_set s.wh_hash_next node r.2 }
    gth_hash_table_set index node
    modify fun s => { s with wh_list_next := nat_fun_set s.wh_list_next node s.gth_unique_list }
    modify fun s => { s with gth_unique_list := node }
  else pure ()

/-- The loop `for(i = 0; i < index; i++)` of `gc_thread_clear_write_log`, with
`n` rounds left. -/
def gc_thread_clear_write_log_insert (fuel : Nat) : Nat → Nat → gc_log_run Unit
  | 0, _ => pure ()
  | n + 1, i => do
    gc_thread_hash_table_insert fuel ((← get).gth_hash_nodes + i * GC_HASH_NODE_SIZE)
    gc_thread_clear_write_log_insert fuel n (i + 1)

/-- The loop `while(NULL != curr)` of `gc_thread_clear_write_log`. -/
def gc_thread_clear_write_log_process (max_gen : Nat) (do_weak : Bool) :
    Nat → Nat → gc_log_run Unit
  | 0, _ => throw .no_fuel
  | fuel + 1, curr => do
    if 0 ≠ curr then
      let index ← gc_thread_hash_table_index curr
      gth_hash_table_set index 0
      let ent ← wh_log_entry_get curr
      modify fun s => { s with processed := s.processed ++ [ent] }
      gc_log_lift (gc_thread_process_write_entry ent max_gen do_weak (fuel + 1))
      gc_thread_clear_write_log_process max_gen do_weak fuel ((← get).wh_list_next curr)
    else pure ()

/-- `gc_thread_clear_write_log(closure, index, max_gen, do_weak)`. -/
def gc_thread_clear_write_log (fuel index max_gen : Nat) (do_weak : Bool) :
    gc_log_run Unit := do
  gc_thread_clear_write_log_insert fuel index 0
  gc_thread_clear_write_log_process max_gen do_weak fuel (← get).gth_unique_list
  modify fun s => { s with gth_unique_list := 0 }

/-- The closure as `gc_thread_executor_init(closure, log)` leaves it, over the
heap `heap`: empty table and list, node `i` of the array at `nodes` pointing
to entry `i` of the log. -/
def gc_write_log_state_init (heap : gc_heap) (nodes log : Nat) : gc_write_log_state :=
  { heap := heap, gth_unique_list := 0, gth_hash_table := fun _ => 0, gth_hash_nodes := nodes,
    wh_list_next := fun _ => 0, wh_hash_next := fun _ => 0,
    wh_log_entry := fun node => log + ((node - nodes) / GC_HASH_NODE_SIZE) * GC_LOG_ENTRY_SIZE,
    processed := [] }

/-- Two objects that no collector thread has claimed (forwarding pointer
`0xffffffff`), `A` at `0x10000` and `B` at `0x2ff60`, whose addresses are equal
modulo 4091, and at `0x5000` a write log with the three entries `(A, 0)`,
`(B, 0)`, `(A, 0)`; the hash nodes are at `0x6000`. -/
def gc_write_log_state_aba : gc_write_log_state :=
  gc_write_log_state_init (gc_heap_of (mem_of_words
    [(0x3000, 4), (0x3004, 8), (0x3008, 1), (0x300c, 0),
     (0x10000, 0xffffffff), (0x10004, 0), (0x10008, 0x3000), (0x1000c, 0x101),
     (0x2ff60, 0xffffffff), (0x2ff64, 0), (0x2ff68, 0x3000), (0x2ff6c, 0x101),
     (0x5000, 0x10000), (0x5004, 0), (0x5008, 0x2ff60), (0x500c, 0),
     (0x5010, 0x10000), (0x5014, 0)]
    (fun _ => 0))) 0x6000 0x5000

/-- The entries passed to `gc_thread_process_write_entry` in a run, each with
the object it names, the unique list at the end, and whether the 1024 slots of
the hash table are all `NULL` at the end. -/
def gc_write_log_outcome (r : Except gc_fault (Unit × gc_write_log_state)) :
    Except gc_fault (List (Nat × Nat) × Nat × Bool) :=
  r.map fun p =>
    (p.2.processed.map fun ent =>
      (ent, p.2.heap.mem ent + 0x100 * p.2.heap.mem (ent + 1) + 0x10000 * p.2.heap.mem (ent + 2)
        + 0x1000000 * p.2.heap.mem (ent + 3)),
     p.2.gth_unique_list,
     (List.range 1024).all fun i => decide (p.2.gth_hash_table i = 0))

/-- The published hazard pointers of all executors, `thp_ptrs[0]` and
`thp_ptrs[1]` of every entry of `lf_hptrs` below `lf_thread_queue_hptrs`. -/
def lf_thread_queue_hazards (q : lf_thread_queue_t) : List Nat :=
  (List.range q.lf_thread_queue_hptrs).flatMap fun i =>
    [(lf_hptrs_get q i).thp_ptrs_0, (lf_hptrs_get q i).thp_ptrs_1]

/-- Whether the list that starts at `head` and is linked through `lfn_next`
consists of the nodes `l`, none of them `NULL`, and ends with `NULL`. -/
def lf_is_list (nodes : Nat → lf_thread_queue_node_t) : Nat → List Nat → Bool
  | head, [] => decide (head = 0)
  | head, n :: rest => decide (head = n) && decide (n ≠ 0) && lf_is_list nodes (nodes n).lfn_next rest

/-- The loop of `lf_thread_queue_scan_free_rlist`, returning besides the queue
the nodes it has passed to `lf_thread_queue_node_free`, in the order of the
calls. -/
def lf_thread_queue_scan_free_rlist_trace (ptab : List (List Nat)) (exec : Nat) :
    Nat → lf_thread_queue_t → Nat → Except lf_fault (List Nat × lf_thread_queue_t)
  | 0, _, _ => .error .no_fuel
  | fuel + 1, q, curr =>
    if 0 ≠ curr then do
      let size := (q.lf_thread_queue_hptrs * 4) - 1
      let n ← lfn_read q curr
      let next := n.lfn_next
      if lf_thread_queue_ptab_lookup ptab curr size then do
        let rlist := (lf_hptrs_get q exec).thp_rlist
        let qa ← lfn_set_next q curr rlist
        let q1 := lf_hptrs_set qa exec { lf_hptrs_get qa exec with
          thp_rlist := curr,
          thp_rcount := ((lf_hptrs_get qa exec).thp_rcount + 1) % UINT_RANGE }
        lf_thread_queue_scan_free_rlist_trace ptab exec fuel q1 next
      else do
        let q1 ← lf_thread_queue_node_free fuel q curr exec
        let r ← lf_thread_queue_scan_free_rlist_trace ptab exec fuel q1 next
        pure (curr :: r.1, r.2)
    else pure ([], q)

/-- `lf_thread_queue_scan`, returning besides the queue the nodes it has
passed to `lf_thread_queue_node_free`. -/
def lf_thread_queue_scan_trace (fuel : Nat) (q : lf_thread_queue_t) (exec : Nat) :
    Except lf_fault (List Nat × lf_thread_queue_t) :=
  let curr := (lf_hptrs_get q exec).thp_rlist
  let q1 := lf_hptrs_set q exec { lf_hptrs_get q exec with thp_rlist := 0, thp_rcount := 0 }
  lf_thread_queue_scan_free_rlist_trace (lf_thread_queue_scan_build_ptab q) exec fuel q1 curr

/-- What `lf_thread_queue_node_free(fifo, node, exec)` leaves alone: every
node but `node`, the hazard records, the statics, and the size of the
allocator; the count of the private list grows by one at most. -/
def lf_node_free_frame (exec node : Nat) (q q1 : lf_thread_queue_t) : Prop :=
  (∀ a, a ≠ node → q1.nodes a = q.nodes a) ∧ q1.lf_hptrs = q.lf_hptrs ∧
  q1.lf_thread_queue_hptrs = q.lf_thread_queue_hptrs ∧ q1.qna_count = q.qna_count ∧
  q1.executor_num = q.executor_num ∧ q1.qna_lists.length = q.qna_lists.length ∧
  (qna_lists_get q1 exec).nl_count ≤ (qna_lists_get q exec).nl_count + 1

/-- The queue of `lf_thread_queue_init` for 3 threads and 2 executors at a
later time: executor 0 has retired the nodes `0x1068`, `0x1060`, `0x1058` (in
this order from the head of its retire list), executor 1 holds the four nodes
from `0x1050` on its private list, and the published hazard pointers are
`0x1060` (executor 0) and `0x1078` (executor 1). -/
def lf_thread_queue_retired : lf_thread_queue_t :=
  { lfn_store (lf_thread_queue_init 0x1000 8 3 2 2) 0x1058 ⟨0, 0⟩ with
    qna_lists := [⟨0x1030, 7⟩, ⟨0x1050, 4⟩],
    lf_hptrs := [⟨3, 0x1068, 0x1060, 0⟩, ⟨0, 0, 0, 0x1078⟩] }

/-- `gc_header_init_normal(fwd_ptr, type, flags, gen, next_gen, count, header)`
followed by the six accessors on `header`: forwarding pointer, list pointer
and current generation, then next generation, count and flags. -/
def gc_header_init_read_back (fwd_ptr type flags gen next_gen count header : Nat) :
    gc_run ((Nat × Nat × Nat) × (Nat × Nat × Nat)) := do
  gc_header_init_normal fwd_ptr type flags gen next_gen count header
  let fwd ← gc_header_fwd_ptr header
  let list ← gc_header_list_ptr header
  let curr_gen ← gc_header_curr_gen header
  let next ← gc_header_next_gen header
  let cnt ← gc_header_count header
  let fl ← gc_header_flags header
  pure ((fwd, list, curr_gen), (next, cnt, fl))

/-- The slice that `slice_alloc` yields for a superblock of size class 1 on
`malloc_state_boot`, with the slice manager after the call. -/
def malloc_boot_slice : Nat × slice_state :=
  (slice_alloc 3 SLICE_TYPE_MALLOC SLICE_PROT_RWX
    (malloc_state_boot.sizeclasses (malloc_state_boot.procheaps 1).ph_sizeclass).sc_block_size
    malloc_state_boot.sl).getD (0, malloc_state_boot.sl)

/-- The descriptor that `desc_alloc` yields after `malloc_boot_slice`, with
the allocator after the call. -/
def malloc_boot_desc : Nat × malloc_state :=
  (desc_alloc 3 { malloc_state_boot with sl := malloc_boot_slice.2 }).getD (0, malloc_state_boot)

/-- An object `A` at `0x10000` of generation 1 that has been copied to
`0x20000` (its forwarding pointer), with 8 non-pointer bytes; the mutator has
since written both words of `A`, `0x14131211` at offset 0 and `0x18171615` at
offset 4, and logged the two writes: the write log at `0x5000` holds `(A, 0)`
and `(A, 4)`.  The copy still has zeros in both words.  The hash nodes are
at `0x6000`. -/
def gc_write_log_state_two_offsets : gc_write_log_state :=
  gc_write_log_state_init (gc_heap_of (mem_of_words
    [(0x3000, 4), (0x3004, 8), (0x3008, 0), (0x300c, 0),
     (0x10000, 0x20000), (0x10004, 0), (0x10008, 0x3000), (0x1000c, 0x101),
     (0x10020, 0x14131211), (0x10024, 0x18171615),
     (0x20000, 0), (0x20004, 0), (0x20008, 0x3000), (0x2000c, 0x101),
     (0x5000, 0x10000), (0x5004, 0), (0x5008, 0x10000), (0x500c, 4)]
    (fun _ => 0))) 0x6000 0x5000

/-- The word at address `a` of the heap a run over the write-log state ended
with. -/
def gc_write_log_word_after (r : Except gc_fault (Unit × gc_write_log_state)) (a : Nat) :
    Except gc_fault Nat :=
  r.map fun p => p.2.heap.mem a + 0x100 * p.2.heap.mem (a + 1) + 0x10000 * p.2.heap.mem (a + 2)
    + 0x1000000 * p.2.heap.mem (a + 3)

/-! ### The scheduler of one executor: local queue and workshare
(`src/cc/noninteract_scheduler.c`) -/

/-- The `scheduler_t` of the executor at work, over the shared state `ex`:
the local queue (head first, linked through `t_queue_next` in the source),
`sch_num_threads` and `sch_curr_thread`; `executor_num` is the value of
`executor_count()` and `exec` the number of the executor, which the source
passes along as a parameter. -/
structure sched_state where
  ex : executor_state
  sch_queue : List Nat
  sch_num_threads : Nat
  sch_curr_thread : Nat
  executor_num : Nat
  exec : Nat

/-- The call `lf_thread_queue_dequeue(sched_workshare, exec)` on the shared
state. -/
def sched_workshare_dequeue (fuel exec : Nat) (s : cc_state) :
    Except sched_fault (Nat × cc_state) :=
  match lf_thread_queue_dequeue fuel s.sched_workshare exec with
  | .error f => .error (.queue f)
  | .ok r => .ok (r.1, { s with sched_workshare := r.2 })

/-- Replace the shared scheduler state inside a `sched_state`. -/
def sched_state_set_cc (s : sched_state) (cc : cc_state) : sched_state :=
  { s with ex := { s.ex with cc := cc } }

/-- `sched_upper_bound()`. -/
def sched_upper_bound (s : sched_state) : Nat :=
  let num_executors := s.executor_num
  let num_threads := s.ex.cc.sched_active_threads
  let frac := num_threads >>> 2
  let numerator := (num_threads + frac) % UINT_RANGE
  let bound := numerator / num_executors
  if bound ≠ 0 then bound else 1

/-- `sched_lower_bound()`. -/
def sched_lower_bound (s : sched_state) : Nat :=
  let num_executors := s.executor_num
  let num_threads := s.ex.cc.sched_active_threads
  let frac := num_threads >>> 2
  let numerator := if frac < num_threads then num_threads - frac else 0
  let bound := numerator / num_executors
  if bound ≠ 0 then bound else 1

/-- `sched_queue_enqueue(scheduler, thread, exec)`. -/
def sched_queue_enqueue (s : sched_state) (thread : Nat) : sched_state :=
  { s with sch_queue := s.sch_queue ++ [thread],
           sch_num_threads := (s.sch_num_threads + 1) % UINT_RANGE }

/-- `sched_queue_dequeue(scheduler)`: the head of the local queue (`NULL` for
an empty queue); `sch_num_threads` is decremented in either case. -/
def sched_queue_dequeue (s : sched_state) : Nat × sched_state :=
  match s.sch_queue with
  | [] => (0, { s with sch_num_threads := (s.sch_num_threads + UINT_RANGE - 1) % UINT_RANGE })
  | thread :: rest =>
    (thread, { s with sch_queue := rest,
                      sch_num_threads := (s.sch_num_threads + UINT_RANGE - 1) % UINT_RANGE })

/-- The value an `int` has after it was stored in a `bool` (C99 `_Bool`):
the local `out` of the two `try` functions below is declared `bool`. -/
def c_bool (v : Int) : Int := if v = 0 then 0 else 1

/-- `scheduler_try_take_thread(scheduler, thread, exec)`. -/
def scheduler_try_take_thread (thread : Nat) (s : sched_state) : Int × sched_state :=
  let oldvalue := s.ex.cc.t_sched_stat_ref thread
  let oldstat := oldvalue &&& T_STAT_MASK
  if T_STAT_RUNNABLE = oldstat ∨ T_STAT_RUNNING = oldstat ∨ T_STAT_GC_WAIT = oldstat ∨
      T_STAT_FINALIZER_LIVE = oldstat then
    (c_bool 1, sched_queue_enqueue s thread)
  else if T_STAT_DESTROY = oldstat then
    (c_bool (-1), sched_state_set_cc s (thread_destroy s.ex.cc thread))
  else
    let r := atomic_compare_and_set_uint oldvalue oldstat (s.ex.cc.t_sched_stat_ref thread)
    if r.1 then (c_bool (-1), sched_state_set_cc s (set_stat_ref s.ex.cc thread r.2))
    else (c_bool 0, s)

/-- The loop `for(i = 0; !(res = scheduler_try_take_thread(...)); i++)`. -/
def scheduler_try_take_thread_loop (thread : Nat) :
    Nat → sched_state → Except sched_fault (Int × sched_state)
  | 0, _ => .error .no_fuel
  | fuel + 1, s =>
    let r := scheduler_try_take_thread thread s
    if r.1 ≠ 0 then .ok r else scheduler_try_take_thread_loop thread fuel r.2

/-- `scheduler_take_thread(scheduler, exec)`. -/
def scheduler_take_thread : Nat → sched_state → Except sched_fault sched_state
  | 0, _ => .error .no_fuel
  | fuel + 1, s => do
    let d ← sched_workshare_dequeue (fuel + 1) s.exec s.ex.cc
    let s1 := sched_state_set_cc s d.2
    if 0 ≠ d.1 then do
      let r ← scheduler_try_take_thread_loop d.1 (fuel + 1) s1
      if 0 < r.1 then pure r.2 else scheduler_take_thread fuel r.2
    else pure s1
/-- `scheduler_try_put_thread(thread, exec)`; the return value of
`lf_thread_queue_enqueue` is ignored. -/
def scheduler_try_put_thread (fuel thread : Nat) (s : sched_state) :
    Except sched_fault (Int × sched_state) :=
  let oldvalue := s.ex.cc.t_sched_stat_ref thread
  let oldstat := oldvalue &&& T_STAT_MASK
  if T_STAT_RUNNABLE = oldstat ∨ T_STAT_RUNNING = oldstat ∨ T_STAT_GC_WAIT = oldstat ∨
      T_STAT_FINALIZER_LIVE = oldstat then
    match lf_thread_queue_enqueue fuel s.ex.cc.sched_workshare thread s.exec with
    | .error f => .error (.queue f)
    | .ok e => .ok (c_bool 1, sched_state_set_cc s { s.ex.cc with sched_workshare := e.2 })
  else if T_STAT_DESTROY = oldstat then
    .ok (c_bool (-1), sched_state_set_cc s (thread_destroy s.ex.cc thread))
  else
    let r := atomic_compare_and_set_uint oldvalue oldstat (s.ex.cc.t_sched_stat_ref thread)
    if r.1 then .ok (c_bool (-1), sched_state_set_cc s (set_stat_ref s.ex.cc thread r.2))
    else .ok (c_bool 0, s)

/-- The loop `for(i = 0; !(res = scheduler_try_put_thread(...)); i++)`. -/
def scheduler_try_put_thread_loop (thread : Nat) :
    Nat → sched_state → Except sched_fault (Int × sched_state)
  | 0, _ => .error .no_fuel
  | fuel + 1, s => do
    let r ← scheduler_try_put_thread (fuel + 1) thread s
    if r.1 ≠ 0 then pure r else scheduler_try_put_thread_loop thread fuel r.2

/-- `scheduler_put_thread(scheduler, exec)`. -/
def scheduler_put_thread : Nat → sched_state → Except sched_fault sched_state
  | 0, _ => .error .no_fuel
  | fuel + 1, s =>
    let d := sched_queue_dequeue s
    if 0 ≠ d.1 then do
      let r ← scheduler_try_put_thread_loop d.1 (fuel + 1) d.2
      if 0 < r.1 then pure r.2 else scheduler_put_thread fuel r.2
    else pure d.2

/-- `scheduler_balance_threads(scheduler, exec)`. -/
def scheduler_balance_threads (fuel : Nat) (s : sched_state) : Except sched_fault sched_state :=
  let num_executors := s.executor_num
  let num_threads := s.ex.cc.sched_active_threads
  if num_threads > num_executors then
    if s.sch_num_threads < sched_lower_bound s then scheduler_take_thread fuel s
    else if s.sch_num_threads > sched_upper_bound s then scheduler_put_thread fuel s
    else pure s
  else if 0 = s.sch_num_threads then scheduler_take_thread fuel s
  else pure s

/-- `sched_try_workshare(sched, exec)`. -/
def sched_try_workshare : Nat → sched_state → Except sched_fault sched_state
  | 0, _ => .error .no_fuel
  | fuel + 1, s =>
    if 0 = s.sch_curr_thread then do
      let d ← sched_workshare_dequeue (fuel + 1) s.exec s.ex.cc
      let s1 := sched_state_set_cc s d.2
      if 0 ≠ d.1 then do
        let r ← sched_set_running_status (fuel + 1) d.1 s1.ex
        let s2 := { s1 with ex := r.2 }
        if action_t.DISCARD ≠ r.1 then do
          let s3 := { s2 with sch_curr_thread := d.1,
                              sch_num_threads := (s2.sch_num_threads + 1) % UINT_RANGE }
          let s4 ← scheduler_balance_threads (fuel + 1) s3
          sched_try_workshare fuel s4
        else sched_try_workshare fuel s2
      else pure s1
    else pure s

/-- The queue `q` after executor `exec` has enqueued `threads` in turn (`q`
itself when an enqueue faults). -/
def lf_thread_queue_with (exec : Nat) (threads : List Nat) (q : lf_thread_queue_t) :
    lf_thread_queue_t :=
  match lf_thread_queue_enqueue_all 2 exec threads q with
  | .ok r => r.2
  | .error _ => q

/-- The threads held by the nodes that follow the node `p` in the queue, in
order: from `lf_head`, the content of the queue. -/
def lf_thread_queue_content (q : lf_thread_queue_t) : Nat → Nat → List Nat
  | 0, _ => []
  | fuel + 1, p =>
    let next := (q.nodes p).lfn_next
    if next = 0 then [] else (q.nodes next).lfn_data :: lf_thread_queue_content q fuel next

/-- Executor 0 as a worker without threads of its own, one of three
executors, and the workshare after executor 1 enqueued `0x7000` and `0x7100`
on the queue of `scheduler_start`: thread `0x7000` has the status word
`stat | T_REF`, thread `0x7100` is RUNNABLE with its reference flag set. -/
def sched_state_workshare (stat gc_state : Nat) : sched_state :=
  { ex := { executor_state_running with
      cc := { executor_state_running.cc with
        t_sched_stat_ref := fun t =>
          if t = 0x7000 then stat ||| T_REF else T_STAT_RUNNABLE ||| T_REF,
        sched_workshare := lf_thread_queue_with 1 [0x7000, 0x7100]
          executor_state_running.cc.sched_workshare,
        sched_active_threads := 2 },
      gc := { executor_state_running.gc with gc_state := gc_state } },
    sch_queue := [], sch_num_threads := 0, sch_curr_thread := 0, executor_num := 3,
    exec := 0 }

/-- What a run of the scheduler code leaves behind: the local queue,
`sch_num_threads`, `sch_curr_thread`, the content of the workshare, and the
status words of
the threads `0x7000` and `0x7100`. -/
def sched_state_view (r : Except sched_fault sched_state) :
    Except sched_fault ((List Nat × Nat × Nat) × (List Nat × Nat × Nat)) :=
  match r with
  | .error e => .error e
  | .ok s => .ok ((s.sch_queue, s.sch_num_threads, s.sch_curr_thread),
      (lf_thread_queue_content s.ex.cc.sched_workshare 64 s.ex.cc.sched_workshare.lf_head,
        s.ex.cc.t_sched_stat_ref 0x7000,
        s.ex.cc.t_sched_stat_ref 0x7100))

/-- The number of threads among `threads` whose state is RUNNABLE or RUNNING:
the quantity `sched_active_threads` is compared with. -/
def sched_count_active (s : cc_state) (threads : List Nat) : Nat :=
  (threads.filter (fun t =>
    decide (s.t_sched_stat_ref t &&& T_STAT_MASK = T_STAT_RUNNABLE ∨
      s.t_sched_stat_ref t &&& T_STAT_MASK = T_STAT_RUNNING))).length

/-- Three executors; executor 0 runs the thread `0x5000`, whose status word is
`RUNNING | T_REF`; every other thread is SUSPENDED; one thread is counted as
active. -/
def cc_state_one_running : cc_state :=
  { cc_state_two_idle with
    t_sched_stat_ref := fun t => if t = 0x5000 then T_STAT_RUNNING ||| T_REF else T_STAT_SUSPENDED,
    sched_active_threads := 1 }

/-- Executor 0 deactivates the thread `0x5000` to the state `stat` and then
activates it again, from `cc_state_one_running`: the value of
`sched_active_threads`, the number of RUNNABLE or RUNNING threads among
`0x5000` and `0x7000`, and the status word of `0x5000` at the end. -/
def sched_deactivate_activate (stat : Nat) : Option (Nat × Nat × Nat) := do
  let a ← scheduler_deactivate_thread 2 0x5000 stat 0 cc_state_one_running
  let b ← (scheduler_activate_thread 2 0x5000 0 a.2).toOption
  pure (b.2.sched_active_threads, sched_count_active b.2 [0x5000, 0x7000],
    b.2.t_sched_stat_ref 0x5000)

/-! ### Refreshing an allocator (`src/mm/gc/gc_alloc.c`)

One executor runs the code, so a compare-and-set sees the value read just
before it unless the source hands it another location. -/

/-- Faults of a run of the allocator code: a loop out of fuel, a call of
`panic`, an access to one of the slice tables at the index `i` outside
`0 .. SLICE_POWERS - 1`, a shift of an `int` by 32 bits or more, and
`bitscan_high` of the word `0` (the `bsr` instruction leaves its result
undefined). -/
inductive gc_alloc_fault where
  | no_fuel
  | panic
  | slice_index (i : Nat)
  | shift_range
  | bitscan_zero
  deriving DecidableEq, Repr

/-- The three slice tables of `gc_alloc.c`. -/
inductive gc_slice_table where
  | used
  | free
  | fresh
  deriving DecidableEq, Repr

/-- The state of `gc_alloc.c` and of the slice manager under it.  The tables
are indexed `[slice power][generation index]` and hold the address of the
first descriptor of a stack; descriptors live in `sl.slices`.  The three
counter arrays live in `words` (by byte address), and `gc_used_space`,
`gc_free_space` and `gc_new_space` are the values of the pointer variables
of those names.  The two comparisons of ratios are made in floating point and
are taken as the parameters `hard_ratio_reached` and `soft_ratio_reached` of
the two sizes divided.  The `GC_STATE_*` constants are declared outside the
sources at hand. -/
structure gc_alloc_state where
  sl : slice_state
  gc_used_slices : Nat → Nat → Nat
  gc_free_slices : Nat → Nat → Nat
  gc_new_slices : Nat → Nat → Nat
  words : Nat → Nat
  gc_used_space : Nat
  gc_free_space : Nat
  gc_new_space : Nat
  gc_num_generations : Nat
  gc_state : Nat
  GC_STATE_INACTIVE : Nat
  GC_STATE_PHASE : Nat
  GC_STATE_INITIAL : Nat
  hard_ratio_reached : Nat → Nat → Bool
  soft_ratio_reached : Nat → Nat → Bool

/-- The head `table[i][index]`. -/
def gc_slice_table_get (s : gc_alloc_state) (t : gc_slice_table) (i index : Nat) : Nat :=
  match t with
  | .used => s.gc_used_slices i index
  | .free => s.gc_free_slices i index
  | .fresh => s.gc_new_slices i index

/-- Store `v` in `table[i][index]`. -/
def gc_slice_table_set (s : gc_alloc_state) (t : gc_slice_table) (i index v : Nat) :
    gc_alloc_state :=
  match t with
  | .used => { s with gc_used_slices := fun a b =>
      if a = i ∧ b = index then v else s.gc_used_slices a b }
  | .free => { s with gc_free_slices := fun a b =>
      if a = i ∧ b = index then v else s.gc_free_slices a b }
  | .fresh => { s with gc_new_slices := fun a b =>
      if a = i ∧ b = index then v else s.gc_new_slices a b }

/-- `bitscan_high(word)`: the index of the most significant set bit. -/
def bitscan_high (word : Nat) : Except gc_alloc_fault Nat :=
  match (List.range 32).reverse.find? (fun i => (word % UINT_RANGE).testBit i) with
  | none => .error .bitscan_zero
  | some i => .ok i

/-- The expression `0x1 << (i + MIN_SLICE_POWER)` with `i` unsigned. -/
def gc_slice_size_of_power (i : Nat) : Except gc_alloc_fault Nat :=
  let amount := (i + MIN_SLICE_POWER) % UINT_RANGE
  if amount < 32 then .ok ((1 <<< amount) % UINT_RANGE) else .error .shift_range

/-- `gc_allocator_alloc_slice(src, dst)` with `src = src_table[i] + index` and
`dst = dst_table[i] + index`. -/
def gc_allocator_alloc_slice (src dst : gc_slice_table) (i index : Nat) (s : gc_alloc_state) :
    Nat × gc_alloc_state :=
  let out := gc_slice_table_get s src i index
  if out = 0 then (0, s)
  else
    let s1 := gc_slice_table_set s src i index (s.sl.slices out).s_next
    let dst_value := gc_slice_table_get s1 dst i index
    let s2 := { s1 with sl := set_slice s1.sl out { s1.sl.slices out with s_next := dst_value } }
    (out, gc_slice_table_set s2 dst i index out)

/-- The word `array[index].value` of the counter array at address `array`. -/
def gc_space_value (s : gc_alloc_state) (array index : Nat) : Nat :=
  s.words ((array + 4 * index) % UINT_RANGE)

/-- `gc_allocator_total_used_space()` and its two siblings, for the counter
array at address `array`: the snapshot is valid at the first attempt. -/
def gc_allocator_total_space (s : gc_alloc_state) (array : Nat) : Nat :=
  ((List.range s.gc_num_generations).map (gc_space_value s array)).sum % UINT_RANGE

/-- `gc_allocator_limit_check(req_size)`. -/
def gc_allocator_limit_check (req_size : Nat) (s : gc_alloc_state) : Bool :=
  let used_size := gc_allocator_total_space s s.gc_used_space
  let new_size := gc_allocator_total_space s s.gc_new_space
  let free_size := gc_allocator_total_space s s.gc_free_space
  let total_size := (used_size + new_size + free_size) % UINT_RANGE
  let total_used_size := (used_size + req_size) % UINT_RANGE
  s.hard_ratio_reached total_size total_used_size

/-- `gc_allocator_check_activate_collector()`; the condition is
`GC_STATE_INACTIVE == gc_state.value & GC_STATE_PHASE && ratio >= gc_soft_ratio`,
in which `==` binds before `&`. -/
def gc_allocator_check_activate_collector (s : gc_alloc_state) : gc_alloc_state :=
  let used_size := gc_allocator_total_space s s.gc_used_space
  let new_size := gc_allocator_total_space s s.gc_new_space
  let free_size := gc_allocator_total_space s s.gc_free_space
  let total_size := (used_size + new_size + free_size) % UINT_RANGE
  if ((if s.GC_STATE_INACTIVE = s.gc_state then 1 else 0) &&& s.GC_STATE_PHASE) ≠ 0 ∧
      s.soft_ratio_reached total_size used_size = true then
    { s with gc_state := s.GC_STATE_INITIAL }
  else s
/-- The first loop of `gc_allocator_update_sizes` for `!for_gc`: the counter
`gc_used_space[gen - 1]` is read, and the compare-and-set is handed
`&gc_used_space`, the pointer variable. -/
def gc_allocator_update_used (req_size gen : Nat) :
    Nat → gc_alloc_state → Except gc_alloc_fault gc_alloc_state
  | 0, _ => .error .no_fuel
  | fuel + 1, s =>
    let used_size := gc_space_value s s.gc_used_space ((gen + UINT_RANGE - 1) % UINT_RANGE)
    let r := atomic_compare_and_set_uint used_size ((used_size + req_size) % UINT_RANGE)
      s.gc_used_space
    if r.1 then .ok { s with gc_used_space := r.2 }
    else gc_allocator_update_used req_size gen fuel s

/-- The first loop of `gc_allocator_update_sizes` for `for_gc`, on
`gc_new_space`. -/
def gc_allocator_update_new (req_size gen : Nat) :
    Nat → gc_alloc_state → Except gc_alloc_fault gc_alloc_state
  | 0, _ => .error .no_fuel
  | fuel + 1, s =>
    let new_size := gc_space_value s s.gc_new_space ((gen + UINT_RANGE - 1) % UINT_RANGE)
    let r := atomic_compare_and_set_uint new_size ((new_size + req_size) % UINT_RANGE)
      s.gc_new_space
    if r.1 then .ok { s with gc_new_space := r.2 }
    else gc_allocator_update_new req_size gen fuel s

/-- The loop of `gc_allocator_update_sizes` for `!new`, on `gc_free_space`. -/
def gc_allocator_update_free (req_size gen : Nat) :
    Nat → gc_alloc_state → Except gc_alloc_fault gc_alloc_state
  | 0, _ => .error .no_fuel
  | fuel + 1, s =>
    let free_size := gc_space_value s s.gc_free_space ((gen + UINT_RANGE - 1) % UINT_RANGE)
    let r := atomic_compare_and_set_uint free_size (uint_sub free_size req_size)
      s.gc_free_space
    if r.1 then .ok { s with gc_free_space := r.2 }
    else gc_allocator_update_free req_size gen fuel s

/-- `gc_allocator_update_sizes(req_size, gen, new, for_gc)`. -/
def gc_allocator_update_sizes (fuel req_size gen : Nat) (is_new for_gc : Bool)
    (s : gc_alloc_state) : Except gc_alloc_fault gc_alloc_state := do
  let s1 ← if !for_gc then gc_allocator_update_used req_size gen fuel s
    else gc_allocator_update_new req_size gen fuel s
  let s2 ← if !is_new then gc_allocator_update_free req_size gen fuel s1 else pure s1
  pure (if !for_gc then gc_allocator_check_activate_collector s2 else s2)

/-- The body shared by the first two loops of `gc_allocator_do_refresh` at
the index `i`: a slice is moved from `gc_free_slices[i] + index` to the used
or new stack, and the sizes are updated when one was found. -/
def gc_allocator_do_refresh_take (fuel i gen : Nat) (for_gc : Bool) (s : gc_alloc_state) :
    Except gc_alloc_fault (Nat × gc_alloc_state) :=
  if i < SLICE_POWERS then
    let r := gc_allocator_alloc_slice .free (if !for_gc then .used else .fresh) i
      ((gen + UINT_RANGE - 1) % UINT_RANGE) s
    if r.1 ≠ 0 then do
      let size ← gc_slice_size_of_power i
      let s1 ← gc_allocator_update_sizes fuel size gen false for_gc r.2
      pure (r.1, s1)
    else pure r
  else .error (.slice_index i)

/-- The test `for_gc || gc_allocator_limit_check(0x1 << (i + MIN_SLICE_POWER))`. -/
def gc_allocator_do_refresh_allowed (i : Nat) (for_gc : Bool) (s : gc_alloc_state) :
    Except gc_alloc_fault Bool :=
  if for_gc then pure true
  else do
    let size ← gc_slice_size_of_power i
    pure (gc_allocator_limit_check size s)

/-- The first loop of `gc_allocator_do_refresh`, from the value `i` of its
counter on: `for(i = target_slice_power; i >= min_slice_power && NULL == slice;
i--)` with `i` unsigned.  The result is `slice`. -/
def gc_allocator_do_refresh_down (gen min_slice_power : Nat) (for_gc : Bool) :
    Nat → Nat → gc_alloc_state → Except gc_alloc_fault (Nat × gc_alloc_state)
  | 0, _, _ => .error .no_fuel
  | fuel + 1, i, s =>
    if i ≥ min_slice_power then do
      let ok ← gc_allocator_do_refresh_allowed i for_gc s
      let r ← if ok then gc_allocator_do_refresh_take (fuel + 1) i gen for_gc s else pure (0, s)
      let next := (i + UINT_RANGE - 1) % UINT_RANGE
      if r.1 ≠ 0 then pure r
      else gc_allocator_do_refresh_down gen min_slice_power for_gc fuel next r.2
    else pure (0, s)

/-- The second loop of `gc_allocator_do_refresh`, from the value `i` of its
counter on. -/
def gc_allocator_do_refresh_up (gen : Nat) (for_gc : Bool) :
    Nat → Nat → gc_alloc_state → Except gc_alloc_fault (Nat × gc_alloc_state)
  | 0, _, _ => .error .no_fuel
  | fuel + 1, i, s =>
    if i < SLICE_POWERS then do
      let ok ← gc_allocator_do_refresh_allowed i for_gc s
      if ok then do
        let r ← gc_allocator_do_refresh_take (fuel + 1) i gen for_gc s
        if r.1 ≠ 0 then pure r
        else gc_allocator_do_refresh_up gen for_gc fuel ((i + 1) % UINT_RANGE) r.2
      else pure (0, s)
    else pure (0, s)
/-- The third loop of `gc_allocator_do_refresh`, from the value `i` of its
counter on: a slice of the size `0x1 << (i + MIN_SLICE_POWER)` is requested
from the slice manager and pushed on `gc_used_slices[i] + index` for `for_gc`,
on `gc_new_slices[i] + index` otherwise. -/
def gc_allocator_do_refresh_fresh (gen min_slice_power : Nat) (for_gc : Bool) :
    Nat → Nat → gc_alloc_state → Except gc_alloc_fault (Nat × gc_alloc_state)
  | 0, _, _ => .error .no_fuel
  | fuel + 1, i, s =>
    if i ≥ min_slice_power then do
      let size ← gc_slice_size_of_power i
      let next := (i + UINT_RANGE - 1) % UINT_RANGE
      match slice_alloc (fuel + 1) SLICE_TYPE_GC SLICE_PROT_RWX size s.sl with
      | none => .error .no_fuel
      | some a =>
        let s1 := { s with sl := a.2 }
        if a.1 ≠ 0 then
          if i < SLICE_POWERS then do
            let dst : gc_slice_table := if for_gc then .used else .fresh
            let index := (gen + UINT_RANGE - 1) % UINT_RANGE
            let dst_value := gc_slice_table_get s1 dst i index
            let s2 := { s1 with
              sl := set_slice s1.sl a.1 { s1.sl.slices a.1 with s_next := dst_value } }
            let s3 := gc_slice_table_set s2 dst i index a.1
            let s4 ← gc_allocator_update_sizes (fuel + 1) size gen true for_gc s3
            pure (a.1, s4)
          else .error (.slice_index i)
        else gc_allocator_do_refresh_fresh gen min_slice_power for_gc fuel next s1
    else pure (0, s)

/-- `gc_allocator_do_refresh(allocator, min, target, gen, for_gc)`: the result
and the two words of the allocator.  The source states `INVARIANT(gen != 0)`
and `INVARIANT(min <= target)`. -/
def gc_allocator_do_refresh (fuel : Nat) (allocator : Nat × Nat) (min target gen : Nat)
    (for_gc : Bool) (s : gc_alloc_state) :
    Except gc_alloc_fault (Bool × (Nat × Nat) × gc_alloc_state) := do
  let min_raw_power ← bitscan_high min
  let target_raw_power ← bitscan_high target
  let min_slice_power :=
    if min_raw_power > MIN_SLICE_POWER then min_raw_power - MIN_SLICE_POWER else 0
  let target_slice_power :=
    if target_raw_power > MIN_SLICE_POWER then target_raw_power - MIN_SLICE_POWER else 0
  let r1 ← gc_allocator_do_refresh_down gen min_slice_power for_gc fuel target_slice_power s
  let r2 ← if r1.1 = 0 then
      gc_allocator_do_refresh_up gen for_gc fuel ((min_slice_power + 1) % UINT_RANGE) r1.2
    else pure r1
  let r3 ← if r2.1 = 0 then
      gc_allocator_do_refresh_fresh gen min_slice_power for_gc fuel target_slice_power r2.2
    else pure r2
  if r3.1 ≠ 0 then
    let slice := r3.2.sl.slices r3.1
    pure (true, (slice.s_ptr, (slice.s_ptr + slice.s_size) % UINT_RANGE), r3.2)
  else pure (false, allocator, r3.2)

/-- `gc_allocator_refresh(allocator, min, target, gen)`. -/
def gc_allocator_refresh (fuel : Nat) (allocator : Nat × Nat) (min target gen : Nat)
    (s : gc_alloc_state) : Except gc_alloc_fault (Bool × (Nat × Nat) × gc_alloc_state) :=
  gc_allocator_do_refresh fuel allocator min target gen false s

/-- `get_target_size(min)`. -/
def get_target_size (min : Nat) : Nat :=
  let max_size := (1 <<< MAX_SLICE_POWER) % UINT_RANGE
  let min_size := (1 <<< MIN_SLICE_POWER) % UINT_RANGE
  let default_size := (min * 8) % UINT_RANGE
  if max_size / 8 > min then
    if min_size < default_size then default_size else min_size
  else max_size

/-- The allocator state at start-up: every stack of slices empty, every
counter zero, three generations, the counter arrays at the addresses
`0x9000`, `0x9100` and `0x9200`, the collector inactive, the slice manager
without limits, the hard ratio respected and the soft ratio not reached. -/
def gc_alloc_state_boot : gc_alloc_state :=
  { sl := slice_state_unlimited,
    gc_used_slices := fun _ _ => 0, gc_free_slices := fun _ _ => 0,
    gc_new_slices := fun _ _ => 0, words := fun _ => 0,
    gc_used_space := 0x9000, gc_free_space := 0x9100, gc_new_space := 0x9200,
    gc_num_generations := 3, gc_state := 0,
    GC_STATE_INACTIVE := 0, GC_STATE_PHASE := 0x700, GC_STATE_INITIAL := 0x100,
    hard_ratio_reached := fun _ _ => true, soft_ratio_reached := fun _ _ => false }

/-- What a run of `gc_allocator_do_refresh` returns: the result and the
allocator. -/
def gc_refresh_view (r : Except gc_alloc_fault (Bool × (Nat × Nat) × gc_alloc_state)) :
    Except gc_alloc_fault (Bool × Nat × Nat) :=
  r.map (fun x => (x.1, x.2.1.1, x.2.1.2))

/-- Executor `exec` activates the threads of a list in turn
(`scheduler_activate_thread(thread, exec)` for each): the return values, or
the fault that ended the run. -/
def scheduler_activate_all (fuel exec : Nat) :
    List Nat → cc_state → Except lf_fault (List Bool × cc_state)
  | [], s => .ok ([], s)
  | t :: ts, s => do
    let r ← scheduler_activate_thread fuel t exec s
    let rs ← scheduler_activate_all fuel exec ts r.2
    pure (r.1 :: rs.1, rs.2)

/-- What a run of activations leaves behind: the return values, the content
of the workshare, and the status words of the threads `0x2001` and `0x2007`. -/
def scheduler_activate_view (r : Except lf_fault (List Bool × cc_state)) :
    Except lf_fault (List Bool × List Nat × Nat × Nat) :=
  r.map fun x => (x.1, lf_thread_queue_content x.2.sched_workshare 64 x.2.sched_workshare.lf_head,
    x.2.t_sched_stat_ref 0x2001, x.2.t_sched_stat_ref 0x2007)

/-- Two executors after a burst of work: executor 0 runs thread `7` and has
activated six threads, which executor 1 has taken from the workshare one by
one; executor 1 is idle again (no current thread, empty mailbox) and the
workshare is empty.  Every thread is suspended and unreferenced (the six
have run and suspended themselves). -/
def cc_state_after_burst : cc_state :=
  { cc_state_example with
    sched_workshare :=
      match lf_thread_queue_dequeue_all 64 1 6
        (lf_thread_queue_with 0 [0x2001, 0x2002, 0x2003, 0x2004, 0x2005, 0x2006]
          cc_state_example.sched_workshare) with
      | .ok r => r.2
      | .error _ => cc_state_example.sched_workshare }

/-- What one activation leaves behind: the return value, the executor table
and the wake-up signals sent. -/
def scheduler_wake_view (r : Except lf_fault (Bool × cc_state)) :
    Except lf_fault (Bool × List executor_t × List Nat) :=
  r.map fun x => (x.1, x.2.executors, x.2.os_signals)

/-- What `malloc_lf` leaves of a superblock it has just installed for the
procheap `heap` (descriptor `malloc_boot_desc.1`): the pointer returned and
`des_maxcount`; avail, credits and state of the anchor; the credits of the
active word. -/
def malloc_new_sb_view (r : Option (Nat × malloc_state)) (heap : Nat) :
    Option ((Nat × Nat) × (Nat × Nat × Nat) × Nat) :=
  r.map fun x =>
    ((x.1, (x.2.descs malloc_boot_desc.1).des_maxcount),
     (anchor_get_avail (x.2.descs malloc_boot_desc.1).des_anchor,
      anchor_get_credits (x.2.descs malloc_boot_desc.1).des_anchor,
      anchor_get_state (x.2.descs malloc_boot_desc.1).des_anchor),
     active_get_credits (x.2.procheaps heap).ph_active)

/-! ## Theorems -/

theorem retry_loop_first {σ α : Type} (body : σ → Option α × σ) (fuel : Nat) (s : σ) (a : α)
    (h : (body s).1 = some a) : retry_loop body (fuel + 1) s = some (a, (body s).2) := by
  unfold retry_loop
  rcases hb : body s with ⟨o, s'⟩
  rw [hb] at h
  simp only at h
  subst h
  rfl

theorem executor_try_wakeup_fields (s : cc_state) (i : Nat) (ex : executor_t) :
    (executor_try_wakeup s i ex).2.t_sched_stat_ref = s.t_sched_stat_ref ∧
    (executor_try_wakeup s i ex).2.sched_workshare = s.sched_workshare ∧
    (executor_try_wakeup s i ex).2.sched_active_threads = s.sched_active_threads := by
  unfold executor_try_wakeup atomic_compare_and_set_uint
  by_cases h : ex.sch_curr_thread = 0 ∧ ex.ex_signal_mbox &&& s.EX_SIGNAL_SCHEDULE = 0
  · simp [h]
  · simp [h]

theorem executor_restart_idle_from_fields (n : Nat) : ∀ (i : Nat) (s : cc_state),
    (executor_restart_idle_from s i n).t_sched_stat_ref = s.t_sched_stat_ref ∧
    (executor_restart_idle_from s i n).sched_workshare = s.sched_workshare ∧
    (executor_restart_idle_from s i n).sched_active_threads = s.sched_active_threads := by
  induction n with
  | zero => intro i s; simp [executor_restart_idle_from]
  | succ n ih =>
    intro i s
    unfold executor_restart_idle_from
    cases hget : s.executors.get? i with
    | none => simp
    | some ex =>
      have hw := executor_try_wakeup_fields s i ex
      by_cases h1 : (executor_try_wakeup s i ex).1 = 1
      · simp only [h1, if_true]
        exact hw
      · simp only [h1, if_false]
        obtain ⟨k1, k2, k3⟩ := ih (i + 1) (executor_try_wakeup s i ex).2
        exact ⟨k1.trans hw.1, k2.trans hw.2.1, k3.trans hw.2.2⟩

theorem scheduler_try_activate_thread_referenced (s : cc_state) (fuel thread exec : Nat)
    (hT : T_STAT_TERM ≠ s.t_sched_stat_ref thread &&& T_STAT_MASK)
    (hD : T_STAT_DEAD ≠ s.t_sched_stat_ref thread &&& T_STAT_MASK)
    (hX : T_STAT_DESTROY ≠ s.t_sched_stat_ref thread &&& T_STAT_MASK)
    (href : ¬ (s.t_sched_stat_ref thread &&& T_REF = 0)) :
    ∃ s1, scheduler_try_activate_thread fuel thread exec s = .ok (1, s1) ∧
      s1.t_sched_stat_ref thread = (T_STAT_RUNNABLE ||| T_REF) ∧
      s1.sched_workshare = s.sched_workshare := by
  unfold scheduler_try_activate_thread atomic_compare_and_set_uint
  simp only [hT, hD, hX, href, ne_eq, not_false_eq_true, and_self, if_true, if_false]
  split
  · exact ⟨_, rfl, by simp [set_stat_ref], rfl⟩
  · exact ⟨_, rfl, by simp [set_stat_ref], rfl⟩

theorem scheduler_try_activate_thread_unreferenced (s : cc_state) (fuel thread exec : Nat)
    (e : Bool × lf_thread_queue_t)
    (hT : T_STAT_TERM ≠ s.t_sched_stat_ref thread &&& T_STAT_MASK)
    (hD : T_STAT_DEAD ≠ s.t_sched_stat_ref thread &&& T_STAT_MASK)
    (hX : T_STAT_DESTROY ≠ s.t_sched_stat_ref thread &&& T_STAT_MASK)
    (href : s.t_sched_stat_ref thread &&& T_REF = 0)
    (henq : lf_thread_queue_enqueue fuel s.sched_workshare thread exec = .ok e) :
    ∃ s3 : cc_state, s3.executors = s.executors ∧ s3.os_signals = s.os_signals ∧
      s3.EX_SIGNAL_SCHEDULE = s.EX_SIGNAL_SCHEDULE ∧ s3.sched_workshare = e.2 ∧
      s3.t_sched_stat_ref thread = (T_STAT_RUNNABLE ||| T_REF) ∧
      scheduler_try_activate_thread fuel thread exec s = .ok (1, executor_restart_idle s3) := by
  unfold scheduler_try_activate_thread atomic_compare_and_set_uint
  simp only [hT, hD, hX, href, ne_eq, not_false_eq_true, and_self, if_true]
  split
  · have hq : lf_thread_queue_enqueue fuel
        ({ set_stat_ref s thread (T_STAT_RUNNABLE ||| T_REF) with
            sched_active_threads := atomic_increment_uint
              (set_stat_ref s thread (T_STAT_RUNNABLE ||| T_REF)).sched_active_threads } :
          cc_state).sched_workshare thread exec = .ok e := henq
    rw [hq]
    exact ⟨{ ({ set_stat_ref s thread (T_STAT_RUNNABLE ||| T_REF) with
          sched_active_threads := atomic_increment_uint
            (set_stat_ref s thread (T_STAT_RUNNABLE ||| T_REF)).sched_active_threads } :
        cc_state) with sched_workshare := e.2 },
      rfl, rfl, rfl, rfl, by simp [set_stat_ref], rfl⟩
  · have hq : lf_thread_queue_enqueue fuel
        (set_stat_ref s thread (T_STAT_RUNNABLE ||| T_REF)).sched_workshare thread exec
          = .ok e := henq
    rw [hq]
    exact ⟨{ set_stat_ref s thread (T_STAT_RUNNABLE ||| T_REF) with sched_workshare := e.2 },
      rfl, rfl, rfl, rfl, by simp [set_stat_ref], rfl⟩

/-- When the enqueue of an unreferenced thread faults, so does the activation:
the fault comes after the status word and the counter were written and
before `executor_restart_idle()`. -/
theorem scheduler_try_activate_thread_enqueue_fault (s : cc_state) (fuel thread exec : Nat)
    (f : lf_fault)
    (hT : T_STAT_TERM ≠ s.t_sched_stat_ref thread &&& T_STAT_MASK)
    (hD : T_STAT_DEAD ≠ s.t_sched_stat_ref thread &&& T_STAT_MASK)
    (hX : T_STAT_DESTROY ≠ s.t_sched_stat_ref thread &&& T_STAT_MASK)
    (href : s.t_sched_stat_ref thread &&& T_REF = 0)
    (henq : lf_thread_queue_enqueue fuel s.sched_workshare thread exec = .error f) :
    scheduler_try_activate_thread fuel thread exec s = .error f := by
  unfold scheduler_try_activate_thread atomic_compare_and_set_uint
  simp only [hT, hD, hX, href, ne_eq, not_false_eq_true, and_self, if_true]
  split
  · have hq : lf_thread_queue_enqueue fuel
        ({ set_stat_ref s thread (T_STAT_RUNNABLE ||| T_REF) with
            sched_active_threads := atomic_increment_uint
              (set_stat_ref s thread (T_STAT_RUNNABLE ||| T_REF)).sched_active_threads } :
          cc_state).sched_workshare thread exec = .error f := henq
    rw [hq]
    rfl
  · have hq : lf_thread_queue_enqueue fuel
        (set_stat_ref s thread (T_STAT_RUNNABLE ||| T_REF)).sched_workshare thread exec
          = .error f := henq
    rw [hq]
    rfl

theorem scheduler_activate_thread_of_try (s s1 : cc_state) (fuel thread exec : Nat)
    (h : scheduler_try_activate_thread (fuel + 1) thread exec s = .ok (1, s1)) :
    scheduler_activate_thread (fuel + 1) thread exec s = .ok (true, s1) := by
  unfold scheduler_activate_thread
  rw [h]
  rfl

/-- Whenever the enqueue returns, activating a live
thread returns true with the status word `T_STAT_RUNNABLE | T_REF`; the
workshare is what `lf_thread_queue_enqueue` made of it when the reference
flag was clear. -/
theorem scheduler_activate_thread_enqueued (s : cc_state) (fuel thread exec : Nat)
    (e : Bool × lf_thread_queue_t)
    (hT : T_STAT_TERM ≠ s.t_sched_stat_ref thread &&& T_STAT_MASK)
    (hD : T_STAT_DEAD ≠ s.t_sched_stat_ref thread &&& T_STAT_MASK)
    (hX : T_STAT_DESTROY ≠ s.t_sched_stat_ref thread &&& T_STAT_MASK)
    (href : s.t_sched_stat_ref thread &&& T_REF = 0)
    (henq : lf_thread_queue_enqueue (fuel + 1) s.sched_workshare thread exec = .ok e) :
    ∃ s1, scheduler_activate_thread (fuel + 1) thread exec s = .ok (true, s1) ∧
      s1.t_sched_stat_ref thread = (T_STAT_RUNNABLE ||| T_REF) ∧
      s1.sched_workshare = e.2 := by
  obtain ⟨s3, _, _, _, hw, hs, h⟩ :=
    scheduler_try_activate_thread_unreferenced s (fuel + 1) thread exec e hT hD hX href henq
  refine ⟨_, scheduler_activate_thread_of_try s _ fuel thread exec h, ?_, ?_⟩
  · unfold executor_restart_idle
    rw [(executor_restart_idle_from_fields _ _ _).1]
    exact hs
  · unfold executor_restart_idle
    rw [(executor_restart_idle_from_fields _ _ _).2.1]
    exact hw

/-- For a thread whose reference flag is set, any number of
activations returns with the status word `T_STAT_RUNNABLE | T_REF` and the
workshare untouched. -/
theorem activate_times_referenced (fuel thread exec : Nat) (n : Nat) : ∀ (s : cc_state),
    T_STAT_TERM ≠ s.t_sched_stat_ref thread &&& T_STAT_MASK →
    T_STAT_DEAD ≠ s.t_sched_stat_ref thread &&& T_STAT_MASK →
    T_STAT_DESTROY ≠ s.t_sched_stat_ref thread &&& T_STAT_MASK →
    ¬ (s.t_sched_stat_ref thread &&& T_REF = 0) →
    ∃ sn, activate_times (fuel + 1) thread exec (n + 1) s = .ok sn ∧
      sn.t_sched_stat_ref thread = (T_STAT_RUNNABLE ||| T_REF) ∧
      sn.sched_workshare = s.sched_workshare := by
  induction n with
  | zero =>
    intro s hT hD hX href
    obtain ⟨s1, h1, h2, h3⟩ :=
      scheduler_try_activate_thread_referenced s (fuel + 1) thread exec hT hD hX href
    refine ⟨s1, ?_, h2, h3⟩
    unfold activate_times
    rw [scheduler_activate_thread_of_try s s1 fuel thread exec h1]
    rfl
  | succ n ih =>
    intro s hT hD hX href
    obtain ⟨s1, h1, h2, h3⟩ :=
      scheduler_try_activate_thread_referenced s (fuel + 1) thread exec hT hD hX href
    obtain ⟨sn, k1, k2, k3⟩ := ih s1 (by rw [h2]; decide) (by rw [h2]; decide)
      (by rw [h2]; decide) (by rw [h2]; decide)
    refine ⟨sn, ?_, k2, k3.trans h3⟩
    unfold activate_times
    rw [scheduler_activate_thread_of_try s s1 fuel thread exec h1]
    exact k1

/-- C1: on the workshare that `scheduler_start` makes for two executors,
executor 0 activates the suspended, unreferenced threads `0x2001` to
`0x2006`: each call returns true and the workshare holds each thread once;
three activations of `0x2001` in a row put it on the workshare once.  The
activation of a seventh unreferenced thread, `0x2007`, does not return: the
private node list of executor 0 has fallen below the lower bound of the
allocator, the shared list is empty, and `lf_thread_queue_enqueue` writes
through the `NULL` it gets for a node, so the thread is not enqueued. -/
theorem scheduler_activate_thread_seventh_faults :
    scheduler_activate_view (scheduler_activate_all 2 0
        [0x2001, 0x2002, 0x2003, 0x2004, 0x2005, 0x2006] cc_state_example) =
      .ok ([true, true, true, true, true, true],
        [0x2001, 0x2002, 0x2003, 0x2004, 0x2005, 0x2006],
        T_STAT_RUNNABLE ||| T_REF, T_STAT_SUSPENDED) ∧
    scheduler_activate_view (scheduler_activate_all 2 0 [0x2001, 0x2001, 0x2001]
        cc_state_example) =
      .ok ([true, true, true], [0x2001], T_STAT_RUNNABLE ||| T_REF, T_STAT_SUSPENDED) ∧
    scheduler_activate_view (scheduler_activate_all 2 0
        [0x2001, 0x2002, 0x2003, 0x2004, 0x2005, 0x2006, 0x2007] cc_state_example) =
      .error .null_deref := by
  decide!

theorem slice_reserve_total_space_loop_spec (size k : Nat) (failures : Nat) (s : slice_state) :
    slice_reserve_total_space_loop size (k + 4) failures s =
      some (if (s.total_size + size) % UINT_RANGE ≥ s.total_limit
        then (true, { s with total_size := (s.total_size + size) % UINT_RANGE })
        else (false, s)) := by
  by_cases hc : (s.total_size + size) % UINT_RANGE ≥ s.total_limit
  · simp [slice_reserve_total_space_loop, atomic_compare_and_set_uint, hc]
  · have h3 : ∀ (j f : Nat), 3 ≤ j + f + 1 → f < UINT_RANGE - 1 →
        slice_reserve_total_space_loop size (j + 1) f s = some (false, s) := by
      intro j
      induction j with
      | zero =>
        intro f hf hlt
        have : (f + 1) % UINT_RANGE = f + 1 := Nat.mod_eq_of_lt (by omega)
        simp [slice_reserve_total_space_loop, hc, this]
        omega
      | succ j ih =>
        intro f hf hlt
        have hm : (f + 1) % UINT_RANGE = f + 1 := Nat.mod_eq_of_lt (by omega)
        unfold slice_reserve_total_space_loop
        simp only [hc, if_false, hm]
        by_cases h : f + 1 ≥ 3
        · simp [h]
        · simp only [h, if_false]
          exact ih (f + 1) (by omega) (by simp [UINT_RANGE] at hlt ⊢; omega)
    unfold slice_reserve_total_space_loop
    simp only [hc, if_false]
    by_cases h : (failures + 1) % UINT_RANGE ≥ 3
    · simp [h]
    · simp only [h, if_false]
      exact h3 (k + 2) _ (by omega) (by simp [UINT_RANGE] at h ⊢; omega)

theorem slice_reserve_gc_space_spec (size k : Nat) (s : slice_state) :
    slice_reserve_gc_space size (k + 1) s =
      some (if (s.gc_size + size) % UINT_RANGE ≥ s.gc_limit
        then (true, { s with gc_size := (s.gc_size + size) % UINT_RANGE })
        else (false, s)) := by
  by_cases hc : (s.gc_size + size) % UINT_RANGE ≥ s.gc_limit <;>
    simp [slice_reserve_gc_space, atomic_compare_and_set_uint, hc]

theorem slice_reserve_malloc_space_spec (size k : Nat) (s : slice_state) :
    slice_reserve_malloc_space size (k + 1) s =
      some (if (s.malloc_size + size) % UINT_RANGE ≥ s.malloc_limit
        then (true, { s with malloc_size := (s.malloc_size + size) % UINT_RANGE })
        else (false, s)) := by
  by_cases hc : (s.malloc_size + size) % UINT_RANGE ≥ s.malloc_limit <;>
    simp [slice_reserve_malloc_space, atomic_compare_and_set_uint, hc]

theorem slice_release_total_space_spec (size k : Nat) (s : slice_state) :
    slice_release_total_space (k + 1) size s =
      some { s with total_size := (s.total_size + UINT_RANGE - size) % UINT_RANGE } := by
  unfold slice_release_total_space
  rw [retry_loop_first _ k s () (by simp [slice_try_release_total_space,
    atomic_compare_and_set_uint])]
  simp [slice_try_release_total_space, atomic_compare_and_set_uint]

theorem uint_add_sub_cancel (t size : Nat) (ht : t < UINT_RANGE) (hs : size < UINT_RANGE) :
    ((t + size) % UINT_RANGE + UINT_RANGE - size) % UINT_RANGE = t := by
  simp only [UINT_RANGE] at *
  omega

/-- C4: `slice_reserve_space(size, type)` returns (fuel for four loop rounds
is enough), and either returns true with the total counter and, for the GC or
MALLOC type, that type's counter replaced by `counter + size` in 32-bit
unsigned arithmetic and the other counters as they were, or returns false
with `total_size`, `gc_size` and `malloc_size` all as before the call.  A
counter that does not wrap around is increased by exactly `size`. -/
theorem slice_reserve_space_all_or_nothing (fuel size type : Nat) (s : slice_state)
    (hs : size < UINT_RANGE) (ht : s.total_size < UINT_RANGE) :
    ∃ b s', slice_reserve_space (fuel + 4) size type s = some (b, s') ∧
      (b = true →
        s'.total_size = (s.total_size + size) % UINT_RANGE ∧
        s'.gc_size = (if type = SLICE_TYPE_GC then (s.gc_size + size) % UINT_RANGE
          else s.gc_size) ∧
        s'.malloc_size = (if type = SLICE_TYPE_MALLOC then (s.malloc_size + size) % UINT_RANGE
          else s.malloc_size) ∧
        (s.total_size + size < UINT_RANGE → s'.total_size = s.total_size + size) ∧
        (type = SLICE_TYPE_GC → s.gc_size + size < UINT_RANGE →
          s'.gc_size = s.gc_size + size) ∧
        (type = SLICE_TYPE_MALLOC → s.malloc_size + size < UINT_RANGE →
          s'.malloc_size = s.malloc_size + size)) ∧
      (b = false →
        s'.total_size = s.total_size ∧ s'.gc_size = s.gc_size ∧
        s'.malloc_size = s.malloc_size) := by
  have key : ∃ b s', slice_reserve_space (fuel + 4) size type s = some (b, s') ∧
      (b = true →
        s'.total_size = (s.total_size + size) % UINT_RANGE ∧
        s'.gc_size = (if type = SLICE_TYPE_GC then (s.gc_size + size) % UINT_RANGE
          else s.gc_size) ∧
        s'.malloc_size = (if type = SLICE_TYPE_MALLOC then (s.malloc_size + size) % UINT_RANGE
          else s.malloc_size)) ∧
      (b = false →
        s'.total_size = s.total_size ∧ s'.gc_size = s.gc_size ∧
        s'.malloc_size = s.malloc_size) := by
    unfold slice_reserve_space slice_reserve_total_space
    rw [slice_reserve_total_space_loop_spec]
    by_cases hc : (s.total_size + size) % UINT_RANGE ≥ s.total_limit
    · simp only [hc, if_true]
      by_cases hg : type = SLICE_TYPE_GC
      · simp only [hg, if_true]
        rw [slice_reserve_gc_space_spec size (fuel + 3)]
        by_cases hk : (s.gc_size + size) % UINT_RANGE ≥ s.gc_limit
        · simp [hk, SLICE_TYPE_GC, SLICE_TYPE_MALLOC]
        · simp only [show ¬ ((s.gc_size + size) % UINT_RANGE ≥ s.gc_limit) from hk, if_false]
          rw [slice_release_total_space_spec size (fuel + 3)]
          simp [uint_add_sub_cancel _ _ ht hs]
      · simp only [hg, if_false]
        by_cases hm : type = SLICE_TYPE_MALLOC
        · simp only [hm, if_true]
          rw [slice_reserve_malloc_space_spec size (fuel + 3)]
          by_cases hk : (s.malloc_size + size) % UINT_RANGE ≥ s.malloc_limit
          · simp [hk, SLICE_TYPE_GC, SLICE_TYPE_MALLOC]
          · simp only [show ¬ ((s.malloc_size + size) % UINT_RANGE ≥ s.malloc_limit) from hk,
              if_false]
            rw [slice_release_total_space_spec size (fuel + 3)]
            simp [uint_add_sub_cancel _ _ ht hs]
        · simp [hm]
    · simp [hc]
  obtain ⟨b, s', h1, h2, h3⟩ := key
  refine ⟨b, s', h1, fun hb => ?_, h3⟩
  obtain ⟨k1, k2, k3⟩ := h2 hb
  refine ⟨k1, k2, k3, fun h => ?_, fun hty h => ?_, fun hty h => ?_⟩
  · rw [k1, Nat.mod_eq_of_lt h]
  · rw [k2, if_pos hty, Nat.mod_eq_of_lt h]
  · rw [k3, if_pos hty, Nat.mod_eq_of_lt h]

theorem slice_reserve_space_all_or_nothing_witness :
    ∃ b s', slice_reserve_space 4 0x10000 SLICE_TYPE_MALLOC slice_state_unlimited =
        some (b, s') ∧
      (b = true →
        s'.total_size = (slice_state_unlimited.total_size + 0x10000) % UINT_RANGE ∧
        s'.gc_size = (if SLICE_TYPE_MALLOC = SLICE_TYPE_GC
          then (slice_state_unlimited.gc_size + 0x10000) % UINT_RANGE
          else slice_state_unlimited.gc_size) ∧
        s'.malloc_size = (if SLICE_TYPE_MALLOC = SLICE_TYPE_MALLOC
          then (slice_state_unlimited.malloc_size + 0x10000) % UINT_RANGE
          else slice_state_unlimited.malloc_size) ∧
        (slice_state_unlimited.total_size + 0x10000 < UINT_RANGE →
          s'.total_size = slice_state_unlimited.total_size + 0x10000) ∧
        (SLICE_TYPE_MALLOC = SLICE_TYPE_GC →
          slice_state_unlimited.gc_size + 0x10000 < UINT_RANGE →
          s'.gc_size = slice_state_unlimited.gc_size + 0x10000) ∧
        (SLICE_TYPE_MALLOC = SLICE_TYPE_MALLOC →
          slice_state_unlimited.malloc_size + 0x10000 < UINT_RANGE →
          s'.malloc_size = slice_state_unlimited.malloc_size + 0x10000)) ∧
      (b = false →
        s'.total_size = slice_state_unlimited.total_size ∧
        s'.gc_size = slice_state_unlimited.gc_size ∧
        s'.malloc_size = slice_state_unlimited.malloc_size) :=
  slice_reserve_space_all_or_nothing 0 0x10000 SLICE_TYPE_MALLOC slice_state_unlimited
    (by decide) (by decide!)

/-- C3 fails on the code: with a total and a MALLOC limit of `0x20000` and
nothing reserved, `slice_reserve_space(0x40000, SLICE_TYPE_MALLOC)` returns
true and leaves `total_size = malloc_size = 0x40000`, above both limits,
while `slice_reserve_space(0x1000, SLICE_TYPE_MALLOC)`, which stays within
both limits, returns false. -/
theorem slice_reserve_space_quota_inverted :
    slice_state_quota.total_limit = 0x20000 ∧ slice_state_quota.malloc_limit = 0x20000 ∧
    slice_state_quota.total_size = 0 ∧ slice_state_quota.malloc_size = 0 ∧
    (slice_reserve_space 4 0x40000 SLICE_TYPE_MALLOC slice_state_quota).map
      (fun r => (r.1, r.2.total_size, r.2.malloc_size)) = some (true, 0x40000, 0x40000) ∧
    (slice_reserve_space 4 0x1000 SLICE_TYPE_MALLOC slice_state_quota).map
      (fun r => (r.1, r.2.total_size, r.2.malloc_size)) = some (false, 0, 0) := by
  decide!

theorem retry_loop_unit_first {σ : Type} (f : σ → Bool × σ) (fuel : Nat) (s : σ)
    (h : (f s).1 = true) :
    (retry_loop (fun st => (if (f st).1 then some () else none, (f st).2)) (fuel + 1) s).map
      (fun r => r.2) = some (f s).2 := by
  rw [retry_loop_first _ fuel s () (by simp [h])]
  rfl

theorem slice_free_counters (fuel slice : Nat) (s s' : slice_state)
    (h : slice_free fuel slice s = some s') :
    s'.total_size = s.total_size ∧ s'.malloc_size = s.malloc_size ∧ s'.gc_size = s.gc_size := by
  cases fuel with
  | zero => simp [slice_free, slice_entry_free, retry_loop] at h
  | succ k =>
    unfold slice_free slice_entry_free at h
    rw [retry_loop_unit_first (slice_entry_try_free slice) k _
      (by simp [slice_entry_try_free, atomic_compare_and_set_uint, set_slice])] at h
    simp only [Option.some.injEq] at h
    subst h
    simp [slice_entry_try_free, set_slice, os_mem_unmap]

/-- C5 fails on the code: from the freshly initialised slice manager (no
limits, all counters `0`), `slice_alloc(SLICE_TYPE_MALLOC, SLICE_PROT_RWX,
0x10000)` returns the descriptor at `0x8000000` with `total_size =
malloc_size = 0x10000`; `slice_free` of that slice puts the descriptor back
at the head of the free list and unmaps the memory, but `total_size` and
`malloc_size` stay at `0x10000` instead of returning to `0`. -/
theorem slice_free_keeps_reservation :
    slice_state_unlimited.total_size = 0 ∧ slice_state_unlimited.malloc_size = 0 ∧
    slice_state_unlimited.slice_free_list = 0x8000000 ∧
    (slice_alloc 4 SLICE_TYPE_MALLOC SLICE_PROT_RWX 0x10000 slice_state_unlimited).map
      (fun r => (r.1, r.2.slice_free_list, r.2.total_size, r.2.malloc_size)) =
      some (0x8000000, 0x8000018, 0x10000, 0x10000) ∧
    (slice_alloc 4 SLICE_TYPE_MALLOC SLICE_PROT_RWX 0x10000 slice_state_unlimited).map
      (fun r => r.2.os_mapped) = some [(0x40000000, 0x10000)] ∧
    ((slice_alloc 4 SLICE_TYPE_MALLOC SLICE_PROT_RWX 0x10000 slice_state_unlimited).bind
      (fun r => slice_free 4 r.1 r.2)).map
      (fun s => (s.slice_free_list, s.total_size, s.malloc_size)) =
      some (0x8000000, 0x10000, 0x10000) ∧
    ((slice_alloc 4 SLICE_TYPE_MALLOC SLICE_PROT_RWX 0x10000 slice_state_unlimited).bind
      (fun r => slice_free 4 r.1 r.2)).map (fun s => s.os_mapped) = some [] := by
  decide!

/-! ### Allocator -/

/-- C6 fails on the code: in a runtime with two executors, two successive
`malloc_lf(0x3ee0, 0)` calls (neither block freed) return `0x40000020` and
`0x40000040`.  The full size `0x3f00` gets class index 32, one past the
table, so `find_heap` yields the procheap with index 32 from
`malloc_procheaps[0][0]`, which is executor 1's heap for class 0 with blocks
of `0x20` bytes; the byte ranges `[p, p + 0x3ee0)` of the two live blocks
overlap. -/
theorem malloc_lf_live_blocks_overlap :
    find_heap ((0x3ee0 + CACHE_LINE_SIZE) % UINT_RANGE) 0 = some 32 ∧
    (malloc_state_boot.procheaps 32).ph_sizeclass = 0 ∧
    (malloc_state_boot.sizeclasses 0).sc_size = 0x20 ∧
    (malloc_lf 3 0x3ee0 0 malloc_state_boot).map (fun r => r.1) = some 0x40000020 ∧
    ((malloc_lf 3 0x3ee0 0 malloc_state_boot).bind
      (fun r => malloc_lf 3 0x3ee0 0 r.2)).map (fun r => r.1) = some 0x40000040 ∧
    0x40000020 < 0x40000040 ∧ 0x40000040 < 0x40000020 + 0x3ee0 := by
  decide!

/-- C7 fails on the code: `malloc_lf(0x50000, 0)` returns the non-null
pointer `0x40000020`, and the slice obtained for it (descriptor at
`0x8000000`, memory at `0x40000000 = p - CACHE_LINE_SIZE`) was requested and
recorded with `0x101f` bytes, fewer than `CACHE_LINE_SIZE + 0x50000`. -/
theorem malloc_lf_oversize_slice_too_small :
    find_heap ((0x50000 + CACHE_LINE_SIZE) % UINT_RANGE) 0 = none ∧
    (malloc_lf 3 0x50000 0 malloc_state_boot).map (fun r => r.1) = some 0x40000020 ∧
    (malloc_lf 3 0x50000 0 malloc_state_boot).map
      (fun r => ((r.2.sl.slices 0x8000000).s_ptr, (r.2.sl.slices 0x8000000).s_size)) =
      some (0x40000000, 0x101f) ∧
    (malloc_lf 3 0x50000 0 malloc_state_boot).map (fun r => r.2.sl.os_mapped) =
      some [(0x40000000, 0x101f)] ∧
    0x101f < CACHE_LINE_SIZE + 0x50000 := by
  decide!

/-- C8 fails on the code: for `req_size = 0x4000` the full size `0x4020`
exceeds the top size class, yet `find_heap` does not return `NULL`: it calls
`malloc_size_class(0x4020)`, which yields index 32, and `malloc_lf` serves
the request from that procheap: no dedicated slice is mapped (the two
mappings are the superblock and the descriptor slice, `0x10000` bytes each)
and the prefix word of the block holds a descriptor address with low bit
`0`. -/
theorem find_heap_above_top_class :
    0x4000 < (0x4000 + CACHE_LINE_SIZE) % UINT_RANGE ∧
    malloc_sizeclasses_sc_size.getLast? = some 0x4000 ∧
    find_heap ((0x4000 + CACHE_LINE_SIZE) % UINT_RANGE) 0 = some 32 ∧
    malloc_size_class ((0x4000 + CACHE_LINE_SIZE) % UINT_RANGE) = 32 ∧
    (malloc_lf 3 0x4000 0 malloc_state_boot).map
      (fun r => (r.1, r.2.mem (r.1 - CACHE_LINE_SIZE), r.2.mem (r.1 - CACHE_LINE_SIZE) &&& 1)) =
      some (0x40000020, 0x4010ff80, 0) ∧
    (malloc_lf 3 0x4000 0 malloc_state_boot).map (fun r => r.2.sl.os_mapped) =
      some [(0x40100000, 0x10000), (0x40000000, 0x10000)] := by
  decide!

/-- C10 fails on the code for oversize blocks: `malloc_lf(0x50000, 0)` gets
the slice descriptor `0x8000000` from `slice_alloc` but writes
`s_ptr | 1 = 0x40000001` into the prefix word.  `free_lf` of the returned
pointer recovers `tag_ptr = 0x40000000`, the address of the mapped memory,
and hands that to `slice_free`, which pushes it on the descriptor free list:
afterwards the list starts at `0x40000000`, not at the descriptor
`0x8000000`. -/
theorem free_lf_oversize_wrong_owner :
    (slice_alloc 3 SLICE_TYPE_MALLOC SLICE_PROT_RWX 0x101f malloc_state_boot.sl).map
      (fun r => r.1) = some 0x8000000 ∧
    (malloc_lf 3 0x50000 0 malloc_state_boot).map
      (fun r => (r.1, r.2.mem (r.1 - CACHE_LINE_SIZE),
        r.2.mem (r.1 - CACHE_LINE_SIZE) &&& 0xfffffffe, r.2.sl.slice_free_list)) =
      some (0x40000020, 0x40000001, 0x40000000, 0x8000018) ∧
    ((malloc_lf 3 0x50000 0 malloc_state_boot).bind (fun r => free_lf 3 r.1 r.2)).map
      (fun s => s.sl.slice_free_list) = some 0x40000000 ∧
    (0x40000000 : Nat) ≠ 0x8000000 := by
  decide!

theorem try_alloc_loop_not_null (heap : Nat) : ∀ (fuel : Nat) (s : malloc_state),
    (try_alloc_loop heap fuel s).map (fun r => r.1) ≠ some 0 := by
  intro fuel
  induction fuel with
  | zero => intro s; simp [try_alloc_loop]
  | succ k ih =>
    intro s
    unfold try_alloc_loop
    cases h : try_alloc (k + 1) heap s with
    | none => simp
    | some a =>
      simp only [Option.some_bind]
      by_cases ha : a.1 ≠ 0
      · simp only [ha, not_false_eq_true, if_true, Option.map_some', ne_eq, Option.some.injEq]
      · simp only [ha, if_false]
        exact ih a.2

theorem try_alloc_nothing_available (heap : Nat) (s : malloc_state)
    (hact : active_get_ptr (s.procheaps heap).ph_active = 0)
    (hpart : procheap_t.ph_partial (s.procheaps heap) = 0)
    (hqueue : sizeclass_t.sc_partial (s.sizeclasses (s.procheaps heap).ph_sizeclass) = []) :
    ∀ f, try_alloc (f + 1) heap s = malloc_from_new_sb (f + 1) heap s := by
  intro f
  have h1 : malloc_from_active (f + 1) heap s = some (0, s) := by
    simp [malloc_from_active, reserve_from_active, hact]
  have h2 : heap_get_partial heap (f + 1) s = some (0, s) := by
    simp [ heap_get_partial, hpart, lf_block_queue_dequeue, hqueue]
  have h3 : malloc_from_partial_find heap (f + 1) s = some ((0, 0), s) := by
    simp [malloc_from_partial_find, h2]
  have h4 : malloc_from_partial (f + 1) heap s = some (0, s) := by
    simp [ malloc_from_partial, h3]
  simp [try_alloc, h1, h4]

theorem malloc_from_new_sb_refused (f heap : Nat) (s : malloc_state) (sl' : slice_state)
    (h : slice_alloc f SLICE_TYPE_MALLOC SLICE_PROT_RWX
      (s.sizeclasses (s.procheaps heap).ph_sizeclass).sc_block_size s.sl = some (0, sl')) :
    malloc_from_new_sb f heap s = some (0, { s with sl := sl' }) := by
  show (slice_alloc f SLICE_TYPE_MALLOC SLICE_PROT_RWX
    (s.sizeclasses (s.procheaps heap).ph_sizeclass).sc_block_size s.sl).bind _ = _
  rw [h]
  rfl

theorem malloc_from_new_sb_no_fuel (f heap : Nat) (s : malloc_state)
    (h : slice_alloc f SLICE_TYPE_MALLOC SLICE_PROT_RWX
      (s.sizeclasses (s.procheaps heap).ph_sizeclass).sc_block_size s.sl = none) :
    malloc_from_new_sb f heap s = none := by
  show (slice_alloc f SLICE_TYPE_MALLOC SLICE_PROT_RWX
    (s.sizeclasses (s.procheaps heap).ph_sizeclass).sc_block_size s.sl).bind _ = none
  rw [h]
  rfl

theorem try_alloc_loop_stuck (heap : Nat) (s : malloc_state) (I : slice_state → Prop)
    (hact : active_get_ptr (s.procheaps heap).ph_active = 0)
    (hpart : procheap_t.ph_partial (s.procheaps heap) = 0)
    (hqueue : sizeclass_t.sc_partial (s.sizeclasses (s.procheaps heap).ph_sizeclass) = [])
    (hI : ∀ f sl, I sl →
      slice_alloc f SLICE_TYPE_MALLOC SLICE_PROT_RWX
        (s.sizeclasses (s.procheaps heap).ph_sizeclass).sc_block_size sl = none ∨
      ∃ sl', slice_alloc f SLICE_TYPE_MALLOC SLICE_PROT_RWX
        (s.sizeclasses (s.procheaps heap).ph_sizeclass).sc_block_size sl = some (0, sl') ∧
        I sl') :
    ∀ (fuel : Nat) (sl : slice_state), I sl →
      try_alloc_loop heap fuel { s with sl := sl } = none := by
  intro fuel
  induction fuel with
  | zero => intro sl _; rfl
  | succ k ih =>
    intro sl hsl
    unfold try_alloc_loop
    rw [try_alloc_nothing_available heap { s with sl := sl } hact hpart hqueue k]
    rcases hI (k + 1) sl hsl with h | ⟨sl', h, hsl'⟩
    · rw [malloc_from_new_sb_no_fuel _ heap { s with sl := sl } h]; rfl
    · rw [malloc_from_new_sb_refused _ heap { s with sl := sl } sl' h]
      simpa using ih sl' hsl'

theorem slice_alloc_table_exhausted (size : Nat) : ∀ (f : Nat) (sl : slice_state),
    (sl.slice_free_list = 0 ∧ sl.total_limit = 0 ∧ sl.malloc_limit = 0) →
    slice_alloc f SLICE_TYPE_MALLOC SLICE_PROT_RWX size sl = none ∨
    ∃ sl', slice_alloc f SLICE_TYPE_MALLOC SLICE_PROT_RWX size sl = some (0, sl') ∧
      (sl'.slice_free_list = 0 ∧ sl'.total_limit = 0 ∧ sl'.malloc_limit = 0) := by
  intro f sl ⟨h1, h2, h3⟩
  cases f with
  | zero =>
    left
    simp [slice_alloc, slice_reserve_space, slice_reserve_total_space,
      slice_reserve_total_space_loop]
  | succ k =>
    right
    refine ⟨{ sl with total_size := (sl.total_size + size) % UINT_RANGE,
                      malloc_size := (sl.malloc_size + size) % UINT_RANGE }, ?_, h1, h2, h3⟩
    simp [slice_alloc, slice_reserve_space, slice_reserve_total_space,
      slice_reserve_total_space_loop, slice_reserve_malloc_space, atomic_compare_and_set_uint,
      h1, h2, h3, SLICE_TYPE_MALLOC, SLICE_TYPE_GC, slice_entry_alloc, retry_loop,
      slice_entry_try_alloc, slice_alloc_failed]

theorem malloc_lf_class_request (req_size exec heap : Nat) (hreq : 0 ≠ req_size)
    (hheap : find_heap ((req_size + CACHE_LINE_SIZE) % UINT_RANGE) exec = some heap) :
    ∀ fuel (t : malloc_state),
      malloc_lf fuel req_size exec t = try_alloc_loop heap fuel t := by
  intro fuel t
  simp [malloc_lf, hreq, hheap]

theorem malloc_state_exhausted_stuck :
    ∀ fuel, malloc_lf fuel 100 0 malloc_state_exhausted = none := by
  intro fuel
  rw [malloc_lf_class_request 100 0 4 (by decide) (by decide!)]
  exact try_alloc_loop_stuck 4 malloc_state_exhausted
    (fun sl => sl.slice_free_list = 0 ∧ sl.total_limit = 0 ∧ sl.malloc_limit = 0)
    (by decide!) (by decide!) (by decide!)
    (fun f sl hsl => slice_alloc_table_exhausted _ f sl hsl) fuel
    malloc_state_exhausted.sl ⟨by decide!, by decide!, by decide!⟩

/-- For a non-zero request that `find_heap` maps to a procheap
(a size-class request), `malloc_lf` never returns `NULL`.  When the
procheap's active word is empty and `heap_get_partial` finds no partial
superblock, a `slice_alloc` that cannot serve a new superblock makes
`try_alloc` return `NULL`, and `malloc_lf` then starts the next round from
the state so reached instead of returning; if `slice_alloc` keeps failing
(it fails in every slice-manager state satisfying `I`, and `I` holds again
afterwards), `malloc_lf` returns for no amount of fuel. -/
theorem malloc_lf_retries_instead_of_null (req_size exec heap : Nat) (s : malloc_state)
    (I : slice_state → Prop) (hreq : 0 ≠ req_size)
    (hheap : find_heap ((req_size + CACHE_LINE_SIZE) % UINT_RANGE) exec = some heap)
    (hact : active_get_ptr (s.procheaps heap).ph_active = 0)
    (hpart : procheap_t.ph_partial (s.procheaps heap) = 0)
    (hqueue : sizeclass_t.sc_partial (s.sizeclasses (s.procheaps heap).ph_sizeclass) = [])
    (hs : I s.sl)
    (hI : ∀ f sl, I sl →
      slice_alloc f SLICE_TYPE_MALLOC SLICE_PROT_RWX
        (s.sizeclasses (s.procheaps heap).ph_sizeclass).sc_block_size sl = none ∨
      ∃ sl', slice_alloc f SLICE_TYPE_MALLOC SLICE_PROT_RWX
        (s.sizeclasses (s.procheaps heap).ph_sizeclass).sc_block_size sl = some (0, sl') ∧
        I sl') :
    (∀ fuel (t : malloc_state), (malloc_lf fuel req_size exec t).map (fun r => r.1) ≠ some 0) ∧
    (∀ f sl', slice_alloc (f + 1) SLICE_TYPE_MALLOC SLICE_PROT_RWX
        (s.sizeclasses (s.procheaps heap).ph_sizeclass).sc_block_size s.sl = some (0, sl') →
      try_alloc (f + 1) heap s = some (0, { s with sl := sl' }) ∧
      malloc_lf (f + 1) req_size exec s = malloc_lf f req_size exec { s with sl := sl' }) ∧
    (∀ fuel, malloc_lf fuel req_size exec s = none) := by
  have hm := malloc_lf_class_request req_size exec heap hreq hheap
  have hta := try_alloc_nothing_available heap s hact hpart hqueue
  refine ⟨fun fuel t => by rw [hm]; exact try_alloc_loop_not_null heap fuel t, ?_, ?_⟩
  · intro f sl' hf
    have h1 : try_alloc (f + 1) heap s = some (0, { s with sl := sl' }) := by
      rw [hta f]; exact malloc_from_new_sb_refused _ heap s sl' hf
    refine ⟨h1, ?_⟩
    rw [hm, hm]
    show (try_alloc (f + 1) heap s).bind _ = _
    rw [h1]
    rfl
  · intro fuel
    rw [hm]
    exact try_alloc_loop_stuck heap s I hact hpart hqueue hI fuel s.sl hs

/-- C9 (fails in the code): in `malloc_state_exhausted` the procheap of executor
0 for a 100-byte request (class 4) has an empty active word and no partial
superblock, and `slice_alloc` cannot serve a new superblock (no slice
descriptor is free); `try_alloc` returns `NULL`, yet `malloc_lf(100, 0)` does
not terminate with `NULL`: no amount of fuel makes it return.  The loop
around `try_alloc` repeats for as long as the result is `NULL`, while the
path for requests above the size classes returns the `NULL` of a failed
`slice_alloc`. -/
theorem malloc_lf_does_not_return_null :
    find_heap ((100 + CACHE_LINE_SIZE) % UINT_RANGE) 0 = some 4 ∧
    active_get_ptr (malloc_state_exhausted.procheaps 4).ph_active = 0 ∧
    procheap_t.ph_partial (malloc_state_exhausted.procheaps 4) = 0 ∧
    sizeclass_t.sc_partial (malloc_state_exhausted.sizeclasses 4) = [] ∧
    (slice_alloc 50 SLICE_TYPE_MALLOC SLICE_PROT_RWX 0x10000 malloc_state_exhausted.sl).map
      (fun r => r.1) = some 0 ∧
    (try_alloc 50 4 malloc_state_exhausted).map (fun r => r.1) = some 0 ∧
    (¬ ∃ fuel, (malloc_lf fuel 100 0 malloc_state_exhausted).isSome = true) := by
  refine ⟨by decide!, by decide!, by decide!, by decide!, by decide!, by decide!, ?_⟩
  rintro ⟨fuel, h⟩
  rw [malloc_state_exhausted_stuck fuel] at h
  exact absurd h (by decide)

theorem malloc_lf_retries_instead_of_null_witness :
    (malloc_lf 50 100 0 malloc_state_boot).map (fun r => r.1) ≠ some 0 ∧
    malloc_lf 50 100 0 malloc_state_exhausted = none :=
  have h := malloc_lf_retries_instead_of_null 100 0 4 malloc_state_exhausted
    (fun sl => sl.slice_free_list = 0 ∧ sl.total_limit = 0 ∧ sl.malloc_limit = 0)
    (by decide) (by decide!) (by decide!) (by decide!) (by decide!)
    ⟨by decide!, by decide!, by decide!⟩
    (fun f sl hsl => slice_alloc_table_exhausted _ f sl hsl)
  ⟨h.1 50 malloc_state_boot, h.2.2 50⟩


/-! ### Thread queue -/

/-- C11 (fails in the code): on the queue made by `lf_thread_queue_init` for
`num = 3` threads and 2 executors, executor 0 enqueues three threads and every
call returns true; the dequeues that follow all return `NULL`, so none of the
three threads comes out.  The third enqueue takes its node from the shared
list, whose head `lf_thread_queue_init` set to the sentinel node. -/
theorem lf_thread_queue_fifo_lost :
    (lf_thread_queue_enqueue_all 2 0 [0x2001, 0x2002, 0x2003]
        (lf_thread_queue_init 0x1000 8 3 2 2)).map Prod.fst = .ok [true, true, true] ∧
    ((lf_thread_queue_enqueue_all 2 0 [0x2001, 0x2002, 0x2003]
        (lf_thread_queue_init 0x1000 8 3 2 2)).bind
      fun r => lf_thread_queue_dequeue_all 2 0 4 r.2).map Prod.fst = .ok [0, 0, 0, 0] ∧
    (lf_thread_queue_init 0x1000 8 3 2 2).qna_shared_list =
      (lf_thread_queue_init 0x1000 8 3 2 2).lf_head := by
  decide!

/-- C12 (fails in the code): after `lf_thread_queue_init(mem, 32, 2)` the
first six enqueues of executor 0 return true and the seventh dereferences
`NULL`: the private count has fallen below the lower bound 17,
`lf_thread_queue_node_alloc_balance` pulls from the empty shared list and
writes through the `NULL` it gets. -/
theorem lf_thread_queue_enqueue_seventh_faults :
    (lf_thread_queue_init 0x1000 8 32 2 2).qna_shared_list = 0 ∧
    lf_thread_queue_allocator_lower_bound (lf_thread_queue_init 0x1000 8 32 2 2) = 17 ∧
    (lf_thread_queue_enqueue_all 2 0 [0x2001, 0x2002, 0x2003, 0x2004, 0x2005, 0x2006]
        (lf_thread_queue_init 0x1000 8 32 2 2)).map Prod.fst
      = .ok [true, true, true, true, true, true] ∧
    (lf_thread_queue_enqueue_all 2 0
        [0x2001, 0x2002, 0x2003, 0x2004, 0x2005, 0x2006, 0x2007]
        (lf_thread_queue_init 0x1000 8 32 2 2)).map Prod.fst = .error .null_deref := by
  decide!


/-! ### Waking one idle executor -/

theorem executor_try_wakeup_idle (s : cc_state) (i : Nat) (ex : executor_t)
    (h : executor_wakeup_test s ex) :
    executor_try_wakeup s i ex =
      (1, { s with executors := s.executors.set i (executor_with_schedule s ex),
                   os_signals := s.os_signals ++ [i] }) := by
  unfold executor_wakeup_test at h
  unfold executor_try_wakeup atomic_compare_and_set_uint executor_with_schedule
  simp [h]

theorem executor_try_wakeup_busy (s : cc_state) (i : Nat) (ex : executor_t)
    (h : ¬ executor_wakeup_test s ex) : executor_try_wakeup s i ex = (-1, s) := by
  unfold executor_wakeup_test at h
  unfold executor_try_wakeup
  simp [h]

theorem executor_restart_idle_from_none (n : Nat) : ∀ (i : Nat) (s : cc_state),
    (∀ j ex, i ≤ j → s.executors.get? j = some ex → ¬ executor_wakeup_test s ex) →
    executor_restart_idle_from s i n = s := by
  induction n with
  | zero => intro i s _; rfl
  | succ n ih =>
    intro i s h
    unfold executor_restart_idle_from
    cases hget : s.executors.get? i with
    | none => rfl
    | some ex =>
      simp only [executor_try_wakeup_busy s i ex (h i ex (le_refl i) hget)]
      rw [if_neg (by decide)]
      exact ih (i + 1) s (fun j exj hj => h j exj (by omega))

theorem executor_restart_idle_from_first (n : Nat) : ∀ (i : Nat) (s : cc_state) (k : Nat)
    (ex : executor_t), i ≤ k → k < i + n → s.executors.get? k = some ex →
    executor_wakeup_test s ex →
    (∀ j exj, i ≤ j → j < k → s.executors.get? j = some exj → ¬ executor_wakeup_test s exj) →
    executor_restart_idle_from s i n =
      { s with executors := s.executors.set k (executor_with_schedule s ex),
               os_signals := s.os_signals ++ [k] } := by
  induction n with
  | zero => intro i s k ex h1 h2; omega
  | succ n ih =>
    intro i s k ex hik hk hget hidle hmin
    unfold executor_restart_idle_from
    by_cases hi : i = k
    · subst hi
      simp only [hget, executor_try_wakeup_idle s i ex hidle, if_true]
    · have hlt : i < k := by omega
      have hklen : k < s.executors.length := by
        rcases List.get?_eq_some.mp hget with ⟨hl, _⟩
        exact hl
      have hilen : i < s.executors.length := by omega
      have hgi : s.executors.get? i = some (s.executors.get ⟨i, hilen⟩) :=
        List.get?_eq_get hilen
      simp only [hgi, executor_try_wakeup_busy s i _ (hmin i _ (le_refl i) hlt hgi)]
      rw [if_neg (by decide)]
      exact ih (i + 1) s k ex (by omega) (by omega) hget hidle
        (fun j exj hj hjk => hmin j exj (by omega) hjk)

/-- Whenever the enqueue returns, the activation of
an unreferenced live thread returns true, and (a) if executor `k` passes
the wake-up test (no current thread, no pending SCHEDULE signal) and no
lower-numbered executor does, executor `k` has `EX_SIGNAL_SCHEDULE` or-ed
into its mailbox, every other executor is unchanged, and exactly one wake-up
signal, to `k`, has been sent; (b) if no executor passes the test, no executor
changes and no signal is sent. -/
theorem scheduler_activate_thread_wakes_when_enqueued (s : cc_state) (thread exec fuel : Nat)
    (e : Bool × lf_thread_queue_t)
    (hT : T_STAT_TERM ≠ s.t_sched_stat_ref thread &&& T_STAT_MASK)
    (hD : T_STAT_DEAD ≠ s.t_sched_stat_ref thread &&& T_STAT_MASK)
    (hX : T_STAT_DESTROY ≠ s.t_sched_stat_ref thread &&& T_STAT_MASK)
    (href : s.t_sched_stat_ref thread &&& T_REF = 0)
    (henq : lf_thread_queue_enqueue (fuel + 1) s.sched_workshare thread exec = .ok e) :
    ∃ s1, scheduler_activate_thread (fuel + 1) thread exec s = .ok (true, s1) ∧
      (∀ k ex, s.executors.get? k = some ex → executor_wakeup_test s ex →
        (∀ j exj, j < k → s.executors.get? j = some exj → ¬ executor_wakeup_test s exj) →
        s1.executors = s.executors.set k (executor_with_schedule s ex) ∧
        s1.os_signals = s.os_signals ++ [k]) ∧
      ((∀ j exj, s.executors.get? j = some exj → ¬ executor_wakeup_test s exj) →
        s1.executors = s.executors ∧ s1.os_signals = s.os_signals) := by
  obtain ⟨s3, he, ho, hs, _, _, h3⟩ :=
    scheduler_try_activate_thread_unreferenced s (fuel + 1) thread exec e hT hD hX href henq
  have test_eq : ∀ ex, executor_wakeup_test s3 ex ↔ executor_wakeup_test s ex := by
    intro ex
    unfold executor_wakeup_test
    rw [hs]
  refine ⟨_, scheduler_activate_thread_of_try s _ fuel thread exec h3, ?_, ?_⟩
  · intro k ex hget hidle hmin
    have hklen : k < s3.executors.length := by
      rw [he]
      exact (List.get?_eq_some.mp hget).1
    unfold executor_restart_idle
    rw [executor_restart_idle_from_first s3.executors.length 0 s3 k ex (Nat.zero_le k)
      (by omega) (by rw [he]; exact hget) ((test_eq ex).mpr hidle)
      (fun j exj _ hjk hj => fun ht => hmin j exj hjk (by rw [← he]; exact hj)
        ((test_eq exj).mp ht))]
    simp [he, ho, hs, executor_with_schedule]
  · intro hnone
    unfold executor_restart_idle
    rw [executor_restart_idle_from_none s3.executors.length 0 s3
      (fun j exj _ hj => fun ht => hnone j exj (by rw [← he]; exact hj) ((test_eq exj).mp ht))]
    exact ⟨he, ho⟩

/-- C20: executor 0 activates the unreferenced thread `0x2007` while
executor 1 is idle without a pending SCHEDULE signal, after executor 0 has
activated six threads and executor 1 has taken them from the workshare.  The
call does not return: `lf_thread_queue_enqueue` dereferences `NULL` before
`executor_restart_idle()` is reached, so executor 1 gets neither the SCHEDULE
bit nor the wake-up signal.  On the fresh workshare the same call returns
true, sets SCHEDULE in the mailbox of executor 1 and signals it. -/
theorem scheduler_activate_thread_fault_before_wakeup :
    cc_state_after_burst.executors = [⟨0, 7, 8⟩, ⟨0, 0, 9⟩] ∧
    cc_state_after_burst.t_sched_stat_ref 0x2007 = T_STAT_SUSPENDED ∧
    lf_thread_queue_content cc_state_after_burst.sched_workshare 64
      cc_state_after_burst.sched_workshare.lf_head = [] ∧
    scheduler_wake_view (scheduler_activate_thread 2 0x2007 0 cc_state_after_burst) =
      .error .null_deref ∧
    scheduler_wake_view (scheduler_activate_thread 2 0x2007 0 cc_state_example) =
      .ok (true, [⟨0, 7, 8⟩, ⟨1, 0, 9⟩], [1]) := by
  decide!



/-! ### Collector activation, generation choice, slice release -/

theorem gc_thread_try_activate_true (s : gc_globals) : (gc_thread_try_activate s).1 = true := by
  unfold gc_thread_try_activate atomic_compare_and_set_uint
  simp only
  split_ifs <;> simp

theorem gc_loop_while_true_stuck (try_ : gc_globals → Bool × gc_globals)
    (h : ∀ s, (try_ s).1 = true) : ∀ (fuel : Nat) (s : gc_globals),
    gc_loop_while_true try_ fuel s = none := by
  intro fuel
  induction fuel with
  | zero => intro s; rfl
  | succ n ih =>
    intro s
    unfold gc_loop_while_true
    simp only [h s, if_true]
    exact ih _

/-- C18 (fails in the code): `gc_thread_activate(gen)` does not terminate when
run by one executor, whatever `gen` and the collector state are.  Its first
loop is `for(i = 1; gc_thread_try_activate(); i++)`, which goes on while the
attempt succeeds, and without another executor interfering every attempt
succeeds: no amount of fuel gives a result. -/
theorem gc_thread_activate_never_returns (fuel gen : Nat) (s : gc_globals) :
    gc_thread_activate fuel gen s = none := by
  unfold gc_thread_activate
  rw [gc_loop_while_true_stuck gc_thread_try_activate gc_thread_try_activate_true]
  rfl

/-- C17 (fails in the code): with the variables as they are when the program
starts and no generation requested, the first generation `gc_thread_get_gen`
chooses is 0 for every number `G` of generations, and the initial barrier
stores generation 0 in `gc_state` (`0x200` is the phase NORMAL with generation
bits 0); and once a collection of generation 1 is
over (`gc_thread_final_barrier` has set the peak to the generation collected,
the next generation still being 1) the next choice is 1 again, with the next
generation left at 1. -/
theorem gc_thread_get_gen_first_is_zero (G : Nat) :
    (gc_thread_get_gen (gc_globals_boot G)).1 = 0 ∧
    (gc_thread_get_gen (gc_globals_boot G)).2.gc_thread_next_gen = 1 ∧
    (gc_thread_initial_barrier (gc_globals_boot G)).gc_state = 0x200 ∧
    (gc_thread_get_gen { gc_globals_boot (G + 2) with
        gc_thread_next_gen := 1, gc_thread_peak_gen := 1 }).1 = 1 ∧
    (gc_thread_get_gen { gc_globals_boot (G + 2) with
        gc_thread_next_gen := 1, gc_thread_peak_gen := 1 }).2.gc_thread_next_gen = 1 := by
  refine ⟨rfl, rfl, ?_, rfl, rfl⟩
  have h : (gc_thread_initial_barrier (gc_globals_boot G)).gc_state =
      ((0 &&& uint_not (0x700 ||| 0xff)) ||| 0x200 ||| 0) := rfl
  rw [h]
  decide

/-- C16 (fails in the code): `gc_allocator_release_slices(2)` on a heap with
generations 1 and 2 in use.  Generation 1 (index 0) is released: the used
slice is appended to the free list, the new slice becomes the used one, the
counters move along.  Generation 2 (index 1), the generation collected, is
left as it was: its used slice is not freed, its new slice stays on the new
list, and its counters are unchanged. -/
theorem gc_allocator_release_slices_skips_top :
    (gc_allocator_release_slices 2 2 gc_globals_two_gens).map (fun s =>
      (s.gc_free_slices 0 0, (s.gc_slices 0xc000).s_next, s.gc_used_slices 0 0,
        s.gc_new_slices 0 0)) = some (0xc000, 0xa000, 0xb000, 0) ∧
    (gc_allocator_release_slices 2 2 gc_globals_two_gens).map (fun s =>
      (s.gc_free_space 0, s.gc_used_space 0, s.gc_new_space 0))
      = some (0x8000, 0x4000, 0) ∧
    (gc_allocator_release_slices 2 2 gc_globals_two_gens).map (fun s =>
      (s.gc_free_slices 0 1, s.gc_used_slices 0 1, s.gc_new_slices 0 1))
      = some (0, 0xd000, 0xe000) ∧
    (gc_allocator_release_slices 2 2 gc_globals_two_gens).map (fun s =>
      (s.gc_free_space 1, s.gc_used_space 1, s.gc_new_space 1))
      = some (0, 0x4000, 0x4000) := by
  decide!


/-! ### Safepoints -/

theorem list_set_get_self {α : Type} (l : List α) (i : Nat) (x : α) (h : l.get? i = some x) :
    l.set i x = l := by
  rcases List.get?_eq_some.mp h with ⟨hl, hx⟩
  apply List.ext_getElem?
  intro n
  rw [List.getElem?_set]
  split
  · next hn =>
    subst hn
    rw [← hx]
    simp [hl]
  · rfl

/-- C19 (as stated, fails): executor 0 runs thread `0x5000`, its mailbox is
empty and the GC phase is INACTIVE; `cc_safepoint(0, EX_SIGNAL_GC)` does not
return to its caller: the current thread is retired (its mailbox gets the
null executor code, its write-log index is saved) and a scheduler cycle with
a context load is run. -/
theorem cc_safepoint_gc_inactive_switches :
    executor_state_running.gc.gc_state &&& executor_state_running.gc.GC_STATE_PHASE =
      executor_state_running.gc.GC_STATE_INACTIVE ∧
    (executor_state_running.cc.executors.get? 0).map (fun ex => ex.ex_signal_mbox) = some 0 ∧
    (cc_safepoint executor_state_running 0 executor_state_running.EX_SIGNAL_GC).1 = false ∧
    (cc_safepoint executor_state_running 0 executor_state_running.EX_SIGNAL_GC).2.cc.cycles
      = [0] ∧
    (cc_safepoint executor_state_running 0
      executor_state_running.EX_SIGNAL_GC).2.cc.t_mbox_executor 0x5000 = 0xffffffff ∧
    (cc_safepoint executor_state_running 0
      executor_state_running.EX_SIGNAL_GC).2.ex_gc_write_log_index 0 = 7 := by
  decide

/-- C19 (amended): when the worker's signal mailbox is empty and the executors
are live, a safepoint with only the GC bit forced does not return to its
caller, whatever the GC phase is: it retires the current thread (a current
thread gets the null executor code in its mailbox), and runs one scheduler
cycle with its context load; the mailbox stays empty.  A safepoint with no
bit forced returns and changes nothing but the (empty) mailbox. -/
theorem cc_safepoint_forced_gc_runs_cycle (s : executor_state) (exec : Nat) (ex : executor_t)
    (hex : s.cc.executors.get? exec = some ex) (hmbox : ex.ex_signal_mbox = 0)
    (hgc : s.EX_SIGNAL_GC ≠ 0) (hbits : s.EX_SIGNAL_GC &&& s.cc.EX_SIGNAL_SCHEDULE = 0)
    (hlive : s.executor_live ≠ 0) :
    (cc_safepoint s exec s.EX_SIGNAL_GC).1 = false ∧
    (cc_safepoint s exec s.EX_SIGNAL_GC).2.cc.cycles = s.cc.cycles ++ [exec] ∧
    (ex.sch_curr_thread ≠ 0 →
      (cc_safepoint s exec s.EX_SIGNAL_GC).2.cc.t_mbox_executor ex.sch_curr_thread =
        s.cc.thread_mbox_null_executor) ∧
    (cc_safepoint s exec s.EX_SIGNAL_GC).2.cc.executors = s.cc.executors.set exec ex ∧
    (cc_safepoint s exec s.EX_SIGNAL_GC).2.gc = s.gc ∧
    (cc_safepoint s exec 0).1 = true ∧
    (cc_safepoint s exec 0).2.cc.cycles = s.cc.cycles ∧
    (cc_safepoint s exec 0).2.cc.t_mbox_executor = s.cc.t_mbox_executor := by
  have hself : s.cc.executors.set exec ex = s.cc.executors :=
    list_set_get_self _ _ _ hex
  have hex1 : { ex with ex_signal_mbox := 0 } = ex := by
    cases ex
    simp only at hmbox
    subst hmbox
    rfl
  have hz : (0 ||| s.EX_SIGNAL_GC) = s.EX_SIGNAL_GC := Nat.zero_or _
  have hgg : s.EX_SIGNAL_GC &&& s.EX_SIGNAL_GC = s.EX_SIGNAL_GC := Nat.and_self _
  unfold cc_safepoint executor_safepoint executor_check_mbox_sigs
  simp only [hex, hmbox, atomic_compare_and_set_uint, if_true, hex1, hself, hz, hbits, hgg,
    ne_eq, not_true_eq_false, if_false, hgc, not_false_eq_true, Nat.zero_or, Nat.zero_and]
  unfold do_executor_run_gc executor_get_new_thread executor_retire_old_thread
  simp only [ne_eq, hlive, not_false_eq_true, if_true, hex]
  by_cases ht : 0 = ex.sch_curr_thread
  · have ht1 : ex.sch_curr_thread = 0 := ht.symm
    simp [ht1]
  · have ht2 : ¬ ex.sch_curr_thread = 0 := fun h => ht h.symm
    simp [ht, ht2]

theorem cc_safepoint_forced_gc_runs_cycle_witness :
    (cc_safepoint executor_state_running 0 executor_state_running.EX_SIGNAL_GC).1 = false ∧
    (cc_safepoint executor_state_running 0 executor_state_running.EX_SIGNAL_GC).2.cc.cycles =
      executor_state_running.cc.cycles ++ [0] ∧
    ((⟨0, 0x5000, 0x6000⟩ : executor_t).sch_curr_thread ≠ 0 →
      (cc_safepoint executor_state_running 0
        executor_state_running.EX_SIGNAL_GC).2.cc.t_mbox_executor
          (⟨0, 0x5000, 0x6000⟩ : executor_t).sch_curr_thread =
        executor_state_running.cc.thread_mbox_null_executor) ∧
    (cc_safepoint executor_state_running 0 executor_state_running.EX_SIGNAL_GC).2.cc.executors =
      executor_state_running.cc.executors.set 0 ⟨0, 0x5000, 0x6000⟩ ∧
    (cc_safepoint executor_state_running 0 executor_state_running.EX_SIGNAL_GC).2.gc =
      executor_state_running.gc ∧
    (cc_safepoint executor_state_running 0 0).1 = true ∧
    (cc_safepoint executor_state_running 0 0).2.cc.cycles = executor_state_running.cc.cycles ∧
    (cc_safepoint executor_state_running 0 0).2.cc.t_mbox_executor =
      executor_state_running.cc.t_mbox_executor :=
  cc_safepoint_forced_gc_runs_cycle executor_state_running 0 ⟨0, 0x5000, 0x6000⟩
    (by rfl) (by rfl) (by decide) (by decide) (by decide)


/-! ### Collector threads -/

/-- C13 (fails in the code): a normal object `O` of generation 1 with the
unclaimed forwarding pointer, collected with `max_gen = 1`.
`gc_thread_claim(O)` does not produce a copy: `gc_header_next_gen` yields 0,
the new generation is 0 and `gth_allocators[0 - 1]` is outside the allocator
table.  And with the forwarding pointer as the compare-and-set of
`gc_thread_claim` writes it (the address `0x20000` of the new object, bit 0
clear), `gc_thread_process(O)` takes `O` for copied and copies nothing: the
new object's non-pointer bytes and the unused slot of its pointer field are
still zero, while `O` holds the bytes `0x11, …` and a pointer to an object
whose forwarding address is `0x21000`.  Had bit 0 been set (forwarding pointer
`0x20001`), the same call would have copied the bytes and stored `0x21000`. -/
theorem gc_thread_claim_process_copies_nothing :
    gc_result ((gc_thread_claim 0x10000 1 false).run (gc_heap_normal_object 0xffffffff))
      = .error .out_of_bounds ∧
    gc_result ((gc_thread_process 4 0x10000 1 false).run (gc_heap_normal_object 0x20000))
      = .ok () ∧
    gc_word_after ((gc_thread_process 4 0x10000 1 false).run (gc_heap_normal_object 0x20000))
      0x20020 = .ok 0 ∧
    gc_word_after ((gc_thread_process 4 0x10000 1 false).run (gc_heap_normal_object 0x20000))
      0x20028 = .ok 0 ∧
    gc_word_after ((gc_thread_process 4 0x10000 1 false).run (gc_heap_normal_object 0x20000))
      0x10020 = .ok 0x14131211 ∧
    gc_word_after ((gc_thread_process 4 0x10000 1 false).run (gc_heap_normal_object 0x20000))
      0x1002c = .ok 0x11000 ∧
    gc_word_after ((gc_thread_process 4 0x10000 1 false).run (gc_heap_normal_object 0x20001))
      0x20020 = .ok 0x14131211 ∧
    gc_word_after ((gc_thread_process 4 0x10000 1 false).run (gc_heap_normal_object 0x20001))
      0x20028 = .ok 0x21000 := by
  decide!

/-- C14 (fails in the code): the WEAK pass (`do_weak` true) over an already
copied object with three weak pointer fields.  When the first field is `NULL`
the pass ends in an access through `NULL`: `gc_thread_process_weak_ptr` reads
the forwarding pointer of the target before it tests the pointer.  When the
fields point to a copied object (twice) and to a never claimed one, the
unused slots of the copy end up as the new location `0x21000` (twice) and
`NULL`; with `do_weak` false the slots keep their old value. -/
theorem gc_thread_process_weak_null_source :
    gc_result ((gc_thread_process 4 0x10000 1 true).run (gc_heap_weak_object 3 0))
      = .error .null_deref ∧
    gc_result ((gc_thread_copy 0x20020 0x10020 0 0 3 1 true true).run
      (gc_heap_weak_object 3 0)) = .error .null_deref ∧
    gc_result ((gc_thread_process 4 0x10000 1 true).run (gc_heap_weak_object 3 0x11000))
      = .ok () ∧
    gc_word_after ((gc_thread_process 4 0x10000 1 true).run (gc_heap_weak_object 3 0x11000))
      0x20020 = .ok 0x21000 ∧
    gc_word_after ((gc_thread_process 4 0x10000 1 true).run (gc_heap_weak_object 3 0x11000))
      0x20028 = .ok 0x21000 ∧
    gc_word_after ((gc_thread_process 4 0x10000 1 true).run (gc_heap_weak_object 3 0x11000))
      0x20030 = .ok 0 ∧
    gc_word_after ((gc_thread_process 4 0x10000 1 false).run (gc_heap_weak_object 3 0))
      0x20020 = .ok 0x99990 := by
  decide!

/-- C15 (fails in the code): a shared array of 1024 elements of 8 non-pointer
bytes without pointers, forwarding copy at `0x20000`.
`gc_thread_process_cluster(src, 0)` returns without copying a byte: the first
16 elements of the copy (128 bytes from `0x20020`) are still zero, while the
corresponding bytes of the source are all non-zero.  The function reads the
non-pointer size with `gc_typedesc_weak_ptrs`, which is 0 here. -/
theorem gc_thread_process_cluster_copies_nothing :
    gc_result ((gc_thread_process_cluster 4 0x10000 0 1 false).run gc_heap_scalar_array)
      = .ok () ∧
    gc_all_zero_after ((gc_thread_process_cluster 4 0x10000 0 1 false).run
      gc_heap_scalar_array) 0x20020 128 = .ok true ∧
    mem_none_zero gc_heap_scalar_array.mem 0x10020 128 = true := by
  decide!


/-! ### Size classes -/

/-- C25 (fails in the code): `malloc_size_class` returns 32, one past the
table of 32 classes, for every size from `0x3f00` to `0x4000`, although the
function admits every size up to `0x4000`; for every size from 1 to `0x3eff`
the class is below 32 and its `sc_size` is at least the size. -/
theorem malloc_size_class_top_out_of_table :
    malloc_size_class 0x4000 = 32 ∧ malloc_size_class 0x3f00 = 32 ∧
    malloc_sizeclasses_sc_size.get? (malloc_size_class 0x4000) = none ∧
    (List.range 0x3f00).all (fun size => decide (1 ≤ size →
      malloc_size_class size < NUM_SIZE_CLASSES ∧
      size ≤ malloc_sizeclasses_sc_size.getD (malloc_size_class size) 0)) = true ∧
    (List.range 0x101).all (fun k => decide (malloc_size_class (0x3f00 + k) = 32)) = true := by
  decide!


/-! ### The bitmap allocator -/

/-- C23 (fails in the code): on the bitmap word `0x80000002` (bits 1 and 31
set) three successive calls of `atomic_bitmap_alloc` all return bit 1 and
leave the word as it was: the mask of the bit found by `bsf` is or-ed into a
word that has the bit already, so no bit is ever marked as taken, bit 31 is
never returned and the call never reports an exhausted word.  On the word
`0x3` the result is `-1` although bits 0 and 1 are set: bit index 0 is
taken for "none".  The same holds with `clear` true. -/
theorem atomic_bitmap_alloc_repeats_bit :
    atomic_bitmap_alloc_times 32 false 0 3 0x80000002 = ([1, 1, 1], 0x80000002) ∧
    atomic_bitmap_alloc_times 32 true 0 3 0x80000002 = ([1, 1, 1], 0x80000002) ∧
    atomic_bitmap_alloc 0x3 32 false 0 = (-1, 0x3) ∧
    atomic_bitmap_alloc 0x1 32 false 0 = (-1, 0x1) ∧
    atomic_bitmap_alloc 0x80000000 32 false 0 = (31, 0x80000000) := by
  decide


/-- C29 (fails in the code): an object `O` of generation 2 with the unclaimed
sentinel as its forwarding pointer, claimed in a collection of generation 1.
`gc_thread_claim` returns `O`'s address, but the forwarding pointer is still
the unclaimed sentinel afterwards and `O` is on no queue: the test
`unclaimed == fwd_ptr` reads the local `fwd_ptr` that the branch has just set
to the claimed sentinel, so the compare-and-set and `gc_thread_add_obj` are
never reached.  The same with `copy` true. -/
theorem gc_thread_claim_outside_set_not_marked :
    gc_result ((gc_thread_claim 0x10000 1 false).run gc_heap_old_object) = .ok 0x10000 ∧
    gc_word_after ((gc_thread_claim 0x10000 1 false).run gc_heap_old_object) 0x10000
      = .ok 0xffffffff ∧
    gc_queue_after ((gc_thread_claim 0x10000 1 false).run gc_heap_old_object)
      = .ok (0, 0, 0, 0) ∧
    gc_result ((gc_header_curr_gen 0x10000).run gc_heap_old_object) = .ok 2 ∧
    gc_word_after ((gc_thread_claim 0x10000 1 true).run gc_heap_old_object) 0x10000
      = .ok 0xffffffff ∧
    gc_queue_after ((gc_thread_claim 0x10000 1 true).run gc_heap_old_object)
      = .ok (0, 0, 0, 0) := by
  decide!


/-! ### Shared and local arrays -/

theorem mem_read32_run (a : Nat) (s : gc_heap) (ha : a ≠ 0) :
    (mem_read32 a).run s = .ok (mem_word32 s.mem a, s) := by
  simp [mem_read32, ha, mem_word32, StateT.run, bind, StateT.bind, Except.bind, get, getThe,
    MonadStateOf.get, StateT.get, pure, StateT.pure, Except.pure]

theorem mem_write32_run (a v : Nat) (s : gc_heap) (ha : a ≠ 0) :
    (mem_write32 a v).run s = .ok ((), { s with mem := mem_store32 s.mem a v }) := by
  simp [mem_write32, ha, StateT.run, bind, StateT.bind, Except.bind, modify, modifyGet,
    MonadStateOf.modifyGet, StateT.modifyGet, pure, StateT.pure, Except.pure]

/-- C22 (fails in the code): an array of exactly `GC_ARRAY_MIN_COUNT` = 64
elements of 128 bytes (8192 bytes, more than `GC_ARRAY_MIN_SIZE`) is not
shared: `gc_thread_array_shared` is false and `gc_thread_add_obj` puts it on
the local queue, leaving the shared array stack empty.  The test is
`num > GC_ARRAY_MIN_COUNT`, while the header calls the constant the minimum
number of elements of a clustered array. -/
theorem gc_thread_array_shared_at_threshold :
    gc_thread_array_shared GC_ARRAY_MIN_COUNT 128 = false ∧
    gc_queue_after ((gc_thread_add_obj 0x3000 0x10000).run (gc_heap_array_of 64))
      = .ok (1, 0x10000, 0x10000, 0) := by
  decide!

theorem gc_thread_push_array_run (array : Nat) (s : gc_heap) :
    (gc_thread_push_array array).run s =
      .ok ((), { s with mem := mem_store32 s.mem (array + 4) s.gc_thread_array_list,
                        gc_thread_array_list := array }) := by
  simp [gc_thread_push_array, gc_header_list_ptr_set, mem_write32, StateT.run, bind,
    StateT.bind, Except.bind, modify, modifyGet, MonadStateOf.modifyGet, StateT.modifyGet,
    pure, StateT.pure, Except.pure, get, getThe, MonadStateOf.get, StateT.get]

theorem gc_thread_enqueue_run (obj : Nat) (s : gc_heap) :
    ∃ s1, (gc_thread_enqueue obj).run s = .ok ((), s1) ∧ s1.gth_tail = obj ∧
      s1.gth_queue_size = (s.gth_queue_size + 1) % UINT_RANGE ∧
      s1.gc_thread_array_list = s.gc_thread_array_list ∧
      s1.gth_head = (if 0 = s.gth_head then obj else s.gth_head) := by
  by_cases h : 0 = s.gth_head
  · have h1 : s.gth_head = 0 := h.symm
    simp [gc_thread_enqueue, gc_header_list_ptr_set, mem_write32, StateT.run, bind,
      StateT.bind, Except.bind, modify, modifyGet, MonadStateOf.modifyGet, StateT.modifyGet,
      pure, StateT.pure, Except.pure, get, getThe, MonadStateOf.get, StateT.get, h1]
  · simp [gc_thread_enqueue, gc_header_list_ptr_set, mem_write32, StateT.run, bind,
      StateT.bind, Except.bind, modify, modifyGet, MonadStateOf.modifyGet, StateT.modifyGet,
      pure, StateT.pure, Except.pure, get, getThe, MonadStateOf.get, StateT.get, h]

theorem except_ok_bind {ε α β : Type} (v : α) (f : α → Except ε β) :
    (Except.ok v >>= f) = f v := rfl

theorem gc_header_array_len_run (obj a : Nat) (s : gc_heap)
    (ha : (obj + UINT_RANGE - 4) % UINT_RANGE = a) (hne : a ≠ 0) :
    (gc_header_array_len obj).run s = .ok (mem_word32 s.mem a, s) := by
  subst ha
  exact mem_read32_run _ s hne

theorem gc_thread_add_obj_run (type obj a : Nat) (s : gc_heap) (htype : type ≠ 0)
    (ha : (obj + UINT_RANGE - 4) % UINT_RANGE = a) (hne : a ≠ 0)
    (hcls : GC_TYPEDESC_NORMAL ≠ mem_word32 s.mem type &&& GC_TYPEDESC_CLASS) :
    (gc_thread_add_obj type obj).run s =
      (if gc_thread_array_shared (mem_word32 s.mem a)
          (gc_thread_obj_size (mem_word32 s.mem (type + 4)) (mem_word32 s.mem (type + 8))
            (mem_word32 s.mem (type + 12))) = true
        then (gc_thread_push_array obj).run s else (gc_thread_enqueue obj).run s) := by
  unfold gc_thread_add_obj gc_typedesc_class gc_typedesc_nonptr_size gc_typedesc_normal_ptrs
    gc_typedesc_weak_ptrs
  simp only [StateT.run_bind, mem_read32_run type _ htype,
    mem_read32_run (type + 4) _ (Nat.succ_ne_zero _), mem_read32_run (type + 8) _
      (Nat.succ_ne_zero _),
    mem_read32_run (type + 12) _ (Nat.succ_ne_zero _), StateT.run_pure,
    gc_header_array_len_run obj a _ ha hne, except_ok_bind, pure_bind, if_neg hcls]
  cases hsh : gc_thread_array_shared (mem_word32 s.mem a)
          (gc_thread_obj_size (mem_word32 s.mem (type + 4)) (mem_word32 s.mem (type + 8))
            (mem_word32 s.mem (type + 12)))
  · simp only [StateT.run_bind, gc_header_array_len_run obj a _ ha hne, except_ok_bind,
      pure_bind, hsh, Bool.not_false, if_true, Bool.false_eq_true, if_false]
  · simp only [StateT.run_bind, gc_header_array_len_run obj a _ ha hne, except_ok_bind,
      pure_bind, hsh, Bool.not_true, Bool.false_eq_true, if_false, if_true]

/-- For an array (class other than normal) with `num` elements
of `size` bytes, `gc_thread_array_shared` is true exactly when the byte size
exceeds `GC_ARRAY_MIN_SIZE` and `num` exceeds `GC_ARRAY_MIN_COUNT`; then
`gc_thread_add_obj` pushes the array on the shared array stack and leaves the
local queue alone.  With `num` at most `GC_ARRAY_MIN_COUNT` (the threshold
itself included) it puts the array at the tail of the local queue and leaves
the shared stack alone. -/
theorem gc_thread_add_obj_shared_above_threshold (type obj a num size : Nat) (s : gc_heap)
    (htype : type ≠ 0) (ha : (obj + UINT_RANGE - 4) % UINT_RANGE = a) (hne : a ≠ 0)
    (hcls : GC_TYPEDESC_NORMAL ≠ mem_word32 s.mem type &&& GC_TYPEDESC_CLASS)
    (hnum : mem_word32 s.mem a = num)
    (hsize : gc_thread_obj_size (mem_word32 s.mem (type + 4)) (mem_word32 s.mem (type + 8))
      (mem_word32 s.mem (type + 12)) = size) :
    (gc_thread_array_shared num size = true ↔
      GC_ARRAY_MIN_SIZE < (num * size) % UINT_RANGE ∧ GC_ARRAY_MIN_COUNT < num) ∧
    (GC_ARRAY_MIN_COUNT < num → GC_ARRAY_MIN_SIZE < (num * size) % UINT_RANGE →
      ∃ s1, (gc_thread_add_obj type obj).run s = .ok ((), s1) ∧
        s1.gc_thread_array_list = obj ∧ s1.gth_queue_size = s.gth_queue_size ∧
        s1.gth_head = s.gth_head ∧ s1.gth_tail = s.gth_tail) ∧
    (num ≤ GC_ARRAY_MIN_COUNT →
      ∃ s1, (gc_thread_add_obj type obj).run s = .ok ((), s1) ∧
        s1.gth_tail = obj ∧ s1.gth_queue_size = (s.gth_queue_size + 1) % UINT_RANGE ∧
        s1.gc_thread_array_list = s.gc_thread_array_list) := by
  have hiff : gc_thread_array_shared num size = true ↔
      GC_ARRAY_MIN_SIZE < (num * size) % UINT_RANGE ∧ GC_ARRAY_MIN_COUNT < num := by
    unfold gc_thread_array_shared
    simp
  have hrun := gc_thread_add_obj_run type obj a s htype ha hne hcls
  rw [hnum, hsize] at hrun
  refine ⟨hiff, ?_, ?_⟩
  · intro h1 h2
    rw [hrun, if_pos (hiff.mpr ⟨h2, h1⟩), gc_thread_push_array_run]
    exact ⟨_, rfl, rfl, rfl, rfl, rfl⟩
  · intro h1
    have hns : ¬ gc_thread_array_shared num size = true := by
      intro h
      have := (hiff.mp h).2
      omega
    rw [hrun, if_neg hns]
    obtain ⟨s1, e, a, b, c, _⟩ := gc_thread_enqueue_run obj s
    exact ⟨s1, e, a, b, c⟩

theorem gc_thread_add_obj_shared_above_threshold_witness :
    ∃ s1, (gc_thread_add_obj 0x3000 0x10000).run (gc_heap_array_of 65) = .ok ((), s1) ∧
      s1.gc_thread_array_list = 0x10000 ∧
      s1.gth_queue_size = (gc_heap_array_of 65).gth_queue_size ∧
      s1.gth_head = (gc_heap_array_of 65).gth_head ∧
      s1.gth_tail = (gc_heap_array_of 65).gth_tail :=
  (gc_thread_add_obj_shared_above_threshold 0x3000 0x10000 0xfffc 65 128 (gc_heap_array_of 65)
    (by decide) (by decide) (by decide) (by decide) (by decide) (by decide)).2.1 (by decide) (by decide)

/-! ### The node pool of the thread queue -/

/-- C27 (fails in the code): the free lists of the node pool are not a
partition of the unused nodes.  After `lf_thread_queue_init` for 3 threads and
2 executors (16 nodes from `0x1000`, 8 bytes each) the shared list consists of
the sentinel `0x1078` itself and node `0x1070` is on no list.  On the queue
for 48 threads and 3 executors, once executors 1 and 2 have allocated 7 nodes
each and executor 0 has freed six of them, its private list holds 30 nodes
with `nl_count` 30; the seventh free leaves that list empty with `nl_count`
31 and the shared list holding the one node `0x1148`: 30 nodes are lost.
After all 14 frees seven nodes are on the private and on the shared list. -/
theorem lf_thread_queue_node_free_loses_nodes :
    (lf_thread_queue_init 0x1000 8 3 2 2).lf_head = 0x1078 ∧
    lf_free_lists (lf_thread_queue_init 0x1000 8 3 2 2) 0 =
      ([0x1030, 0x1028, 0x1020, 0x1018, 0x1010, 0x1008, 0x1000], 7, [0x1078]) ∧
    lf_free_lists (lf_thread_queue_init 0x1000 8 3 2 2) 1 =
      ([0x1068, 0x1060, 0x1058, 0x1050, 0x1048, 0x1040, 0x1038], 7, [0x1078]) ∧
    (lf_pool_after_frees 6).map (fun r => (r.1.length, r.2)) = .ok (30, 30, []) ∧
    lf_pool_after_frees 7 = .ok ([], 31, [0x1148]) ∧
    lf_pool_after_frees 14 =
      .ok ([0x1210, 0x1218, 0x1220, 0x1228, 0x1230, 0x1238, 0x1148], 38,
        [0x1208, 0x1210, 0x1218, 0x1220, 0x1228, 0x1230, 0x1238, 0x1148]) := by
  decide!

/-! ### Acknowledging the status of a dequeued thread -/

theorem sched_set_running_status_loop_done (thread fuel : Nat) (out : action_t)
    (s : executor_state) :
    sched_set_running_status_loop thread fuel false out s = .ok (out, s) := by
  cases fuel <;> rfl

theorem sched_set_running_status_step (thread fuel : Nat) (s s1 : executor_state)
    (cont : Bool) (out1 : action_t)
    (h : sched_set_running_status_pass thread .DISCARD s = .ok (cont, out1, s1)) :
    sched_set_running_status (fuel + 1) thread s =
      sched_set_running_status_loop thread fuel cont out1 s1 := by
  unfold sched_set_running_status
  rw [sched_set_running_status_loop, h]

/-- C24: `sched_set_running_status` acts by the status of the thread.  From
RUNNABLE, RUNNING or FINALIZER_LIVE, and from GC_WAIT while the collector
phase is INACTIVE, the word becomes RUNNING with the reference flag and the
result is EXECUTE; from SUSPEND the word becomes SUSPENDED and from TERM it
becomes DEAD, both without the reference flag, with result DISCARD; from
DESTROY the thread is destroyed, with result DISCARD; from GC_WAIT while a
collection is active nothing changes and the result is SKIP. -/
theorem sched_set_running_status_by_state (fuel thread : Nat) (s : executor_state)
    (hfuel : 0 < fuel) :
    ((T_STAT_RUNNING ||| T_REF) &&& T_STAT_MASK = T_STAT_RUNNING ∧
      (T_STAT_RUNNING ||| T_REF) &&& T_REF = T_REF ∧
      T_STAT_SUSPENDED &&& T_REF = 0 ∧ T_STAT_DEAD &&& T_REF = 0) ∧
    ((s.cc.t_sched_stat_ref thread &&& T_STAT_MASK = T_STAT_RUNNABLE ∨
      s.cc.t_sched_stat_ref thread &&& T_STAT_MASK = T_STAT_RUNNING ∨
      s.cc.t_sched_stat_ref thread &&& T_STAT_MASK = T_STAT_FINALIZER_LIVE ∨
      (s.cc.t_sched_stat_ref thread &&& T_STAT_MASK = T_STAT_GC_WAIT ∧
        s.gc.GC_STATE_INACTIVE = s.gc.gc_state &&& s.gc.GC_STATE_PHASE)) →
      sched_set_running_status fuel thread s =
        .ok (.EXECUTE, { s with cc := set_stat_ref s.cc thread (T_STAT_RUNNING ||| T_REF) })) ∧
    (s.cc.t_sched_stat_ref thread &&& T_STAT_MASK = T_STAT_SUSPEND →
      sched_set_running_status fuel thread s =
        .ok (.DISCARD, { s with cc := set_stat_ref s.cc thread T_STAT_SUSPENDED })) ∧
    (s.cc.t_sched_stat_ref thread &&& T_STAT_MASK = T_STAT_TERM →
      sched_set_running_status fuel thread s =
        .ok (.DISCARD, { s with cc := set_stat_ref s.cc thread T_STAT_DEAD })) ∧
    (s.cc.t_sched_stat_ref thread &&& T_STAT_MASK = T_STAT_DESTROY →
      sched_set_running_status fuel thread s =
        .ok (.DISCARD, { s with cc := thread_destroy s.cc thread })) ∧
    (s.cc.t_sched_stat_ref thread &&& T_STAT_MASK = T_STAT_GC_WAIT →
      s.gc.GC_STATE_INACTIVE ≠ s.gc.gc_state &&& s.gc.GC_STATE_PHASE →
      sched_set_running_status fuel thread s = .ok (.SKIP, s)) := by
  obtain ⟨n, rfl⟩ : ∃ n, fuel = n + 1 := ⟨fuel - 1, by omega⟩
  refine ⟨by decide, ?_, ?_, ?_, ?_, ?_⟩
  · intro h
    rw [sched_set_running_status_step thread n s
      { s with cc := set_stat_ref s.cc thread (T_STAT_RUNNING ||| T_REF) } false .EXECUTE,
      sched_set_running_status_loop_done]
    unfold sched_set_running_status_pass
    rcases h with h | h | h | ⟨h, hg⟩
    · simp [h, atomic_compare_and_set_uint]
    · simp [h, atomic_compare_and_set_uint]
    · simp [h, atomic_compare_and_set_uint]
    · have hg1 : s.gc.gc_state &&& s.gc.GC_STATE_PHASE = s.gc.GC_STATE_INACTIVE := hg.symm
      simp [h, hg1, atomic_compare_and_set_uint, T_STAT_GC_WAIT, T_STAT_RUNNING,
        T_STAT_RUNNABLE, T_STAT_FINALIZER_LIVE]
  · intro h
    rw [sched_set_running_status_step thread n s
      { s with cc := set_stat_ref s.cc thread T_STAT_SUSPENDED } false .DISCARD,
      sched_set_running_status_loop_done]
    unfold sched_set_running_status_pass
    simp [h, atomic_compare_and_set_uint, T_STAT_GC_WAIT, T_STAT_RUNNING,
        T_STAT_RUNNABLE, T_STAT_FINALIZER_LIVE, T_STAT_SUSPEND]
  · intro h
    rw [sched_set_running_status_step thread n s
      { s with cc := set_stat_ref s.cc thread T_STAT_DEAD } false .DISCARD,
      sched_set_running_status_loop_done]
    unfold sched_set_running_status_pass
    simp [h, atomic_compare_and_set_uint, T_STAT_GC_WAIT, T_STAT_RUNNING,
        T_STAT_RUNNABLE, T_STAT_FINALIZER_LIVE, T_STAT_SUSPEND, T_STAT_TERM]
  · intro h
    rw [sched_set_running_status_step thread n s
      { s with cc := thread_destroy s.cc thread } false .DISCARD,
      sched_set_running_status_loop_done]
    unfold sched_set_running_status_pass
    simp [h, T_STAT_GC_WAIT, T_STAT_RUNNING,
        T_STAT_RUNNABLE, T_STAT_FINALIZER_LIVE, T_STAT_SUSPEND, T_STAT_TERM, T_STAT_DESTROY]
  · intro h hg
    rw [sched_set_running_status_step thread n s s false .SKIP,
      sched_set_running_status_loop_done]
    unfold sched_set_running_status_pass
    simp [h, hg, T_STAT_GC_WAIT, T_STAT_RUNNING,
        T_STAT_RUNNABLE, T_STAT_FINALIZER_LIVE]

theorem sched_set_running_status_by_state_witness :
    sched_set_running_status 1 0x5000 (executor_state_with_stat (T_STAT_GC_WAIT ||| T_REF) 0) =
      .ok (.EXECUTE, { executor_state_with_stat (T_STAT_GC_WAIT ||| T_REF) 0 with
        cc := set_stat_ref (executor_state_with_stat (T_STAT_GC_WAIT ||| T_REF) 0).cc 0x5000
          (T_STAT_RUNNING ||| T_REF) }) ∧
    sched_set_running_status 1 0x5000 (executor_state_with_stat (T_STAT_GC_WAIT ||| T_REF) 0x100) =
      .ok (.SKIP, executor_state_with_stat (T_STAT_GC_WAIT ||| T_REF) 0x100) ∧
    sched_set_running_status 1 0x5000 (executor_state_with_stat (T_STAT_SUSPEND ||| T_REF) 0) =
      .ok (.DISCARD, { executor_state_with_stat (T_STAT_SUSPEND ||| T_REF) 0 with
        cc := set_stat_ref (executor_state_with_stat (T_STAT_SUSPEND ||| T_REF) 0).cc 0x5000
          T_STAT_SUSPENDED }) :=
  ⟨(sched_set_running_status_by_state 1 0x5000
      (executor_state_with_stat (T_STAT_GC_WAIT ||| T_REF) 0) (by decide)).2.1
      (Or.inr (Or.inr (Or.inr ⟨by decide, by decide⟩))),
   (sched_set_running_status_by_state 1 0x5000
      (executor_state_with_stat (T_STAT_GC_WAIT ||| T_REF) 0x100) (by decide)).2.2.2.2.2
      (by decide) (by decide),
   (sched_set_running_status_by_state 1 0x5000
      (executor_state_with_stat (T_STAT_SUSPEND ||| T_REF) 0) (by decide)).2.2.1 (by decide)⟩

/-! ### The tag of an anchor -/

theorem nat_or_and_right (a b c : Nat) : (a ||| b) &&& c = (a &&& c) ||| (b &&& c) := by
  rw [Nat.and_comm, Nat.and_or_distrib_left, Nat.and_comm c a, Nat.and_comm c b]

theorem anchor_field_and_tag (x m : Nat) (hm : m &&& anchor_tag_mask = 0) :
    (x &&& m) &&& anchor_tag_mask = 0 := by
  rw [Nat.and_assoc, hm, Nat.and_zero]

theorem anchor_tag_and_tag (x : Nat) :
    (x &&& anchor_tag_mask) &&& anchor_tag_mask = x &&& anchor_tag_mask := by
  rw [Nat.and_assoc, Nat.and_self]

theorem anchor_tag_mask_mod (x : Nat) : x &&& anchor_tag_mask = x % 2 ^ 42 := by
  have hm : anchor_tag_mask = 2 ^ 42 - 1 := by decide
  rw [hm, Nat.and_pow_two_sub_one_eq_mod]

theorem anchor_get_tag_set_tag (a t : Nat) :
    anchor_get_tag (anchor_set_tag a t) = t % 2 ^ 42 := by
  unfold anchor_get_tag anchor_set_tag
  rw [nat_or_and_right, nat_or_and_right, nat_or_and_right,
    anchor_field_and_tag _ _ (by decide : anchor_avail_mask &&& anchor_tag_mask = 0),
    anchor_field_and_tag _ _ (by decide : anchor_credits_mask &&& anchor_tag_mask = 0),
    anchor_field_and_tag _ _ (by decide : anchor_state_mask &&& anchor_tag_mask = 0),
    anchor_tag_and_tag, Nat.zero_or, Nat.zero_or, Nat.zero_or, anchor_tag_mask_mod]

theorem anchor_get_tag_set_avail (a v : Nat) :
    anchor_get_tag (anchor_set_avail a v) = anchor_get_tag a := by
  unfold anchor_get_tag anchor_set_avail
  rw [nat_or_and_right, nat_or_and_right, nat_or_and_right,
    anchor_field_and_tag _ _ (by decide : anchor_avail_mask &&& anchor_tag_mask = 0),
    anchor_field_and_tag _ _ (by decide : anchor_credits_mask &&& anchor_tag_mask = 0),
    anchor_field_and_tag _ _ (by decide : anchor_state_mask &&& anchor_tag_mask = 0),
    anchor_tag_and_tag, Nat.zero_or, Nat.zero_or, Nat.zero_or]

theorem anchor_get_tag_set_credits (a v : Nat) :
    anchor_get_tag (anchor_set_credits a v) = anchor_get_tag a := by
  unfold anchor_get_tag anchor_set_credits
  rw [nat_or_and_right, nat_or_and_right, nat_or_and_right,
    anchor_field_and_tag _ _ (by decide : anchor_avail_mask &&& anchor_tag_mask = 0),
    anchor_field_and_tag _ _ (by decide : anchor_credits_mask &&& anchor_tag_mask = 0),
    anchor_field_and_tag _ _ (by decide : anchor_state_mask &&& anchor_tag_mask = 0),
    anchor_tag_and_tag, Nat.zero_or, Nat.zero_or, Nat.zero_or]

theorem anchor_get_tag_set_state (a v : Nat) :
    anchor_get_tag (anchor_set_state a v) = anchor_get_tag a := by
  unfold anchor_get_tag anchor_set_state
  rw [nat_or_and_right, nat_or_and_right, nat_or_and_right,
    anchor_field_and_tag _ _ (by decide : anchor_avail_mask &&& anchor_tag_mask = 0),
    anchor_field_and_tag _ _ (by decide : anchor_credits_mask &&& anchor_tag_mask = 0),
    anchor_field_and_tag _ _ (by decide : anchor_state_mask &&& anchor_tag_mask = 0),
    anchor_tag_and_tag, Nat.zero_or, Nat.zero_or, Nat.zero_or]

theorem try_heap_put_partial_descs (desc : Nat) (s : malloc_state) :
    ( try_heap_put_partial desc s).1 = true ∧ ( try_heap_put_partial desc s).2.descs = s.descs := by
  unfold try_heap_put_partial
  simp only [atomic_compare_and_set_uint, if_true]
  split <;> simp [lf_block_queue_enqueue, set_sizeclass, set_procheap]

theorem heap_put_partial_descs (fuel desc : Nat) (s : malloc_state) (hfuel : 0 < fuel) :
    ∃ s2, heap_put_partial fuel desc s = some s2 ∧ s2.descs = s.descs := by
  obtain ⟨n, rfl⟩ : ∃ n, fuel = n + 1 := ⟨fuel - 1, by omega⟩
  have h := try_heap_put_partial_descs desc s
  refine ⟨( try_heap_put_partial desc s).2, ?_, h.2⟩
  unfold heap_put_partial
  rw [retry_loop]
  simp [h.1]

theorem update_partial_anchor (fuel desc morecredits : Nat) (s : malloc_state)
    (hfuel : 0 < fuel) :
    ∃ s2, update_partial fuel desc morecredits s = some (true, s2) ∧
      (s2.descs desc).des_anchor =
        anchor_set_credits (anchor_set_state (s.descs desc).des_anchor ANC_PARTIAL)
          ((anchor_get_credits (s.descs desc).des_anchor + morecredits) % UINT_RANGE) := by
  unfold update_partial
  simp only [atomic_compare_and_set_uint, if_true]
  obtain ⟨s2, h2, hd⟩ := heap_put_partial_descs fuel desc
    (set_desc s desc { s.descs desc with des_anchor :=
      (anchor_set_credits (anchor_set_state (s.descs desc).des_anchor ANC_PARTIAL)
          ((anchor_get_credits (s.descs desc).des_anchor + morecredits) % UINT_RANGE)) }) hfuel
  refine ⟨s2, ?_, ?_⟩
  · rw [h2]; rfl
  · rw [hd]; simp [set_desc]

theorem update_partial_loop_tag (desc morecredits fuel : Nat) (s : malloc_state)
    (hfuel : 0 < fuel) :
    ∃ s2, update_partial_loop desc morecredits fuel s = some s2 ∧
      anchor_get_tag (s2.descs desc).des_anchor = anchor_get_tag (s.descs desc).des_anchor := by
  obtain ⟨n, rfl⟩ : ∃ n, fuel = n + 1 := ⟨fuel - 1, by omega⟩
  obtain ⟨s2, h2, ha⟩ := update_partial_anchor (n + 1) desc morecredits s (by omega)
  refine ⟨s2, ?_, ?_⟩
  · rw [update_partial_loop, h2]; rfl
  · rw [ha, anchor_get_tag_set_credits, anchor_get_tag_set_state]

theorem update_active_tag (fuel heap desc morecredits : Nat) (s : malloc_state)
    (hfuel : 0 < fuel) :
    ∃ s2, update_active fuel heap desc morecredits s = some s2 ∧
      anchor_get_tag (s2.descs desc).des_anchor = anchor_get_tag (s.descs desc).des_anchor := by
  unfold update_active
  by_cases h : (s.procheaps heap).ph_active = 0
  · simp [atomic_compare_and_set_uint, h, set_procheap]
  · obtain ⟨s2, h2, ha⟩ := update_partial_loop_tag desc morecredits fuel
      (set_procheap s heap { s.procheaps heap with ph_active := (s.procheaps heap).ph_active })
      hfuel
    refine ⟨s2, ?_, ?_⟩
    · simp only [atomic_compare_and_set_uint, if_neg h]
      simpa using h2
    · rw [ha]; rfl

theorem pop_from_partial_tag (desc : Nat) (s : malloc_state) :
    anchor_get_tag (( pop_from_partial desc s).2.descs desc).des_anchor =
      (anchor_get_tag (s.descs desc).des_anchor + 1) % 2 ^ 42 := by
  simp [ pop_from_partial, atomic_compare_and_set_uint, set_desc, anchor_get_tag_set_tag]

theorem pop_from_active_finish (fuel procheap desc morecredits addr : Nat) (s1 : malloc_state)
    (c : Prop) [Decidable c] (hfuel : 0 < fuel) :
    ∃ s2, ((if c then update_active fuel procheap desc morecredits s1 else some s1).map
        fun s2 => (addr + CACHE_LINE_SIZE, set_mem s2 addr desc)) =
        some (addr + CACHE_LINE_SIZE, s2) ∧
      anchor_get_tag (s2.descs desc).des_anchor = anchor_get_tag (s1.descs desc).des_anchor := by
  by_cases hc : c
  · obtain ⟨s2, h2, ha⟩ := update_active_tag fuel procheap desc morecredits s1 hfuel
    exact ⟨set_mem s2 addr desc, by rw [if_pos hc, h2]; rfl, ha⟩
  · exact ⟨set_mem s1 addr desc, by rw [if_neg hc]; rfl, rfl⟩

theorem pop_from_active_newanchor_tag (active a v m : Nat) :
    anchor_get_tag
      (if 0 = active_get_credits active then
        if 0 = anchor_get_credits a then
          anchor_set_state (anchor_set_tag (anchor_set_avail a v) (anchor_get_tag a + 1)) ANC_FULL
        else anchor_set_credits (anchor_set_tag (anchor_set_avail a v) (anchor_get_tag a + 1))
          (uint_sub (anchor_get_credits
            (anchor_set_tag (anchor_set_avail a v) (anchor_get_tag a + 1))) m)
      else anchor_set_tag (anchor_set_avail a v) (anchor_get_tag a + 1)) =
      (anchor_get_tag a + 1) % 2 ^ 42 := by
  split
  · split
    · rw [anchor_get_tag_set_state, anchor_get_tag_set_tag]
    · rw [anchor_get_tag_set_credits, anchor_get_tag_set_tag]
  · rw [anchor_get_tag_set_tag]

theorem pop_from_active_tag (fuel procheap active : Nat) (s : malloc_state) (hfuel : 0 < fuel) :
    ∃ out s2, pop_from_active fuel procheap active s = some (out, s2) ∧ out ≠ 0 ∧
      anchor_get_tag (s2.descs (active_get_ptr active)).des_anchor =
        (anchor_get_tag (s.descs (active_get_ptr active)).des_anchor + 1) % 2 ^ 42 := by
  unfold pop_from_active
  simp only [atomic_compare_and_set_uint, if_true]
  refine (pop_from_active_finish fuel procheap _ _ _ _ _ hfuel).elim fun s2 h =>
    ⟨_, s2, h.1, ?_, ?_⟩
  · simp [CACHE_LINE_SIZE]
  · rw [h.2]
    simp only [set_desc, if_true]
    exact pop_from_active_newanchor_tag _ _ _ _

theorem malloc_from_partial_claim_tag (desc fuel : Nat) (s : malloc_state) (hfuel : 0 < fuel)
    (hne : ANC_EMPTY ≠ anchor_get_state (s.descs desc).des_anchor) :
    ∃ c s1, malloc_from_partial_claim desc fuel s = some (some c, s1) ∧
      anchor_get_tag (s1.descs desc).des_anchor = anchor_get_tag (s.descs desc).des_anchor := by
  obtain ⟨n, rfl⟩ : ∃ n, fuel = n + 1 := ⟨fuel - 1, by omega⟩
  rw [malloc_from_partial_claim]
  simp only [atomic_compare_and_set_uint, if_true, if_pos hne]
  exact ⟨_, _, rfl, by
    simp only [set_desc, if_true, anchor_get_tag_set_credits, anchor_get_tag_set_state]⟩

theorem malloc_desc_retire_anchor (fuel desc : Nat) (s : malloc_state) (hfuel : 0 < fuel) :
    ∃ s2, malloc_desc_retire fuel desc s = some s2 ∧
      ∀ d, (s2.descs d).des_anchor = (s.descs d).des_anchor := by
  obtain ⟨n, rfl⟩ : ∃ n, fuel = n + 1 := ⟨fuel - 1, by omega⟩
  refine ⟨(malloc_try_desc_retire desc s).2, ?_, ?_⟩
  · unfold malloc_desc_retire
    rw [retry_loop]
    simp [malloc_try_desc_retire, atomic_compare_and_set_uint, set_desc]
  · intro d
    simp only [malloc_try_desc_retire, atomic_compare_and_set_uint, set_desc]
    split <;> simp_all

theorem remove_empty_desc_anchor (fuel heap desc : Nat) (s : malloc_state) (hfuel : 0 < fuel) :
    ∃ s2, remove_empty_desc fuel heap desc s = some s2 ∧
      ∀ d, (s2.descs d).des_anchor = (s.descs d).des_anchor := by
  unfold remove_empty_desc
  by_cases h : procheap_t.ph_partial (s.procheaps heap) = desc
  · simp only [atomic_compare_and_set_uint, if_pos h, if_true]
    exact malloc_desc_retire_anchor fuel desc _ hfuel
  · simp only [atomic_compare_and_set_uint, if_neg h, Bool.false_eq_true, if_false]
    split
    · exact ⟨_, rfl, fun d => rfl⟩
    · exact ⟨_, rfl, fun d => rfl⟩

theorem try_free_newanchor_tag (a offset m : Nat) (c : Prop) [Decidable c] :
    anchor_get_tag
      (if c then
        anchor_set_state (anchor_set_avail
          (if ANC_FULL = anchor_get_state a then anchor_set_state a ANC_PARTIAL else a) offset)
          ANC_EMPTY
      else anchor_set_credits (anchor_set_avail
          (if ANC_FULL = anchor_get_state a then anchor_set_state a ANC_PARTIAL else a) offset)
          m) = anchor_get_tag a := by
  split
  · rw [anchor_get_tag_set_state, anchor_get_tag_set_avail]
    split
    · rw [anchor_get_tag_set_state]
    · rfl
  · rw [anchor_get_tag_set_credits, anchor_get_tag_set_avail]
    split
    · rw [anchor_get_tag_set_state]
    · rfl

theorem try_free_finish_empty (fuel desc heap : Nat) (o : Option slice_state)
    (f : slice_state → malloc_state) (b : Bool) (s2 : malloc_state) (hfuel : 0 < fuel)
    (h : (o.bind fun a => Option.map (fun s4 => (true, s4))
      (remove_empty_desc fuel heap desc (f a))) = some (b, s2)) :
    b = true ∧ ∃ sl3, (s2.descs desc).des_anchor = ((f sl3).descs desc).des_anchor := by
  cases o with
  | none => simp at h
  | some sl3 =>
    obtain ⟨s4, h4, ha⟩ := remove_empty_desc_anchor fuel heap desc (f sl3) hfuel
    simp only [Option.some_bind, h4, Option.map_some', Option.some.injEq, Prod.mk.injEq] at h
    exact ⟨h.1.symm, sl3, by rw [← h.2, ha desc]⟩

theorem try_free_finish_full (fuel desc : Nat) (s1 s2 : malloc_state) (b : Bool)
    (hfuel : 0 < fuel)
    (h : Option.map (fun s3 => (true, s3)) ( heap_put_partial fuel desc s1) = some (b, s2)) :
    b = true ∧ (s2.descs desc).des_anchor = (s1.descs desc).des_anchor := by
  obtain ⟨s3, h3, hd⟩ := heap_put_partial_descs fuel desc s1 hfuel
  simp only [h3, Option.map_some', Option.some.injEq, Prod.mk.injEq] at h
  exact ⟨h.1.symm, by rw [← h.2, hd]⟩

theorem try_free_tag (fuel desc ptr : Nat) (s s2 : malloc_state) (b : Bool) (hfuel : 0 < fuel)
    (h : try_free fuel desc ptr s = some (b, s2)) :
    b = true ∧
      anchor_get_tag (s2.descs desc).des_anchor = anchor_get_tag (s.descs desc).des_anchor := by
  unfold try_free at h
  by_cases hem : anchor_get_credits (s.descs desc).des_anchor =
      uint_sub (s.descs desc).des_maxcount 1 <;>
  by_cases hfull : ANC_FULL = anchor_get_state (s.descs desc).des_anchor <;>
  simp only [atomic_compare_and_set_uint, set_mem, hem, hfull, if_true, if_false] at h <;>
  split at h
  all_goals first
    | (obtain ⟨hb, sl3, h1⟩ := try_free_finish_empty fuel desc _ _ _ b s2 hfuel h
       refine ⟨hb, ?_⟩
       rw [h1]
       simp only [set_desc, if_true, anchor_get_tag_set_state, anchor_get_tag_set_avail,
         anchor_get_tag_set_credits])
    | (have h1 := try_free_finish_full fuel desc _ s2 b hfuel h
       refine ⟨h1.1, ?_⟩
       rw [h1.2]
       simp only [set_desc, if_true, anchor_get_tag_set_state, anchor_get_tag_set_avail,
         anchor_get_tag_set_credits])
    | (simp only [Option.some.injEq, Prod.mk.injEq] at h
       refine ⟨h.1.symm, ?_⟩
       rw [← h.2]
       simp only [set_desc, if_true, anchor_get_tag_set_state, anchor_get_tag_set_avail,
         anchor_get_tag_set_credits])
    | simp at h

/-- C26 (fails as stated): the compare-and-set of `try_free` installs an anchor
with the old tag.  After two allocations the anchor of the superblock has tag
1; the release of the first block replaces the anchor by another one whose
tag is 1 again. -/
theorem try_free_keeps_anchor_tag :
    malloc_anchor_history =
      some [0x7bf00000000000, 0xbbf00000000001, 0x3c000000000001] ∧
    malloc_anchor_history.map (fun l => l.map anchor_get_tag) = some [0, 1, 1] := by
  decide!

/-- C26 (amended): the compare-and-sets of `pop_from_active` and
`pop_from_partial` install an anchor whose tag is the previous tag plus one
modulo `2 ^ 42`; those of the partial-claim step of `malloc_from_partial`, of
`update_partial` and of `try_free` install an anchor with the previous tag.
One executor runs, so each compare-and-set succeeds, and with some fuel the
first four return. -/
theorem anchor_tag_advances_only_in_pops (fuel : Nat) (s : malloc_state) (hfuel : 0 < fuel) :
    (∀ procheap active, ∃ out s2,
      pop_from_active fuel procheap active s = some (out, s2) ∧ out ≠ 0 ∧
      anchor_get_tag (s2.descs (active_get_ptr active)).des_anchor =
        (anchor_get_tag (s.descs (active_get_ptr active)).des_anchor + 1) % 2 ^ 42) ∧
    (∀ desc, anchor_get_tag (( pop_from_partial desc s).2.descs desc).des_anchor =
        (anchor_get_tag (s.descs desc).des_anchor + 1) % 2 ^ 42) ∧
    (∀ desc, ANC_EMPTY ≠ anchor_get_state (s.descs desc).des_anchor →
      ∃ c s1, malloc_from_partial_claim desc fuel s = some (some c, s1) ∧
        anchor_get_tag (s1.descs desc).des_anchor = anchor_get_tag (s.descs desc).des_anchor) ∧
    (∀ desc morecredits, ∃ s2, update_partial fuel desc morecredits s = some (true, s2) ∧
      anchor_get_tag (s2.descs desc).des_anchor = anchor_get_tag (s.descs desc).des_anchor) ∧
    (∀ desc ptr b s2, try_free fuel desc ptr s = some (b, s2) →
      b = true ∧
      anchor_get_tag (s2.descs desc).des_anchor = anchor_get_tag (s.descs desc).des_anchor) := by
  refine ⟨fun procheap active => pop_from_active_tag fuel procheap active s hfuel,
    fun desc => pop_from_partial_tag desc s,
    fun desc hne => malloc_from_partial_claim_tag desc fuel s hfuel hne, ?_,
    fun desc ptr b s2 h => try_free_tag fuel desc ptr s s2 b hfuel h⟩
  intro desc morecredits
  obtain ⟨s2, h2, ha⟩ := update_partial_anchor fuel desc morecredits s hfuel
  exact ⟨s2, h2, by rw [ha, anchor_get_tag_set_credits, anchor_get_tag_set_state]⟩

theorem anchor_tag_advances_only_in_pops_witness :
    ∃ out s2,
      pop_from_active 3 1 (malloc_state_after_malloc.procheaps 1).ph_active
        malloc_state_after_malloc = some (out, s2) ∧ out ≠ 0 ∧
      anchor_get_tag (s2.descs
        (active_get_ptr (malloc_state_after_malloc.procheaps 1).ph_active)).des_anchor =
        (anchor_get_tag (malloc_state_after_malloc.descs
          (active_get_ptr (malloc_state_after_malloc.procheaps 1).ph_active)).des_anchor + 1)
          % 2 ^ 42 :=
  (anchor_tag_advances_only_in_pops 3 malloc_state_after_malloc (by decide)).1 1
    (malloc_state_after_malloc.procheaps 1).ph_active

/-! ### Thread mailboxes at a scheduling cycle -/

/-- C21: a scheduling cycle of a live executor that switches from its current
thread `A` to another thread `B`.  The executor slot of the mailbox of `A`
holds `thread_mbox_null_executor` and its other slots are as before.  The
mailbox of `B` holds the executor id, the address of the signal word, the
write log, the write-log index read from the mailbox of `A`, and the
allocators of the executor, and its return-address slot is as before.
`context_load` is called with the return address and the stack pointer that
the mailbox of `B` held before the cycle. -/
theorem do_executor_sched_cycle_mbox_switch (A B : Nat) (s : mbox_state)
    (hlive : s.executor_live ≠ 0) (hA : A ≠ 0) (hAB : A ≠ B) :
    ((do_executor_sched_cycle_mbox A B s).t_mbox A thread_mbox_executor =
        s.thread_mbox_null_executor ∧
      ∀ slot, slot ≠ thread_mbox_executor →
        (do_executor_sched_cycle_mbox A B s).t_mbox A slot = s.t_mbox A slot) ∧
    ((do_executor_sched_cycle_mbox A B s).t_mbox B thread_mbox_executor = s.ex_id ∧
      (do_executor_sched_cycle_mbox A B s).t_mbox B thread_mbox_sigptr =
        s.ex_signal_mbox_addr ∧
      (do_executor_sched_cycle_mbox A B s).t_mbox B thread_mbox_write_log =
        s.ex_gc_write_log ∧
      (do_executor_sched_cycle_mbox A B s).t_mbox B thread_mbox_write_log_index =
        s.t_mbox A thread_mbox_write_log_index ∧
      (do_executor_sched_cycle_mbox A B s).t_mbox B thread_mbox_allocators =
        s.ex_gc_allocators ∧
      (do_executor_sched_cycle_mbox A B s).t_mbox B thread_mbox_retaddr =
        s.t_mbox B thread_mbox_retaddr) ∧
    (do_executor_sched_cycle_mbox A B s).context_loads =
      s.context_loads ++ [(s.t_mbox B thread_mbox_retaddr, s.t_mbox B thread_mbox_stkptr)] := by
  have hA0 : ¬ 0 = A := fun h => hA h.symm
  have hBA : ¬ B = A := fun h => hAB h.symm
  simp only [do_executor_sched_cycle_mbox, if_pos hlive, executor_retire_old_thread_mbox,
    executor_get_new_thread_mbox, mbox_store, ne_eq, hA0, not_false_eq_true, if_true]
  refine ⟨⟨?_, ?_⟩, ⟨?_, ?_, ?_, ?_, ?_, ?_⟩, ?_⟩
  · simp [hAB]
  · intro slot hslot
    simp [hAB, hslot]
  all_goals simp [hBA, thread_mbox_allocators, thread_mbox_write_log,
    thread_mbox_write_log_index, thread_mbox_sigptr, thread_mbox_executor,
    thread_mbox_stkptr, thread_mbox_retaddr]

theorem do_executor_sched_cycle_mbox_switch_witness :
    ((do_executor_sched_cycle_mbox 0x5000 0x7000 mbox_state_sample).t_mbox 0x5000
        thread_mbox_executor = 0xffffffff ∧
      ∀ slot, slot ≠ thread_mbox_executor →
        (do_executor_sched_cycle_mbox 0x5000 0x7000 mbox_state_sample).t_mbox 0x5000 slot =
          mbox_state_sample.t_mbox 0x5000 slot) ∧
    ((do_executor_sched_cycle_mbox 0x5000 0x7000 mbox_state_sample).t_mbox 0x7000
        thread_mbox_executor = 1 ∧
      (do_executor_sched_cycle_mbox 0x5000 0x7000 mbox_state_sample).t_mbox 0x7000
        thread_mbox_sigptr = 0x8004 ∧
      (do_executor_sched_cycle_mbox 0x5000 0x7000 mbox_state_sample).t_mbox 0x7000
        thread_mbox_write_log = 0xa000 ∧
      (do_executor_sched_cycle_mbox 0x5000 0x7000 mbox_state_sample).t_mbox 0x7000
        thread_mbox_write_log_index = 0x5004 ∧
      (do_executor_sched_cycle_mbox 0x5000 0x7000 mbox_state_sample).t_mbox 0x7000
        thread_mbox_allocators = 0xb000 ∧
      (do_executor_sched_cycle_mbox 0x5000 0x7000 mbox_state_sample).t_mbox 0x7000
        thread_mbox_retaddr = 0x7000) ∧
    (do_executor_sched_cycle_mbox 0x5000 0x7000 mbox_state_sample).context_loads =
      [] ++ [(0x7000, 0x7001)] :=
  do_executor_sched_cycle_mbox_switch 0x5000 0x7000 mbox_state_sample (by decide) (by decide)
    (by decide)

/-! ### Clearing a write log -/

/-- C30 (fails in the code): a write log with the entries `(A, 0)`, `(B, 0)`,
`(A, 0)`, where the addresses of `A` and `B` are equal modulo 4091.
`gc_thread_clear_write_log` passes three entries to
`gc_thread_process_write_entry`, the third, the second and the first: the
object `A` is processed twice.  At the end `gth_unique_list` is `NULL` and
the hash table is empty. -/
theorem gc_thread_clear_write_log_processes_twice :
    gc_write_log_outcome ((gc_thread_clear_write_log 8 3 1 false).run gc_write_log_state_aba) =
      .ok ([(0x5010, 0x10000), (0x5008, 0x2ff60), (0x5000, 0x10000)], 0, true) ∧
    gc_write_log_outcome ((gc_thread_clear_write_log 8 2 1 false).run gc_write_log_state_aba) =
      .ok ([(0x5008, 0x2ff60), (0x5000, 0x10000)], 0, true) := by
  decide!

/-! ### Scanning the retire list -/

theorem lf_thread_queue_scan_trace_loop_erase (ptab : List (List Nat)) (exec fuel : Nat) :
    ∀ (q : lf_thread_queue_t) (curr : Nat),
      (lf_thread_queue_scan_free_rlist_trace ptab exec fuel q curr).map Prod.snd =
        lf_thread_queue_scan_free_rlist_loop ptab exec fuel q curr := by
  induction fuel with
  | zero => intro q curr; rfl
  | succ n ih =>
    intro q curr
    rw [lf_thread_queue_scan_free_rlist_trace, lf_thread_queue_scan_free_rlist_loop]
    by_cases hc : 0 = curr
    · simp [hc]; rfl
    · simp only [ne_eq, hc, not_false_eq_true, if_true]
      cases hr : lfn_read q curr with
      | error e => rfl
      | ok nd =>
        simp only [bind, Except.bind]
        by_cases hl : lf_thread_queue_ptab_lookup ptab curr (q.lf_thread_queue_hptrs * 4 - 1) = true
        · simp only [hl, if_true]
          cases hs : lfn_set_next q curr (lf_hptrs_get q exec).thp_rlist with
          | error e => rfl
          | ok qa => exact ih _ _
        · simp only [hl, Bool.false_eq_true, if_false]
          cases hf : lf_thread_queue_node_free n q curr exec with
          | error e => rfl
          | ok q1 =>
            simp only []
            rw [← ih q1 nd.lfn_next]
            cases lf_thread_queue_scan_free_rlist_trace ptab exec n q1 nd.lfn_next <;> rfl


theorem qna_lists_get_set (q : lf_thread_queue_t) (exec : Nat) (l : lf_thread_queue_node_list_t)
    (h : exec < q.qna_lists.length) : qna_lists_get (qna_lists_set q exec l) exec = l := by
  simp [qna_lists_get, qna_lists_set, List.getD_eq_getElem?_getD, List.getElem?_set, h]

theorem lf_thread_queue_node_alloc_push_ok (fuel : Nat) (q : lf_thread_queue_t) (node : Nat)
    (hfuel : 0 < fuel) (hnode : node ≠ 0) :
    lf_thread_queue_node_alloc_push fuel q node =
      .ok { lfn_store q node { q.nodes node with lfn_next := q.qna_shared_list } with
        qna_shared_list := node } := by
  obtain ⟨n, rfl⟩ : ∃ n, fuel = n + 1 := ⟨fuel - 1, by omega⟩
  simp [lf_thread_queue_node_alloc_push, lf_thread_queue_node_alloc_try_push, lfn_set_next,
    hnode, atomic_compare_and_set_uint, lfn_store, bind, Except.bind, pure, Except.pure]

theorem lf_thread_queue_node_alloc_pull_ok (fuel : Nat) (q : lf_thread_queue_t)
    (hfuel : 0 < fuel) (hne : q.qna_shared_list ≠ 0) :
    lf_thread_queue_node_alloc_pull fuel q =
      .ok (q.qna_shared_list,
        { q with qna_shared_list := (q.nodes q.qna_shared_list).lfn_next }) := by
  obtain ⟨n, rfl⟩ : ∃ n, fuel = n + 1 := ⟨fuel - 1, by omega⟩
  have h0 : ¬ 0 = q.qna_shared_list := fun h => hne h.symm
  simp [lf_thread_queue_node_alloc_pull, lfn_read, hne, h0, atomic_compare_and_set_uint,
    bind, Except.bind, pure, Except.pure]


theorem lf_thread_queue_node_alloc_balance_frame (fuel : Nat) (q : lf_thread_queue_t)
    (exec node : Nat) (hfuel : 0 < fuel) (hnode : node ≠ 0) (hexec : exec < q.qna_lists.length)
    (hup : lf_thread_queue_allocator_upper_bound q < (qna_lists_get q exec).nl_count →
      (qna_lists_get q exec).nl_list = node)
    (hlow : lf_thread_queue_allocator_lower_bound q > (qna_lists_get q exec).nl_count →
      q.qna_shared_list = node) :
    ∃ q2, lf_thread_queue_node_alloc_balance fuel q exec = .ok q2 ∧
      (∀ a, a ≠ node → q2.nodes a = q.nodes a) ∧ q2.lf_hptrs = q.lf_hptrs ∧
      q2.lf_thread_queue_hptrs = q.lf_thread_queue_hptrs ∧ q2.qna_count = q.qna_count ∧
      q2.executor_num = q.executor_num ∧ q2.qna_lists.length = q.qna_lists.length ∧
      (qna_lists_get q2 exec).nl_count = (qna_lists_get q exec).nl_count := by
  unfold lf_thread_queue_node_alloc_balance
  by_cases h2 : lf_thread_queue_allocator_upper_bound q < (qna_lists_get q exec).nl_count
  · rw [if_pos h2, hup h2]
    simp only [bind, Except.bind, lf_thread_queue_node_alloc_push_ok fuel q node hfuel hnode,
      lfn_read, if_neg hnode, pure, Except.pure]
    refine ⟨_, rfl, ?_, rfl, rfl, rfl, rfl, ?_, ?_⟩
    · intro a ha
      simp [qna_lists_set, lfn_store, ha]
    · simp [qna_lists_set, lfn_store]
    · rw [qna_lists_get_set _ _ _ (by simpa [lfn_store] using hexec)]
      rfl
  · rw [if_neg h2]
    by_cases h3 : lf_thread_queue_allocator_lower_bound q > (qna_lists_get q exec).nl_count
    · rw [if_pos h3]
      have hs := hlow h3
      simp only [bind, Except.bind,
        lf_thread_queue_node_alloc_pull_ok fuel q hfuel (by rw [hs]; exact hnode), hs,
        lfn_set_next, if_neg hnode, pure, Except.pure]
      refine ⟨_, rfl, ?_, rfl, rfl, rfl, rfl, ?_, ?_⟩
      · intro a ha
        simp [qna_lists_set, lfn_store, ha]
      · simp [qna_lists_set, lfn_store]
      · rw [qna_lists_get_set _ _ _ (by simpa [lfn_store] using hexec)]
        rfl
    · rw [if_neg h3]
      exact ⟨q, rfl, fun _ _ => rfl, rfl, rfl, rfl, rfl, rfl, rfl⟩


theorem lf_thread_queue_node_free_frame (fuel : Nat) (q : lf_thread_queue_t) (node exec : Nat)
    (hfuel : 0 < fuel) (hnode : node ≠ 0) (hexec : exec < q.qna_lists.length)
    (hb : lf_thread_queue_allocator_lower_bound q ≤ lf_thread_queue_allocator_upper_bound q)
    (hc : (qna_lists_get q exec).nl_count + 1 < UINT_RANGE) :
    ∃ q1, lf_thread_queue_node_free fuel q node exec = .ok q1 ∧
      lf_node_free_frame exec node q q1 := by
  unfold lf_thread_queue_node_free lf_node_free_frame
  by_cases h1 : lf_thread_queue_allocator_lower_bound q < (qna_lists_get q exec).nl_count
  · simp only [if_pos h1, lfn_set_next, if_neg hnode, bind, Except.bind, pure, Except.pure]
    have hex1 : exec < (lfn_store q node
        { q.nodes node with lfn_next := (qna_lists_get q exec).nl_list }).qna_lists.length :=
      hexec
    have hcnt : (qna_lists_get (lfn_store q node
        { q.nodes node with lfn_next := (qna_lists_get q exec).nl_list }) exec).nl_count =
        (qna_lists_get q exec).nl_count := rfl
    obtain ⟨q2, h2, hn, hh, hp, hq, he, hl, hk⟩ :=
      lf_thread_queue_node_alloc_balance_frame fuel
        (qna_lists_set (lfn_store q node
          { q.nodes node with lfn_next := (qna_lists_get q exec).nl_list }) exec
          ⟨node, ((qna_lists_get (lfn_store q node
            { q.nodes node with lfn_next := (qna_lists_get q exec).nl_list }) exec).nl_count + 1)
            % UINT_RANGE⟩) exec node hfuel hnode (by simpa [qna_lists_set] using hexec)
        (fun _ => by rw [qna_lists_get_set _ _ _ hex1])
        (fun h => by
          rw [qna_lists_get_set _ _ _ hex1] at h
          have h' : lf_thread_queue_allocator_lower_bound q >
              ((qna_lists_get q exec).nl_count + 1) % UINT_RANGE := h
          rw [Nat.mod_eq_of_lt hc] at h'
          omega)
    refine ⟨q2, h2, ?_, ?_, ?_, ?_, ?_, ?_, ?_⟩
    · intro a ha
      rw [hn a ha]
      simp [qna_lists_set, lfn_store, ha]
    · rw [hh]; rfl
    · rw [hp]; rfl
    · rw [hq]; rfl
    · rw [he]; rfl
    · rw [hl]; simp [qna_lists_set, lfn_store]
    · rw [hk, qna_lists_get_set _ _ _ hex1, hcnt, Nat.mod_eq_of_lt hc]
  · rw [if_neg h1]
    simp only [bind, Except.bind, lf_thread_queue_node_alloc_push_ok fuel q node hfuel hnode]
    obtain ⟨q2, h2, hn, hh, hp, hq, he, hl, hk⟩ :=
      lf_thread_queue_node_alloc_balance_frame fuel
        { lfn_store q node { q.nodes node with lfn_next := q.qna_shared_list } with
          qna_shared_list := node } exec node hfuel hnode hexec
        (fun h => by
          have hu1 : lf_thread_queue_allocator_upper_bound
            { lfn_store q node { q.nodes node with lfn_next := q.qna_shared_list } with
              qna_shared_list := node } = lf_thread_queue_allocator_upper_bound q := rfl
          have hc1 : (qna_lists_get
            { lfn_store q node { q.nodes node with lfn_next := q.qna_shared_list } with
              qna_shared_list := node } exec).nl_count = (qna_lists_get q exec).nl_count := rfl
          rw [hu1, hc1] at h
          omega)
        (fun _ => rfl)
    refine ⟨q2, h2, ?_, ?_, ?_, ?_, ?_, ?_, ?_⟩
    · intro a ha
      rw [hn a ha]
      simp [lfn_store, ha]
    · rw [hh]; rfl
    · rw [hp]; rfl
    · rw [hq]; rfl
    · rw [he]; rfl
    · rw [hl]; rfl
    · rw [hk]
      exact Nat.le_succ_of_le (Nat.le_refl _)


theorem lf_thread_queue_ptab_insert_length (ptab : List (List Nat)) (a size : Nat) :
    (lf_thread_queue_ptab_insert ptab a size).length = ptab.length := by
  simp [lf_thread_queue_ptab_insert]

theorem lf_thread_queue_ptab_lookup_insert (ptab : List (List Nat)) (a n size : Nat)
    (hlen : ptab.length = size) (hsize : 0 < size) :
    lf_thread_queue_ptab_lookup (lf_thread_queue_ptab_insert ptab a size) n size =
      (n == a || lf_thread_queue_ptab_lookup ptab n size) := by
  unfold lf_thread_queue_ptab_lookup lf_thread_queue_ptab_insert
  have ha : (a >>> (CACHE_LINE_SIZE / 8)) % size < ptab.length := by
    rw [hlen]; exact Nat.mod_lt _ hsize
  by_cases hi : (n >>> (CACHE_LINE_SIZE / 8)) % size = (a >>> (CACHE_LINE_SIZE / 8)) % size
  · by_cases hna : n = a <;>
      simp [hi, List.getD_eq_getElem?_getD, List.getElem?_set, ha, hna]
  · have hna : n ≠ a := fun h => hi (by rw [h])
    have hi' : ¬ (a >>> (CACHE_LINE_SIZE / 8)) % size = (n >>> (CACHE_LINE_SIZE / 8)) % size :=
      fun h => hi h.symm
    simp [List.getD_eq_getElem?_getD, List.getElem?_set, hi', hna]

theorem lf_thread_queue_ptab_lookup_fold (q : lf_thread_queue_t) (n size : Nat)
    (hsize : 0 < size) (is : List Nat) :
    ∀ ptab : List (List Nat), ptab.length = size →
      lf_thread_queue_ptab_lookup (is.foldl (fun ptab i =>
        lf_thread_queue_ptab_insert
          (lf_thread_queue_ptab_insert ptab (lf_hptrs_get q i).thp_ptrs_0 size)
          (lf_hptrs_get q i).thp_ptrs_1 size) ptab) n size =
      ((is.flatMap fun i =>
        [(lf_hptrs_get q i).thp_ptrs_0, (lf_hptrs_get q i).thp_ptrs_1]).contains n ||
        lf_thread_queue_ptab_lookup ptab n size) := by
  induction is with
  | nil => intro ptab _; simp
  | cons i rest ih =>
    intro ptab hlen
    rw [List.foldl_cons, ih _ (by rw [lf_thread_queue_ptab_insert_length,
      lf_thread_queue_ptab_insert_length, hlen]),
      lf_thread_queue_ptab_lookup_insert _ _ _ _
        (by rw [lf_thread_queue_ptab_insert_length, hlen]) hsize,
      lf_thread_queue_ptab_lookup_insert _ _ _ _ hlen hsize]
    simp only [List.flatMap_cons, List.contains_eq_any_beq, List.any_append, List.any_cons,
      List.any_nil, Bool.or_false]
    cases (n == (lf_hptrs_get q i).thp_ptrs_0) <;> cases (n == (lf_hptrs_get q i).thp_ptrs_1) <;>
      simp [Bool.or_comm]

theorem lf_thread_queue_scan_build_ptab_lookup (q : lf_thread_queue_t) (n : Nat)
    (hh : 0 < q.lf_thread_queue_hptrs) :
    lf_thread_queue_ptab_lookup (lf_thread_queue_scan_build_ptab q) n
      (q.lf_thread_queue_hptrs * 4 - 1) = (lf_thread_queue_hazards q).contains n := by
  unfold lf_thread_queue_scan_build_ptab lf_thread_queue_hazards
  simp only []
  rw [lf_thread_queue_ptab_lookup_fold q n _ (by omega) _ _ (by simp)]
  simp [lf_thread_queue_ptab_lookup]


theorem lf_is_list_congr (nodes nodes1 : Nat → lf_thread_queue_node_t) (l : List Nat) :
    ∀ head, (∀ x ∈ l, nodes1 x = nodes x) →
      lf_is_list nodes1 head l = lf_is_list nodes head l := by
  induction l with
  | nil => intro head _; rfl
  | cons n rest ih =>
    intro head h
    rw [lf_is_list, lf_is_list, h n (List.mem_cons_self n rest),
      ih _ (fun x hx => h x (List.mem_cons_of_mem n hx))]

theorem lf_is_list_cons (nodes : Nat → lf_thread_queue_node_t) (head n : Nat) (rest : List Nat) :
    lf_is_list nodes head (n :: rest) = true ↔
      head = n ∧ n ≠ 0 ∧ lf_is_list nodes (nodes n).lfn_next rest = true := by
  simp [lf_is_list, and_assoc]

theorem lf_hptrs_get_set (q : lf_thread_queue_t) (exec : Nat) (h : lf_thread_queue_hazard_ptrs_t)
    (hexec : exec < q.lf_hptrs.length) : lf_hptrs_get (lf_hptrs_set q exec h) exec = h := by
  simp [lf_hptrs_get, lf_hptrs_set, List.getD_eq_getElem?_getD, List.getElem?_set, hexec]

theorem lf_hptrs_get_set_ptrs (q : lf_thread_queue_t) (exec i : Nat)
    (h : lf_thread_queue_hazard_ptrs_t) (hl : exec < q.lf_hptrs.length)
    (h0 : h.thp_ptrs_0 = (lf_hptrs_get q exec).thp_ptrs_0)
    (h1 : h.thp_ptrs_1 = (lf_hptrs_get q exec).thp_ptrs_1) :
    (lf_hptrs_get (lf_hptrs_set q exec h) i).thp_ptrs_0 = (lf_hptrs_get q i).thp_ptrs_0 ∧
    (lf_hptrs_get (lf_hptrs_set q exec h) i).thp_ptrs_1 = (lf_hptrs_get q i).thp_ptrs_1 := by
  by_cases hi : exec = i
  · subst hi
    rw [lf_hptrs_get_set q exec h hl]
    exact ⟨h0, h1⟩
  · simp [lf_hptrs_get, lf_hptrs_set, List.getD_eq_getElem?_getD, List.getElem?_set, hi]

theorem lf_thread_queue_allocator_bounds_congr (q q1 : lf_thread_queue_t)
    (hc : q1.qna_count = q.qna_count) (he : q1.executor_num = q.executor_num) :
    lf_thread_queue_allocator_lower_bound q1 = lf_thread_queue_allocator_lower_bound q ∧
    lf_thread_queue_allocator_upper_bound q1 = lf_thread_queue_allocator_upper_bound q := by
  unfold lf_thread_queue_allocator_lower_bound lf_thread_queue_allocator_upper_bound
  rw [hc, he]
  exact ⟨rfl, rfl⟩


theorem lf_thread_queue_scan_trace_loop_spec (ptab : List (List Nat)) (exec size0 : Nat)
    (P : Nat → Bool) (hP : ∀ n, lf_thread_queue_ptab_lookup ptab n size0 = P n) :
    ∀ (l : List Nat) (fuel : Nat) (q : lf_thread_queue_t) (k : List Nat) (curr : Nat),
      l.length < fuel → exec < q.lf_hptrs.length → exec < q.qna_lists.length →
      q.lf_thread_queue_hptrs * 4 - 1 = size0 →
      lf_thread_queue_allocator_lower_bound q ≤ lf_thread_queue_allocator_upper_bound q →
      (qna_lists_get q exec).nl_count + l.length < UINT_RANGE →
      lf_is_list q.nodes curr l = true →
      lf_is_list q.nodes (lf_hptrs_get q exec).thp_rlist k = true →
      (lf_hptrs_get q exec).thp_rcount = k.length →
      k.length + l.length < UINT_RANGE →
      l.Nodup → (∀ x ∈ l, x ∉ k) →
      ∃ q1, lf_thread_queue_scan_free_rlist_trace ptab exec fuel q curr =
          .ok (l.filter (fun n => !P n), q1) ∧
        lf_is_list q1.nodes (lf_hptrs_get q1 exec).thp_rlist ((l.filter P).reverse ++ k) = true ∧
        (lf_hptrs_get q1 exec).thp_rcount = (l.filter P).length + k.length ∧
        (∀ i, (lf_hptrs_get q1 i).thp_ptrs_0 = (lf_hptrs_get q i).thp_ptrs_0 ∧
          (lf_hptrs_get q1 i).thp_ptrs_1 = (lf_hptrs_get q i).thp_ptrs_1) ∧
        q1.lf_thread_queue_hptrs = q.lf_thread_queue_hptrs := by
  intro l
  induction l with
  | nil =>
    intro fuel q k curr hf _ _ _ _ _ hl hk hr _ _ _
    obtain ⟨f, rfl⟩ : ∃ f, fuel = f + 1 := ⟨fuel - 1, by simp at hf; omega⟩
    have hc : curr = 0 := by simpa [lf_is_list] using hl
    subst hc
    refine ⟨q, ?_, by simpa using hk, by simpa using hr, fun i => ⟨rfl, rfl⟩, rfl⟩
    rw [lf_thread_queue_scan_free_rlist_trace]
    rfl
  | cons n rest ih =>
    intro fuel q k curr hf hxh hxl hs hb hcnt hl hk hr hlen hnd hdis
    obtain ⟨f, rfl⟩ : ∃ f, fuel = f + 1 := ⟨fuel - 1, by simp at hf; omega⟩
    obtain ⟨hcn, hn0, hrest⟩ := (lf_is_list_cons _ _ _ _).mp hl
    rw [hcn]
    have hnr : n ∉ rest := (List.nodup_cons.mp hnd).1
    have hndr : rest.Nodup := (List.nodup_cons.mp hnd).2
    have hnk : n ∉ k := hdis n (List.mem_cons_self _ _)
    have h0n : 0 ≠ n := fun h => hn0 h.symm
    have hlen1 : rest.length + 1 < f + 1 := by simpa using hf
    have hcnt1 : (qna_lists_get q exec).nl_count + (rest.length + 1) < UINT_RANGE := by
      simpa using hcnt
    have hlen2 : k.length + (rest.length + 1) < UINT_RANGE := by simpa using hlen
    rw [lf_thread_queue_scan_free_rlist_trace]
    simp only [if_pos h0n, lfn_read, if_neg hn0, bind, Except.bind, hs, hP]
    cases hp : P n
    · simp only [Bool.false_eq_true, if_false]
      obtain ⟨q1, hfree, hnodes, hhp, hhn, hqc, hen, hll, hcount⟩ :=
        lf_thread_queue_node_free_frame f q n exec (by omega) hn0 hxl hb (by omega)
      obtain ⟨hlo, hupp⟩ := lf_thread_queue_allocator_bounds_congr q q1 hqc hen
      have hget : lf_hptrs_get q1 exec = lf_hptrs_get q exec := by
        simp [lf_hptrs_get, hhp]
      obtain ⟨q2, htr, hlist, hrc, hhz, hh2⟩ := ih f q1 k (q.nodes n).lfn_next (by omega)
        (by rw [hhp]; exact hxh) (by rw [hll]; exact hxl) (by rw [hhn]; exact hs)
        (by rw [hlo, hupp]; exact hb) (by omega)
        (by
          rw [lf_is_list_congr q.nodes q1.nodes rest _
            (fun x hx => hnodes x (fun h => hnr (h ▸ hx)))]
          exact hrest)
        (by
          rw [hget, lf_is_list_congr q.nodes q1.nodes k _
            (fun x hx => hnodes x (fun h => hnk (h ▸ hx)))]
          exact hk)
        (by rw [hget]; exact hr) (by omega) hndr
        (fun x hx => hdis x (List.mem_cons_of_mem _ hx))
      refine ⟨q2, ?_, ?_, ?_, ?_, ?_⟩
      · rw [hfree]
        simp only [htr, pure, Except.pure]
        simp [hp]
      · simpa [hp] using hlist
      · simpa [hp] using hrc
      · intro i
        rw [(hhz i).1, (hhz i).2]
        simp [lf_hptrs_get, hhp]
      · rw [hh2, hhn]
    · simp only [if_true, lfn_set_next, if_neg hn0]
      have hxh1 : exec < (lfn_store q n
          { q.nodes n with lfn_next := (lf_hptrs_get q exec).thp_rlist }).lf_hptrs.length := hxh
      obtain ⟨q2, htr, hlist, hrc, hhz, hh2⟩ := ih f
        (lf_hptrs_set (lfn_store q n
          { q.nodes n with lfn_next := (lf_hptrs_get q exec).thp_rlist }) exec
          { lf_hptrs_get (lfn_store q n
              { q.nodes n with lfn_next := (lf_hptrs_get q exec).thp_rlist }) exec with
            thp_rlist := n,
            thp_rcount := ((lf_hptrs_get (lfn_store q n
              { q.nodes n with lfn_next := (lf_hptrs_get q exec).thp_rlist }) exec).thp_rcount
                + 1) % UINT_RANGE })
        (n :: k) (q.nodes n).lfn_next (by omega)
        (by simpa [lf_hptrs_set, lfn_store] using hxh)
        (by simpa [lf_hptrs_set, lfn_store] using hxl) hs hb
        (by
          have h : (qna_lists_get q exec).nl_count + rest.length < UINT_RANGE := by omega
          exact h)
        (by
          rw [lf_is_list_congr q.nodes _ rest _ (fun x hx => by
            have hxn : x ≠ n := fun h => hnr (h ▸ hx)
            simp [lf_hptrs_set, lfn_store, hxn])]
          exact hrest)
        (by
          rw [lf_hptrs_get_set _ _ _ hxh1, lf_is_list_cons]
          refine ⟨rfl, hn0, ?_⟩
          have hnx : (lf_hptrs_set (lfn_store q n
            { q.nodes n with lfn_next := (lf_hptrs_get q exec).thp_rlist }) exec
            { lf_hptrs_get (lfn_store q n
                { q.nodes n with lfn_next := (lf_hptrs_get q exec).thp_rlist }) exec with
              thp_rlist := n,
              thp_rcount := ((lf_hptrs_get (lfn_store q n
                { q.nodes n with lfn_next := (lf_hptrs_get q exec).thp_rlist }) exec).thp_rcount
                  + 1) % UINT_RANGE }).nodes n =
              { q.nodes n with lfn_next := (lf_hptrs_get q exec).thp_rlist } := by
            simp [lf_hptrs_set, lfn_store]
          rw [hnx, lf_is_list_congr q.nodes _ k _ (fun x hx => by
            have hxn : x ≠ n := fun h => hnk (h ▸ hx)
            simp [lf_hptrs_set, lfn_store, hxn])]
          exact hk)
        (by
          rw [lf_hptrs_get_set _ _ _ hxh1]
          have hrc0 : (lf_hptrs_get (lfn_store q n
              { q.nodes n with lfn_next := (lf_hptrs_get q exec).thp_rlist }) exec).thp_rcount
              = k.length := hr
          simp only [hrc0, List.length_cons]
          exact Nat.mod_eq_of_lt (by omega))
        (by simp only [List.length_cons]; omega) hndr
        (fun x hx hxk => by
          rcases List.mem_cons.mp hxk with h | h
          · exact hnr (h ▸ hx)
          · exact hdis x (List.mem_cons_of_mem _ hx) h)
      refine ⟨q2, ?_, ?_, ?_, ?_, ?_⟩
      · rw [htr]
        simp [hp]
      · simpa [hp] using hlist
      · simp only [hp, List.filter_cons_of_pos, List.length_cons] at hrc ⊢
        omega
      · intro i
        rw [(hhz i).1, (hhz i).2]
        exact lf_hptrs_get_set_ptrs _ exec i _ hxh1 rfl rfl
      · rw [hh2]; rfl


theorem lf_is_list_unique (nodes : Nat → lf_thread_queue_node_t) (l1 : List Nat) :
    ∀ (l2 : List Nat) (head : Nat), lf_is_list nodes head l1 = true →
      lf_is_list nodes head l2 = true → l1 = l2 := by
  induction l1 with
  | nil =>
    intro l2 head h1 h2
    cases l2 with
    | nil => rfl
    | cons m r =>
      have h0 : head = 0 := by simpa [lf_is_list] using h1
      obtain ⟨hm, hm0, _⟩ := (lf_is_list_cons _ _ _ _).mp h2
      exact absurd (hm ▸ h0) hm0
  | cons n rest ih =>
    intro l2 head h1 h2
    obtain ⟨hn, hn0, hr⟩ := (lf_is_list_cons _ _ _ _).mp h1
    cases l2 with
    | nil =>
      have h0 : head = 0 := by simpa [lf_is_list] using h2
      exact absurd (hn ▸ h0) hn0
    | cons m r =>
      obtain ⟨hm, _, hr2⟩ := (lf_is_list_cons _ _ _ _).mp h2
      have hnm : n = m := hn.symm.trans hm
      subst hnm
      rw [ih r _ hr hr2]

theorem lf_is_list_after (nodes : Nat → lf_thread_queue_node_t) (n : Nat) (l : List Nat) :
    ∀ head, lf_is_list nodes head l = true → n ∈ l →
      ∃ b : List Nat, b.length < l.length ∧ lf_is_list nodes (nodes n).lfn_next b = true := by
  induction l with
  | nil => intro head _ hn; exact absurd hn (List.not_mem_nil n)
  | cons m r ih =>
    intro head h hn
    obtain ⟨_, _, hr⟩ := (lf_is_list_cons _ _ _ _).mp h
    rcases List.mem_cons.mp hn with hnm | hnr
    · subst hnm
      exact ⟨r, by simp, hr⟩
    · obtain ⟨b, hb, hbl⟩ := ih _ hr hnr
      exact ⟨b, by simp only [List.length_cons]; omega, hbl⟩

theorem lf_is_list_nodup (nodes : Nat → lf_thread_queue_node_t) (l : List Nat) :
    ∀ head, lf_is_list nodes head l = true → l.Nodup := by
  induction l with
  | nil => intro _ _; exact List.nodup_nil
  | cons n rest ih =>
    intro head h
    obtain ⟨_, _, hr⟩ := (lf_is_list_cons _ _ _ _).mp h
    refine List.nodup_cons.mpr ⟨fun hn => ?_, ih _ hr⟩
    obtain ⟨b, hb, hbl⟩ := lf_is_list_after nodes n rest _ hr hn
    have := lf_is_list_unique nodes rest b _ hr hbl
    rw [this] at hb
    exact Nat.lt_irrefl _ hb


/-- C28: `lf_thread_queue_scan(fifo, exec)` on a queue whose retire list of
`exec` is the `NULL`-terminated list `l`.  The call returns; the nodes it
passes to `lf_thread_queue_node_free` are, in order, the nodes of `l` that are
no published hazard pointer of any executor; the retire list then consists of
the other nodes of `l` (in reverse order), `thp_rcount` is their number, and
the hazard pointers are as before.  One executor runs; the private count
does not wrap and the allocator's lower bound is at most its upper bound. -/
theorem lf_thread_queue_scan_frees_unprotected (fuel : Nat) (q : lf_thread_queue_t)
    (exec : Nat) (l : List Nat)
    (hxh : exec < q.lf_hptrs.length) (hxl : exec < q.qna_lists.length)
    (hh : 0 < q.lf_thread_queue_hptrs)
    (hb : lf_thread_queue_allocator_lower_bound q ≤ lf_thread_queue_allocator_upper_bound q)
    (hcnt : (qna_lists_get q exec).nl_count + l.length < UINT_RANGE)
    (hl : lf_is_list q.nodes (lf_hptrs_get q exec).thp_rlist l = true)
    (hfuel : l.length < fuel) :
    ∃ q1, lf_thread_queue_scan fuel q exec = .ok q1 ∧
      lf_thread_queue_scan_trace fuel q exec =
        .ok (l.filter (fun n => !(lf_thread_queue_hazards q).contains n), q1) ∧
      lf_is_list q1.nodes (lf_hptrs_get q1 exec).thp_rlist
        (l.filter (fun n => (lf_thread_queue_hazards q).contains n)).reverse = true ∧
      (lf_hptrs_get q1 exec).thp_rcount =
        (l.filter (fun n => (lf_thread_queue_hazards q).contains n)).length ∧
      lf_thread_queue_hazards q1 = lf_thread_queue_hazards q := by
  have hxh0 : exec < (lf_hptrs_set q exec
      { lf_hptrs_get q exec with thp_rlist := 0, thp_rcount := 0 }).lf_hptrs.length := by
    simpa [lf_hptrs_set] using hxh
  obtain ⟨q1, htr, hlist, hrc, hhz, hh1⟩ :=
    lf_thread_queue_scan_trace_loop_spec (lf_thread_queue_scan_build_ptab q) exec
      (q.lf_thread_queue_hptrs * 4 - 1) (fun n => (lf_thread_queue_hazards q).contains n)
      (fun n => lf_thread_queue_scan_build_ptab_lookup q n hh) l fuel
      (lf_hptrs_set q exec { lf_hptrs_get q exec with thp_rlist := 0, thp_rcount := 0 })
      [] (lf_hptrs_get q exec).thp_rlist hfuel hxh0 hxl rfl hb hcnt hl
      (by rw [lf_hptrs_get_set _ _ _ hxh]; rfl)
      (by rw [lf_hptrs_get_set _ _ _ hxh]; rfl)
      (by simp only [List.length_nil]; omega)
      (lf_is_list_nodup _ _ _ hl) (fun _ _ => List.not_mem_nil _)
  refine ⟨q1, ?_, htr, by simpa using hlist, by simpa using hrc, ?_⟩
  · unfold lf_thread_queue_scan lf_thread_queue_scan_free_rlist
    simp only []
    rw [← lf_thread_queue_scan_trace_loop_erase, htr]
    rfl
  · unfold lf_thread_queue_hazards
    rw [hh1]
    have hq : ∀ i, (lf_hptrs_get q1 i).thp_ptrs_0 = (lf_hptrs_get q i).thp_ptrs_0 ∧
        (lf_hptrs_get q1 i).thp_ptrs_1 = (lf_hptrs_get q i).thp_ptrs_1 := fun i => by
      rw [(hhz i).1, (hhz i).2]
      exact lf_hptrs_get_set_ptrs q exec i _ hxh rfl rfl
    have hf : (fun i => [(lf_hptrs_get q1 i).thp_ptrs_0, (lf_hptrs_get q1 i).thp_ptrs_1]) =
        fun i => [(lf_hptrs_get q i).thp_ptrs_0, (lf_hptrs_get q i).thp_ptrs_1] := by
      funext i
      rw [(hq i).1, (hq i).2]
    simp only [lf_hptrs_set, hf]

theorem lf_thread_queue_scan_frees_unprotected_witness :
    ∃ q1, lf_thread_queue_scan 4 lf_thread_queue_retired 0 = .ok q1 ∧
      lf_thread_queue_scan_trace 4 lf_thread_queue_retired 0 =
        .ok ([0x1068, 0x1060, 0x1058].filter
          (fun n => !(lf_thread_queue_hazards lf_thread_queue_retired).contains n), q1) ∧
      lf_is_list q1.nodes (lf_hptrs_get q1 0).thp_rlist
        ([0x1068, 0x1060, 0x1058].filter
          (fun n => (lf_thread_queue_hazards lf_thread_queue_retired).contains n)).reverse
          = true ∧
      (lf_hptrs_get q1 0).thp_rcount =
        ([0x1068, 0x1060, 0x1058].filter
          (fun n => (lf_thread_queue_hazards lf_thread_queue_retired).contains n)).length ∧
      lf_thread_queue_hazards q1 = lf_thread_queue_hazards lf_thread_queue_retired :=
  lf_thread_queue_scan_frees_unprotected 4 lf_thread_queue_retired 0 [0x1068, 0x1060, 0x1058]
    (by decide) (by decide) (by decide) (by decide) (by decide) (by decide) (by decide)

/-! ### Generation and count of a surviving object -/

theorem gc_thread_new_gen_count_range (n oldgen gen count : Nat) (hn : n ≤ 256)
    (hg : gen < n) (hc : count ≤ 2) :
    (((gc_thread_new_gen_count n oldgen gen count).2 ≤ gc_gen_promote ∧
      ((gc_thread_new_gen_count n oldgen gen count).1 = gen ∨
        (gc_thread_new_gen_count n oldgen gen count).1 = gen + 1) ∧
      (gc_thread_new_gen_count n oldgen gen count).1 < n) ↔
    ¬ (gen = oldgen ∧ gen + 1 = n ∧ gen ≠ 0xff ∧ count = 2)) := by
  unfold gc_thread_new_gen_count gc_gen_promote UINT_RANGE
  split
  · split
    · simp only []
      constructor
      · intro _; omega
      · intro _; refine ⟨by omega, Or.inl trivial, hg⟩
    · simp only []
      rename_i h1 h2
      constructor
      · intro h; omega
      · intro h; refine ⟨by omega, Or.inr (by omega), by omega⟩
  · simp only []
    rename_i h1
    constructor
    · intro _; omega
    · intro _; exact ⟨by omega, Or.inl trivial, hg⟩

/-- C31 (fails in the code): with three generations, an object of the top
generation 2 that was in generation 2 before and has count 2 gets generation
3 from `gc_thread_new_gen_count`, which is no generation.  With count 1 it
stays in generation 2 with count 2, and an object that has just been
promoted to generation 2 stays there with count 0. -/
theorem gc_thread_new_gen_count_past_top :
    gc_thread_new_gen_count 3 2 2 2 = (3, 0) ∧
    gc_thread_new_gen_count 3 2 2 1 = (2, 2) ∧
    gc_thread_new_gen_count 3 1 2 2 = (2, 0) := by
  decide

/-! ### Reading back an initialised header -/

/-- C40 (fails in the code): a header at `0x10000` initialised with
forwarding pointer `0x20000`, flags 3, generation 1, next generation 2 and
count 1.  The accessors return the forwarding pointer, `NULL` as list
pointer, generation 1 and flags 3, but next generation 0 and count 0, while
the word written holds 2 and 1 in its second and third byte. -/
theorem gc_header_init_normal_next_gen_lost :
    gc_result ((gc_header_init_read_back 0x20000 0x3000 3 1 2 1 0x10000).run
      (gc_heap_of (fun _ => 0))) = .ok ((0x20000, 0, 1), (0, 0, 3)) ∧
    gc_word_after ((gc_header_init_read_back 0x20000 0x3000 3 1 2 1 0x10000).run
      (gc_heap_of (fun _ => 0))) 0x1000c = .ok 0x03010201 := by
  decide!

/-! ### The fields of an anchor -/

theorem nat_shiftLeft_and (a b i : Nat) : (a &&& b) <<< i = a <<< i &&& b <<< i := by
  apply Nat.eq_of_testBit_eq
  intro j
  simp only [Nat.testBit_shiftLeft, Nat.testBit_and]
  cases decide (j ≥ i) <;> simp

theorem nat_field_get (v s w m : Nat) (hm : m = (2 ^ w - 1) <<< s) :
    ((v <<< s) &&& m) >>> s = v % 2 ^ w := by
  rw [hm, ← nat_shiftLeft_and, Nat.shiftLeft_shiftRight, Nat.and_pow_two_sub_one_eq_mod]

theorem nat_and_and_disjoint (x m m1 : Nat) (h : m &&& m1 = 0) : (x &&& m) &&& m1 = 0 := by
  rw [Nat.and_assoc, h, Nat.and_zero]

theorem nat_and_and_self (x m : Nat) : (x &&& m) &&& m = x &&& m := by
  rw [Nat.and_assoc, Nat.and_self]

theorem nat_or4_and (x1 x2 x3 x4 m : Nat) :
    (x1 ||| x2 ||| x3 ||| x4) &&& m = (x1 &&& m) ||| (x2 &&& m) ||| (x3 &&& m) ||| (x4 &&& m) := by
  rw [nat_or_and_right, nat_or_and_right, nat_or_and_right]

theorem anchor_get_avail_set_avail (a v : Nat) :
    anchor_get_avail (anchor_set_avail a v) = v % 2 ^ 10 := by
  unfold anchor_get_avail anchor_set_avail
  rw [nat_or4_and]
  simp only [nat_and_and_self,
    nat_and_and_disjoint _ anchor_credits_mask anchor_avail_mask (by decide),
    nat_and_and_disjoint _ anchor_state_mask anchor_avail_mask (by decide),
    nat_and_and_disjoint _ anchor_tag_mask anchor_avail_mask (by decide),
    Nat.or_zero, Nat.zero_or]
  exact nat_field_get v anchor_avail_shift 10 anchor_avail_mask (by decide)

theorem anchor_get_avail_set_credits (a v : Nat) :
    anchor_get_avail (anchor_set_credits a v) = anchor_get_avail a := by
  unfold anchor_get_avail anchor_set_credits
  rw [nat_or4_and]
  simp only [nat_and_and_self,
    nat_and_and_disjoint _ anchor_credits_mask anchor_avail_mask (by decide),
    nat_and_and_disjoint _ anchor_state_mask anchor_avail_mask (by decide),
    nat_and_and_disjoint _ anchor_tag_mask anchor_avail_mask (by decide),
    Nat.or_zero, Nat.zero_or]

theorem anchor_get_avail_set_state (a v : Nat) :
    anchor_get_avail (anchor_set_state a v) = anchor_get_avail a := by
  unfold anchor_get_avail anchor_set_state
  rw [nat_or4_and]
  simp only [nat_and_and_self,
    nat_and_and_disjoint _ anchor_credits_mask anchor_avail_mask (by decide),
    nat_and_and_disjoint _ anchor_state_mask anchor_avail_mask (by decide),
    nat_and_and_disjoint _ anchor_tag_mask anchor_avail_mask (by decide),
    Nat.or_zero, Nat.zero_or]

theorem anchor_get_avail_set_tag (a v : Nat) :
    anchor_get_avail (anchor_set_tag a v) = anchor_get_avail a := by
  unfold anchor_get_avail anchor_set_tag
  rw [nat_or4_and]
  simp only [nat_and_and_self,
    nat_and_and_disjoint _ anchor_credits_mask anchor_avail_mask (by decide),
    nat_and_and_disjoint _ anchor_state_mask anchor_avail_mask (by decide),
    nat_and_and_disjoint _ anchor_tag_mask anchor_avail_mask (by decide),
    Nat.or_zero, Nat.zero_or]

theorem anchor_get_avail_create (avail credits state : Nat) :
    anchor_get_avail (anchor_create avail credits state) = avail % 2 ^ 10 := by
  unfold anchor_get_avail anchor_create
  rw [nat_or4_and]
  simp only [nat_and_and_self,
    nat_and_and_disjoint _ anchor_credits_mask anchor_avail_mask (by decide),
    nat_and_and_disjoint _ anchor_state_mask anchor_avail_mask (by decide),
    nat_and_and_disjoint _ anchor_tag_mask anchor_avail_mask (by decide),
    Nat.or_zero, Nat.zero_or, Nat.zero_and]
  exact nat_field_get avail anchor_avail_shift 10 anchor_avail_mask (by decide)

theorem anchor_get_credits_set_avail (a v : Nat) :
    anchor_get_credits (anchor_set_avail a v) = anchor_get_credits a := by
  unfold anchor_get_credits anchor_set_avail
  rw [nat_or4_and]
  simp only [nat_and_and_self,
    nat_and_and_disjoint _ anchor_avail_mask anchor_credits_mask (by decide),
    nat_and_and_disjoint _ anchor_state_mask anchor_credits_mask (by decide),
    nat_and_and_disjoint _ anchor_tag_mask anchor_credits_mask (by decide),
    Nat.or_zero, Nat.zero_or]

theorem anchor_get_credits_set_credits (a v : Nat) :
    anchor_get_credits (anchor_set_credits a v) = v % 2 ^ 10 := by
  unfold anchor_get_credits anchor_set_credits
  rw [nat_or4_and]
  simp only [nat_and_and_self,
    nat_and_and_disjoint _ anchor_avail_mask anchor_credits_mask (by decide),
    nat_and_and_disjoint _ anchor_state_mask anchor_credits_mask (by decide),
    nat_and_and_disjoint _ anchor_tag_mask anchor_credits_mask (by decide),
    Nat.or_zero, Nat.zero_or]
  exact nat_field_get v anchor_credits_shift 10 anchor_credits_mask (by decide)

theorem anchor_get_credits_set_state (a v : Nat) :
    anchor_get_credits (anchor_set_state a v) = anchor_get_credits a := by
  unfold anchor_get_credits anchor_set_state
  rw [nat_or4_and]
  simp only [nat_and_and_self,
    nat_and_and_disjoint _ anchor_avail_mask anchor_credits_mask (by decide),
    nat_and_and_disjoint _ anchor_state_mask anchor_credits_mask (by decide),
    nat_and_and_disjoint _ anchor_tag_mask anchor_credits_mask (by decide),
    Nat.or_zero, Nat.zero_or]

theorem anchor_get_credits_set_tag (a v : Nat) :
    anchor_get_credits (anchor_set_tag a v) = anchor_get_credits a := by
  unfold anchor_get_credits anchor_set_tag
  rw [nat_or4_and]
  simp only [nat_and_and_self,
    nat_and_and_disjoint _ anchor_avail_mask anchor_credits_mask (by decide),
    nat_and_and_disjoint _ anchor_state_mask anchor_credits_mask (by decide),
    nat_and_and_disjoint _ anchor_tag_mask anchor_credits_mask (by decide),
    Nat.or_zero, Nat.zero_or]

theorem anchor_get_credits_create (avail credits state : Nat) :
    anchor_get_credits (anchor_create avail credits state) = credits % 2 ^ 10 := by
  unfold anchor_get_credits anchor_create
  rw [nat_or4_and]
  simp only [nat_and_and_self,
    nat_and_and_disjoint _ anchor_avail_mask anchor_credits_mask (by decide),
    nat_and_and_disjoint _ anchor_state_mask anchor_credits_mask (by decide),
    nat_and_and_disjoint _ anchor_tag_mask anchor_credits_mask (by decide),
    Nat.or_zero, Nat.zero_or, Nat.zero_and]
  exact nat_field_get credits anchor_credits_shift 10 anchor_credits_mask (by decide)

theorem anchor_get_state_set_avail (a v : Nat) :
    anchor_get_state (anchor_set_avail a v) = anchor_get_state a := by
  unfold anchor_get_state anchor_set_avail
  rw [nat_or4_and]
  simp only [nat_and_and_self,
    nat_and_and_disjoint _ anchor_avail_mask anchor_state_mask (by decide),
    nat_and_and_disjoint _ anchor_credits_mask anchor_state_mask (by decide),
    nat_and_and_disjoint _ anchor_tag_mask anchor_state_mask (by decide),
    Nat.or_zero, Nat.zero_or]

theorem anchor_get_state_set_credits (a v : Nat) :
    anchor_get_state (anchor_set_credits a v) = anchor_get_state a := by
  unfold anchor_get_state anchor_set_credits
  rw [nat_or4_and]
  simp only [nat_and_and_self,
    nat_and_and_disjoint _ anchor_avail_mask anchor_state_mask (by decide),
    nat_and_and_disjoint _ anchor_credits_mask anchor_state_mask (by decide),
    nat_and_and_disjoint _ anchor_tag_mask anchor_state_mask (by decide),
    Nat.or_zero, Nat.zero_or]

theorem anchor_get_state_set_state (a v : Nat) :
    anchor_get_state (anchor_set_state a v) = v % 2 ^ 2 := by
  unfold anchor_get_state anchor_set_state
  rw [nat_or4_and]
  simp only [nat_and_and_self,
    nat_and_and_disjoint _ anchor_avail_mask anchor_state_mask (by decide),
    nat_and_and_disjoint _ anchor_credits_mask anchor_state_mask (by decide),
    nat_and_and_disjoint _ anchor_tag_mask anchor_state_mask (by decide),
    Nat.or_zero, Nat.zero_or]
  exact nat_field_get v anchor_state_shift 2 anchor_state_mask (by decide)

theorem anchor_get_state_set_tag (a v : Nat) :
    anchor_get_state (anchor_set_tag a v) = anchor_get_state a := by
  unfold anchor_get_state anchor_set_tag
  rw [nat_or4_and]
  simp only [nat_and_and_self,
    nat_and_and_disjoint _ anchor_avail_mask anchor_state_mask (by decide),
    nat_and_and_disjoint _ anchor_credits_mask anchor_state_mask (by decide),
    nat_and_and_disjoint _ anchor_tag_mask anchor_state_mask (by decide),
    Nat.or_zero, Nat.zero_or]

theorem anchor_get_state_create (avail credits state : Nat) :
    anchor_get_state (anchor_create avail credits state) = state % 2 ^ 2 := by
  unfold anchor_get_state anchor_create
  rw [nat_or4_and]
  simp only [nat_and_and_self,
    nat_and_and_disjoint _ anchor_avail_mask anchor_state_mask (by decide),
    nat_and_and_disjoint _ anchor_credits_mask anchor_state_mask (by decide),
    nat_and_and_disjoint _ anchor_tag_mask anchor_state_mask (by decide),
    Nat.or_zero, Nat.zero_or, Nat.zero_and]
  exact nat_field_get state anchor_state_shift 2 anchor_state_mask (by decide)

theorem anchor_get_tag_create (avail credits state : Nat) :
    anchor_get_tag (anchor_create avail credits state) = 0 := by
  unfold anchor_get_tag anchor_create
  rw [nat_or4_and]
  simp only [nat_and_and_disjoint _ anchor_avail_mask anchor_tag_mask (by decide),
    nat_and_and_disjoint _ anchor_credits_mask anchor_tag_mask (by decide),
    nat_and_and_disjoint _ anchor_state_mask anchor_tag_mask (by decide),
    Nat.or_zero, Nat.zero_or, Nat.zero_and]


/-- C39: the four masks of an anchor are pairwise disjoint and together cover
the 64-bit word, with fields of 10, 10, 2 and 42 bits.  For every anchor `a`
and value `v`, each setter followed by its own getter yields `v` modulo two
to the width of the field, and followed by another getter yields that field
of `a`; `anchor_create` yields the three given fields modulo their widths and
tag 0. -/
theorem anchor_fields_lossless (a v avail credits state : Nat) :
    (anchor_avail_mask ||| anchor_credits_mask ||| anchor_state_mask ||| anchor_tag_mask
        = 2 ^ 64 - 1 ∧
      anchor_avail_mask = (2 ^ 10 - 1) <<< anchor_avail_shift ∧
      anchor_credits_mask = (2 ^ 10 - 1) <<< anchor_credits_shift ∧
      anchor_state_mask = (2 ^ 2 - 1) <<< anchor_state_shift ∧
      anchor_tag_mask = 2 ^ 42 - 1) ∧
    (anchor_get_avail (anchor_set_avail a v) = v % 2 ^ 10 ∧
      anchor_get_credits (anchor_set_avail a v) = anchor_get_credits a ∧
      anchor_get_state (anchor_set_avail a v) = anchor_get_state a ∧
      anchor_get_tag (anchor_set_avail a v) = anchor_get_tag a) ∧
    (anchor_get_avail (anchor_set_credits a v) = anchor_get_avail a ∧
      anchor_get_credits (anchor_set_credits a v) = v % 2 ^ 10 ∧
      anchor_get_state (anchor_set_credits a v) = anchor_get_state a ∧
      anchor_get_tag (anchor_set_credits a v) = anchor_get_tag a) ∧
    (anchor_get_avail (anchor_set_state a v) = anchor_get_avail a ∧
      anchor_get_credits (anchor_set_state a v) = anchor_get_credits a ∧
      anchor_get_state (anchor_set_state a v) = v % 2 ^ 2 ∧
      anchor_get_tag (anchor_set_state a v) = anchor_get_tag a) ∧
    (anchor_get_avail (anchor_set_tag a v) = anchor_get_avail a ∧
      anchor_get_credits (anchor_set_tag a v) = anchor_get_credits a ∧
      anchor_get_state (anchor_set_tag a v) = anchor_get_state a ∧
      anchor_get_tag (anchor_set_tag a v) = v % 2 ^ 42) ∧
    (anchor_get_avail (anchor_create avail credits state) = avail % 2 ^ 10 ∧
      anchor_get_credits (anchor_create avail credits state) = credits % 2 ^ 10 ∧
      anchor_get_state (anchor_create avail credits state) = state % 2 ^ 2 ∧
      anchor_get_tag (anchor_create avail credits state) = 0) :=
  ⟨by decide,
   ⟨anchor_get_avail_set_avail a v, anchor_get_credits_set_avail a v,
    anchor_get_state_set_avail a v, anchor_get_tag_set_avail a v⟩,
   ⟨anchor_get_avail_set_credits a v, anchor_get_credits_set_credits a v,
    anchor_get_state_set_credits a v, anchor_get_tag_set_credits a v⟩,
   ⟨anchor_get_avail_set_state a v, anchor_get_credits_set_state a v,
    anchor_get_state_set_state a v, anchor_get_tag_set_state a v⟩,
   ⟨anchor_get_avail_set_tag a v, anchor_get_credits_set_tag a v,
    anchor_get_state_set_tag a v, anchor_get_tag_set_tag a v⟩,
   ⟨anchor_get_avail_create avail credits state, anchor_get_credits_create avail credits state,
    anchor_get_state_create avail credits state, anchor_get_tag_create avail credits state⟩⟩

/-! ### A freshly installed superblock -/

theorem set_desc_procheaps (s : malloc_state) (p : Nat) (d : descriptor_t) :
    (set_desc s p d).procheaps = s.procheaps := rfl

theorem set_desc_sl (s : malloc_state) (p : Nat) (d : descriptor_t) :
    (set_desc s p d).sl = s.sl := rfl

theorem set_desc_descs_self (s : malloc_state) (p : Nat) (d : descriptor_t) :
    (set_desc s p d).descs p = d := by
  simp only [set_desc, if_true]

theorem set_procheap_sl (s : malloc_state) (i : Nat) (h : procheap_t) :
    (set_procheap s i h).sl = s.sl := rfl

theorem set_procheap_descs (s : malloc_state) (i : Nat) (h : procheap_t) :
    (set_procheap s i h).descs = s.descs := rfl

theorem set_procheap_procheaps_self (s : malloc_state) (i : Nat) (h : procheap_t) :
    (set_procheap s i h).procheaps i = h := by
  simp only [set_procheap, if_true]

theorem set_mem_descs (s : malloc_state) (a v : Nat) : (set_mem s a v).descs = s.descs := rfl

theorem set_mem_procheaps (s : malloc_state) (a v : Nat) :
    (set_mem s a v).procheaps = s.procheaps := rfl

theorem set_mem_mem_self (s : malloc_state) (a v : Nat) : (set_mem s a v).mem a = v := by
  simp only [set_mem, if_true]

theorem block_list_loop_frame (addr sc_size : Nat) :
    ∀ (n i : Nat) (s : malloc_state),
      (block_list_loop addr sc_size n i s).descs = s.descs ∧
      (block_list_loop addr sc_size n i s).procheaps = s.procheaps ∧
      (block_list_loop addr sc_size n i s).sl = s.sl := by
  intro n
  induction n with
  | zero => intro i s; exact ⟨rfl, rfl, rfl⟩
  | succ k ih =>
    intro i s
    rw [block_list_loop]
    obtain ⟨h1, h2, h3⟩ := ih (i + 1) (set_mem s (addr + (sc_size * i) % UINT_RANGE) (i + 1))
    exact ⟨h1, h2, h3⟩

theorem malloc_from_new_sb_installed (fuel heap : Nat) (s : malloc_state)
    (a : Nat × slice_state) (d : Nat × malloc_state)
    (hsl : slice_alloc fuel SLICE_TYPE_MALLOC SLICE_PROT_RWX
      (s.sizeclasses (s.procheaps heap).ph_sizeclass).sc_block_size s.sl = some a)
    (hne : a.1 ≠ 0)
    (hd : desc_alloc fuel { s with sl := a.2 } = some d)
    (hact : (d.2.procheaps heap).ph_active = 0) :
    ∃ s1, malloc_from_new_sb fuel heap s =
        some ((d.2.sl.slices a.1).s_ptr + CACHE_LINE_SIZE, s1) ∧
      s1.mem ((d.2.sl.slices a.1).s_ptr) = d.1 ∧
      (s1.descs d.1).des_anchor =
        anchor_create 1 (uint_sub (uint_sub
          ((s.sizeclasses (s.procheaps heap).ph_sizeclass).sc_block_size /
            (s.sizeclasses (s.procheaps heap).ph_sizeclass).sc_size) 1)
          ((uint_sub (min (uint_sub
            ((s.sizeclasses (s.procheaps heap).ph_sizeclass).sc_block_size /
              (s.sizeclasses (s.procheaps heap).ph_sizeclass).sc_size) 1) MAX_CREDITS) 1 + 1)
            % UINT_RANGE)) ANC_ACTIVE ∧
      (s1.descs d.1).des_maxcount =
        (s.sizeclasses (s.procheaps heap).ph_sizeclass).sc_block_size /
          (s.sizeclasses (s.procheaps heap).ph_sizeclass).sc_size ∧
      (s1.procheaps heap).ph_active = active_create d.1
        (uint_sub (min (uint_sub
          ((s.sizeclasses (s.procheaps heap).ph_sizeclass).sc_block_size /
            (s.sizeclasses (s.procheaps heap).ph_sizeclass).sc_size) 1) MAX_CREDITS) 1) := by
  unfold malloc_from_new_sb
  dsimp only
  rw [hsl, Option.some_bind, if_pos hne, hd, Option.some_bind]
  generalize (s.sizeclasses (s.procheaps heap).ph_sizeclass).sc_block_size /
    (s.sizeclasses (s.procheaps heap).ph_sizeclass).sc_size = M
  obtain ⟨hf1, hf2, hf3⟩ := block_list_loop_frame (d.2.sl.slices a.1).s_ptr
    (s.sizeclasses (s.procheaps heap).ph_sizeclass).sc_size (uint_sub M 1 - 1) 1 d.2
  generalize block_list_loop (d.2.sl.slices a.1).s_ptr
    (s.sizeclasses (s.procheaps heap).ph_sizeclass).sc_size (uint_sub M 1 - 1) 1 d.2 = S3
    at hf1 hf2 hf3 ⊢
  generalize anchor_create 1
    (uint_sub (uint_sub M 1) ((uint_sub (min (uint_sub M 1) MAX_CREDITS) 1 + 1) % UINT_RANGE))
    ANC_ACTIVE = AN
  generalize active_create d.1 (uint_sub (min (uint_sub M 1) MAX_CREDITS) 1) = A
  have hcas : atomic_compare_and_set_uint 0 A 0 = (true, A) := rfl
  rw [set_desc_procheaps, hf2, hact, hcas, if_pos rfl, set_procheap_sl, set_desc_sl, hf3]
  refine ⟨_, rfl, ?_, ?_, ?_, ?_⟩
  · rw [set_mem_mem_self]
  · rw [set_mem_descs, set_procheap_descs, set_desc_descs_self]
  · rw [set_mem_descs, set_procheap_descs, set_desc_descs_self]
  · rw [set_mem_procheaps, set_procheap_procheaps_self]


theorem active_get_credits_create (ptr credits : Nat) :
    active_get_credits (active_create ptr credits) = credits % 2 ^ 6 := by
  unfold active_get_credits active_create
  rw [nat_or_and_right, nat_and_and_disjoint _ _ _ (by decide : active_ptr_mask &&&
    active_credits_mask = 0), nat_and_and_self, Nat.zero_or]
  have hm : active_credits_mask = 2 ^ 6 - 1 := by decide
  rw [hm, Nat.and_pow_two_sub_one_eq_mod]

theorem uint_range_value : UINT_RANGE = 4294967296 := by
  unfold UINT_RANGE
  norm_num

theorem uint_sub_of_le (a b : Nat) (hb : b ≤ a) (ha : a < 4294967296) : uint_sub a b = a - b := by
  unfold uint_sub
  rw [uint_range_value]
  omega

theorem malloc_from_new_sb_credits (m : Nat) (h2 : 2 ≤ m) (hm : m ≤ 1024) :
    uint_sub (min (uint_sub m 1) MAX_CREDITS) 1 = min (m - 1) MAX_CREDITS - 1 ∧
    uint_sub (uint_sub m 1) ((uint_sub (min (uint_sub m 1) MAX_CREDITS) 1 + 1) % UINT_RANGE) =
      (m - 1) - min (m - 1) MAX_CREDITS ∧
    min (m - 1) MAX_CREDITS - 1 < 2 ^ 6 ∧ (m - 1) - min (m - 1) MAX_CREDITS < 2 ^ 10 := by
  have h1 : uint_sub m 1 = m - 1 := uint_sub_of_le m 1 (by omega) (by omega)
  have hc : MAX_CREDITS = 64 := rfl
  rw [h1, hc]
  have h3 : uint_sub (min (m - 1) 64) 1 = min (m - 1) 64 - 1 :=
    uint_sub_of_le _ 1 (by omega) (by omega)
  rw [h3, uint_range_value]
  have h4 : (min (m - 1) 64 - 1 + 1) % 4294967296 = min (m - 1) 64 := by omega
  rw [h4]
  have h5 : uint_sub (m - 1) (min (m - 1) 64) = m - 1 - min (m - 1) 64 :=
    uint_sub_of_le _ _ (by omega) (by omega)
  rw [h5]
  refine ⟨rfl, rfl, ?_, ?_⟩ <;> omega


/-- The accounting of `malloc_from_new_sb` on a procheap whose size class has blocks of
`0x10000` bytes and `sc_size` from `0x40` to `0x4000` (every row of the ia32
table but the first), when the slice and the descriptor are obtained and the
procheap has no active superblock.  The call returns the first block; the
descriptor has `maxcount = 0x10000 / sc_size`, at most 1024; its anchor has
avail 1, state ACTIVE and credits `(maxcount - 1) - min (maxcount - 1) 64`,
the active word has credits `min (maxcount - 1) 64 - 1`, both as computed
without truncation, and active credits plus one plus anchor credits is
`maxcount - 1`. -/
theorem malloc_from_new_sb_accounts_blocks (fuel heap : Nat) (s : malloc_state)
    (a : Nat × slice_state) (d : Nat × malloc_state)
    (hsl : slice_alloc fuel SLICE_TYPE_MALLOC SLICE_PROT_RWX
      (s.sizeclasses (s.procheaps heap).ph_sizeclass).sc_block_size s.sl = some a)
    (hne : a.1 ≠ 0)
    (hd : desc_alloc fuel { s with sl := a.2 } = some d)
    (hact : (d.2.procheaps heap).ph_active = 0)
    (hbs : (s.sizeclasses (s.procheaps heap).ph_sizeclass).sc_block_size = 0x10000)
    (hlo : 0x40 ≤ (s.sizeclasses (s.procheaps heap).ph_sizeclass).sc_size)
    (hhi : (s.sizeclasses (s.procheaps heap).ph_sizeclass).sc_size ≤ 0x4000) :
    ∃ s1, malloc_from_new_sb fuel heap s =
        some ((d.2.sl.slices a.1).s_ptr + CACHE_LINE_SIZE, s1) ∧
      s1.mem ((d.2.sl.slices a.1).s_ptr) = d.1 ∧
      (s1.descs d.1).des_maxcount =
        0x10000 / (s.sizeclasses (s.procheaps heap).ph_sizeclass).sc_size ∧
      (s1.descs d.1).des_maxcount ≤ 1024 ∧
      anchor_get_avail (s1.descs d.1).des_anchor = 1 ∧
      anchor_get_state (s1.descs d.1).des_anchor = ANC_ACTIVE ∧
      active_get_credits (s1.procheaps heap).ph_active =
        min ((s1.descs d.1).des_maxcount - 1) MAX_CREDITS - 1 ∧
      anchor_get_credits (s1.descs d.1).des_anchor =
        ((s1.descs d.1).des_maxcount - 1) - min ((s1.descs d.1).des_maxcount - 1) MAX_CREDITS ∧
      (active_get_credits (s1.procheaps heap).ph_active + 1) +
        anchor_get_credits (s1.descs d.1).des_anchor = (s1.descs d.1).des_maxcount - 1 := by
  obtain ⟨s1, hrun, hmem, hanc, hmax, hactv⟩ :=
    malloc_from_new_sb_installed fuel heap s a d hsl hne hd hact
  rw [hbs] at hanc hmax hactv
  have hm4 : 4 ≤ 0x10000 / (s.sizeclasses (s.procheaps heap).ph_sizeclass).sc_size :=
    (Nat.le_div_iff_mul_le (by omega)).mpr (by omega)
  have hm1024 : 0x10000 / (s.sizeclasses (s.procheaps heap).ph_sizeclass).sc_size ≤ 1024 :=
    Nat.le_of_lt_succ ((Nat.div_lt_iff_lt_mul (by omega)).mpr (by omega))
  generalize 0x10000 / (s.sizeclasses (s.procheaps heap).ph_sizeclass).sc_size = m
    at hanc hmax hactv hm4 hm1024 ⊢
  obtain ⟨hc1, hc2, hc3, hc4⟩ := malloc_from_new_sb_credits m (by omega) hm1024
  rw [hc1] at hactv
  rw [hc2] at hanc
  have hcr : active_get_credits (s1.procheaps heap).ph_active =
      min (m - 1) MAX_CREDITS - 1 := by
    rw [hactv, active_get_credits_create, Nat.mod_eq_of_lt hc3]
  have hacr : anchor_get_credits (s1.descs d.1).des_anchor =
      (m - 1) - min (m - 1) MAX_CREDITS := by
    rw [hanc, anchor_get_credits_create, Nat.mod_eq_of_lt hc4]
  have hav : anchor_get_avail (s1.descs d.1).des_anchor = 1 := by
    rw [hanc, anchor_get_avail_create]
    rfl
  have hst : anchor_get_state (s1.descs d.1).des_anchor = ANC_ACTIVE := by
    rw [hanc, anchor_get_state_create]
    rfl
  refine ⟨s1, hrun, hmem, hmax, by rw [hmax]; exact hm1024, hav, hst, ?_, ?_, ?_⟩
  · rw [hmax]; exact hcr
  · rw [hmax]; exact hacr
  · rw [hmax, hcr, hacr]
    have hc : MAX_CREDITS = 64 := rfl
    rw [hc]
    omega


theorem option_eq_some_getD {α : Type} (o : Option α) (x : α) (h : o.isSome = true) :
    o = some (o.getD x) := by
  cases o with
  | none => exact absurd h (by simp)
  | some v => rfl

theorem malloc_from_new_sb_accounts_blocks_witness :
    ∃ s1, malloc_from_new_sb 3 1 malloc_state_boot =
        some ((malloc_boot_desc.2.sl.slices malloc_boot_slice.1).s_ptr + CACHE_LINE_SIZE, s1) ∧
      s1.mem ((malloc_boot_desc.2.sl.slices malloc_boot_slice.1).s_ptr) = malloc_boot_desc.1 ∧
      (s1.descs malloc_boot_desc.1).des_maxcount =
        0x10000 / (malloc_state_boot.sizeclasses
          (malloc_state_boot.procheaps 1).ph_sizeclass).sc_size ∧
      (s1.descs malloc_boot_desc.1).des_maxcount ≤ 1024 ∧
      anchor_get_avail (s1.descs malloc_boot_desc.1).des_anchor = 1 ∧
      anchor_get_state (s1.descs malloc_boot_desc.1).des_anchor = ANC_ACTIVE ∧
      active_get_credits (s1.procheaps 1).ph_active =
        min ((s1.descs malloc_boot_desc.1).des_maxcount - 1) MAX_CREDITS - 1 ∧
      anchor_get_credits (s1.descs malloc_boot_desc.1).des_anchor =
        ((s1.descs malloc_boot_desc.1).des_maxcount - 1) -
          min ((s1.descs malloc_boot_desc.1).des_maxcount - 1) MAX_CREDITS ∧
      (active_get_credits (s1.procheaps 1).ph_active + 1) +
        anchor_get_credits (s1.descs malloc_boot_desc.1).des_anchor =
          (s1.descs malloc_boot_desc.1).des_maxcount - 1 :=
  malloc_from_new_sb_accounts_blocks 3 1 malloc_state_boot malloc_boot_slice malloc_boot_desc
    (option_eq_some_getD _ _ (by decide!)) (by decide!)
    (option_eq_some_getD _ _ (by decide!)) (by decide!) (by decide!) (by decide!) (by decide!)

/-! ### Two log entries for one object -/

/-- C36 (fails in the code): a write log with the entries `(A, 0)` and
`(A, 4)` for a copied object `A`.  `gc_thread_clear_write_log` passes only the
first entry to `gc_thread_process_write_entry`: the word at offset 0 reaches
the copy, the word at offset 4 of the copy stays 0 although `A` holds
`0x18171615` there. -/
theorem gc_thread_clear_write_log_drops_second_offset :
    gc_write_log_outcome
      ((gc_thread_clear_write_log 8 2 1 false).run gc_write_log_state_two_offsets) =
      .ok ([(0x5000, 0x10000)], 0, true) ∧
    gc_write_log_word_after
      ((gc_thread_clear_write_log 8 2 1 false).run gc_write_log_state_two_offsets) 0x20020 =
      .ok 0x14131211 ∧
    gc_write_log_word_after
      ((gc_thread_clear_write_log 8 2 1 false).run gc_write_log_state_two_offsets) 0x20024 =
      .ok 0 ∧
    gc_write_log_word_after
      ((gc_thread_clear_write_log 8 2 1 false).run gc_write_log_state_two_offsets) 0x10024 =
      .ok 0x18171615 := by
  decide!


/-- C34: with the workshare `[0x7000, 0x7100]`, thread `0x7000` in state SUSPEND
and thread `0x7100` RUNNABLE, `scheduler_take_thread` stops after the first
thread: `0x7000` is discarded (its word becomes SUSPEND without the
reference), the local queue stays empty and the runnable thread `0x7100` is
still on the workshare.  The `-1` of a discarded thread is stored in a `bool`
and comes back as `1`, which the caller reads as taken. -/
theorem scheduler_take_thread_stops_after_discard :
    sched_state_view (scheduler_take_thread 4 (sched_state_workshare T_STAT_SUSPEND 0)) =
      .ok (([], 0, 0), ([0x7100], T_STAT_SUSPEND, T_STAT_RUNNABLE ||| T_REF)) ∧
    (scheduler_try_take_thread 0x7000 (sched_state_workshare T_STAT_SUSPEND 0)).1 = 1 ∧
    sched_state_view (scheduler_take_thread 4 (sched_state_workshare T_STAT_RUNNABLE 0)) =
      .ok (([0x7000], 1, 0), ([0x7100], T_STAT_RUNNABLE ||| T_REF, T_STAT_RUNNABLE ||| T_REF)) := by
  decide!

/-- C33: with a collection under way (`gc_state = 0x100`) and the thread
`0x7000` at the head of the workshare in state GC_WAIT, `sched_try_workshare`
installs `0x7000` as the current thread although `sched_set_running_status`
answered SKIP and left its status word `GC_WAIT | T_REF`; with the collector
inactive the same thread is installed with the word `RUNNING | T_REF`. -/
theorem sched_try_workshare_installs_skipped :
    sched_state_view (sched_try_workshare 4 (sched_state_workshare T_STAT_GC_WAIT 0x100)) =
      .ok (([], 1, 0x7000), ([0x7100], T_STAT_GC_WAIT ||| T_REF, T_STAT_RUNNABLE ||| T_REF)) ∧
    (sched_set_running_status 4 0x7000 (sched_state_workshare T_STAT_GC_WAIT 0x100).ex).map
      (fun r => r.1) = .ok action_t.SKIP ∧
    sched_state_view (sched_try_workshare 4 (sched_state_workshare T_STAT_GC_WAIT 0)) =
      .ok (([], 1, 0x7000), ([0x7100], T_STAT_RUNNING ||| T_REF, T_STAT_RUNNABLE ||| T_REF)) := by
  decide!


/-- C35: from a state with one RUNNING thread and `sched_active_threads = 1`,
deactivating that thread to GC_WAIT and activating it again leaves it
RUNNABLE with `sched_active_threads = 0`: the deactivation decrements for a
RUNNING thread, the activation does not increment for a GC_WAIT thread.  The
same round trip through SUSPEND ends with the count `1`. -/
theorem sched_active_threads_lost_through_gc_wait :
    cc_state_one_running.sched_active_threads = 1 ∧
    sched_count_active cc_state_one_running [0x5000, 0x7000] = 1 ∧
    sched_deactivate_activate T_STAT_GC_WAIT = some (0, 1, T_STAT_RUNNABLE ||| T_REF) ∧
    sched_deactivate_activate T_STAT_SUSPEND = some (1, 1, T_STAT_RUNNABLE ||| T_REF) := by
  decide!


/-- While the counter `gc_used_space[gen - 1]` differs from the value of the
pointer variable `gc_used_space`, the first loop of
`gc_allocator_update_sizes` does not end: the compare-and-set is handed the
address of the pointer variable. -/
theorem gc_allocator_update_used_spins (req_size gen fuel : Nat) (s : gc_alloc_state)
    (h : gc_space_value s s.gc_used_space ((gen + UINT_RANGE - 1) % UINT_RANGE) ≠
      s.gc_used_space) :
    gc_allocator_update_used req_size gen fuel s = .error .no_fuel := by
  induction fuel with
  | zero => rfl
  | succ n ih =>
    unfold gc_allocator_update_used
    simp [atomic_compare_and_set_uint, Ne.symm h, ih]

/-- C37: at start-up, with every free stack empty, a refresh for 16 bytes (the
call made by `gc_allocator_gc_prealloc(closure, 16, 1)`, with `min = 16`,
`target = 0x4000` and `for_gc` set, and likewise `gc_allocator_refresh` with
the hard ratio respected) leaves the first loop at `i = 0` with `i--`, and
the next pass indexes `gc_free_slices` at `0xffffffff`, outside the
`SLICE_POWERS = 18` entries: the test `i >= min_slice_power` of the unsigned
counter holds for every `i` when `min_slice_power` is `0`. -/
theorem gc_allocator_do_refresh_index_wraps :
    get_target_size 16 = 0x4000 ∧ SLICE_POWERS = 18 ∧
    gc_refresh_view (gc_allocator_do_refresh 4 (0, 0) 16 0x4000 1 true gc_alloc_state_boot) =
      .error (.slice_index 0xffffffff) ∧
    gc_refresh_view (gc_allocator_refresh 4 (0, 0) 16 0x4000 1 gc_alloc_state_boot) =
      .error (.slice_index 0xffffffff) := by
  decide!

/-- C38: `malloc_lf(0x3ee0, 0)` on the allocator at start-up selects the
procheap with index 32, whose size class is the first row of the table
(`sc_size = 0x20`), and installs a superblock of `0x10000 / 0x20 = 2048`
blocks.  One block is handed out and 63 credits go to the active word; the
remaining `2047 - 64 = 1983` do not fit the 10-bit credits field of the
anchor, which holds 959: `(63 + 1) + 959 = 1023`, so 1024 blocks are
accounted for nowhere.  A request of 16 bytes selects the second row
(`sc_size = 0x40`, 1024 blocks), where the same sum is `maxcount - 1`. -/
theorem malloc_lf_new_sb_credits_truncated :
    find_heap ((0x3ee0 + CACHE_LINE_SIZE) % UINT_RANGE) 0 = some 32 ∧
    (malloc_state_boot.sizeclasses (malloc_state_boot.procheaps 32).ph_sizeclass).sc_size
      = 0x20 ∧
    malloc_new_sb_view (malloc_lf 3 0x3ee0 0 malloc_state_boot) 32 =
      some ((0x40000020, 2048), (1, 959, ANC_ACTIVE), 63) ∧
    malloc_new_sb_view (malloc_lf 3 16 0 malloc_state_boot) 1 =
      some ((0x40000020, 1024), (1, 959, ANC_ACTIVE), 63) := by
  decide!
